import Mathlib

/-! # Platform backends of raylib4Consoles: Dreamcast, PlayStation 2, Vita

A shallow embedding of `src/platforms/rcore_dreamcast.c`,
`src/platforms/rcore_playstation2.c` and `src/platforms/rcore_vita.c`.

* The global `CORE` is an explicit `CoreData` value that every operation
  takes and returns.
* C arrays are total functions on `Nat` (an index is the C index).
* `float` values are rationals and arithmetic on them is exact. The conversion
  `(float)x` of an `int` rounds to the nearest binary32 value (`castFloat`)
  where a mouse position is computed (`SetMousePosition`, `InitPlatform`);
  the small controller readings of `MapControls` and the clock reading of
  `GetTime` are converted exactly.
* Calls into the vendor SDKs (KallistiOS maple, libpad, EGL, ps2gl) and into
  the parts of raylib that live in other files (`SetupFramebuffer`,
  `InitTimer`, `GetWorkingDirectory`) are fields of an environment record:
  the value the call returns, or the state transformer it stands for.
* Constants that come from headers outside the three files (`raylib.h`,
  `config.h`, the KallistiOS, libpad and EGL headers) are fields of a
  record of constants; the values of the upstream headers are given as
  one instance of each record.
-/

namespace Raylib

/-! ## Constants taken from headers -/

/-- Constants of `raylib.h` and `config.h` that the platform files name but
do not define. -/
structure RaylibConsts where
  MAX_KEYBOARD_KEYS : Nat
  MAX_TOUCH_POINTS : Nat
  MAX_GAMEPADS : Nat
  MAX_GAMEPAD_BUTTONS : Nat
  FLAG_FULLSCREEN_MODE : Nat
  FLAG_MSAA_4X_HINT : Nat
  GAMEPAD_BUTTON_LEFT_FACE_UP : Nat
  GAMEPAD_BUTTON_LEFT_FACE_RIGHT : Nat
  GAMEPAD_BUTTON_LEFT_FACE_DOWN : Nat
  GAMEPAD_BUTTON_LEFT_FACE_LEFT : Nat
  GAMEPAD_BUTTON_RIGHT_FACE_UP : Nat
  GAMEPAD_BUTTON_RIGHT_FACE_RIGHT : Nat
  GAMEPAD_BUTTON_RIGHT_FACE_DOWN : Nat
  GAMEPAD_BUTTON_RIGHT_FACE_LEFT : Nat
  GAMEPAD_BUTTON_LEFT_TRIGGER_1 : Nat
  GAMEPAD_BUTTON_LEFT_TRIGGER_2 : Nat
  GAMEPAD_BUTTON_RIGHT_TRIGGER_1 : Nat
  GAMEPAD_BUTTON_RIGHT_TRIGGER_2 : Nat
  GAMEPAD_BUTTON_MIDDLE_LEFT : Nat
  GAMEPAD_BUTTON_MIDDLE : Nat
  GAMEPAD_BUTTON_MIDDLE_RIGHT : Nat
  GAMEPAD_BUTTON_LEFT_THUMB : Nat
  GAMEPAD_BUTTON_RIGHT_THUMB : Nat
  GAMEPAD_AXIS_LEFT_X : Nat
  GAMEPAD_AXIS_LEFT_Y : Nat
  GAMEPAD_AXIS_RIGHT_X : Nat
  GAMEPAD_AXIS_RIGHT_Y : Nat
  GAMEPAD_AXIS_LEFT_TRIGGER : Nat
  GAMEPAD_AXIS_RIGHT_TRIGGER : Nat

/-- The values of the upstream `raylib.h` (enum `ConfigFlags`,
`GamepadButton`, `GamepadAxis`) and `config.h`. -/
def raylibConsts : RaylibConsts where
  MAX_KEYBOARD_KEYS := 512
  MAX_TOUCH_POINTS := 8
  MAX_GAMEPADS := 4
  MAX_GAMEPAD_BUTTONS := 32
  FLAG_FULLSCREEN_MODE := 2
  FLAG_MSAA_4X_HINT := 32
  GAMEPAD_BUTTON_LEFT_FACE_UP := 1
  GAMEPAD_BUTTON_LEFT_FACE_RIGHT := 2
  GAMEPAD_BUTTON_LEFT_FACE_DOWN := 3
  GAMEPAD_BUTTON_LEFT_FACE_LEFT := 4
  GAMEPAD_BUTTON_RIGHT_FACE_UP := 5
  GAMEPAD_BUTTON_RIGHT_FACE_RIGHT := 6
  GAMEPAD_BUTTON_RIGHT_FACE_DOWN := 7
  GAMEPAD_BUTTON_RIGHT_FACE_LEFT := 8
  GAMEPAD_BUTTON_LEFT_TRIGGER_1 := 9
  GAMEPAD_BUTTON_LEFT_TRIGGER_2 := 10
  GAMEPAD_BUTTON_RIGHT_TRIGGER_1 := 11
  GAMEPAD_BUTTON_RIGHT_TRIGGER_2 := 12
  GAMEPAD_BUTTON_MIDDLE_LEFT := 13
  GAMEPAD_BUTTON_MIDDLE := 14
  GAMEPAD_BUTTON_MIDDLE_RIGHT := 15
  GAMEPAD_BUTTON_LEFT_THUMB := 16
  GAMEPAD_BUTTON_RIGHT_THUMB := 17
  GAMEPAD_AXIS_LEFT_X := 0
  GAMEPAD_AXIS_LEFT_Y := 1
  GAMEPAD_AXIS_RIGHT_X := 2
  GAMEPAD_AXIS_RIGHT_Y := 3
  GAMEPAD_AXIS_LEFT_TRIGGER := 4
  GAMEPAD_AXIS_RIGHT_TRIGGER := 5

/-! ## The global state `CORE` -/

/-- Width and height pair, `Size` of `rcore.c`. -/
structure Size where
  width : Int
  height : Int
  deriving DecidableEq, Repr

/-- Integer point, `Point` of `rcore.c`. -/
structure Point where
  x : Int
  y : Int
  deriving DecidableEq, Repr

/-- Two floats, `Vector2` of `raylib.h`; the components are exact rationals. -/
structure Vector2 where
  x : ℚ
  y : ℚ
  deriving DecidableEq

/-- The 4x4 `Matrix` of `raylib.h`, field names as in the header. -/
structure Matrix where
  m0 : ℚ
  m4 : ℚ
  m8 : ℚ
  m12 : ℚ
  m1 : ℚ
  m5 : ℚ
  m9 : ℚ
  m13 : ℚ
  m2 : ℚ
  m6 : ℚ
  m10 : ℚ
  m14 : ℚ
  m3 : ℚ
  m7 : ℚ
  m11 : ℚ
  m15 : ℚ
  deriving DecidableEq

/-- Modelled from the spec: `MatrixIdentity` of `raymath.h` is not under
`src/`; the platform files only store its result ("No draw scaling required
by default"), the identity matrix. -/
def MatrixIdentity : Matrix :=
  { m0 := 1, m4 := 0, m8 := 0, m12 := 0,
    m1 := 0, m5 := 1, m9 := 0, m13 := 0,
    m2 := 0, m6 := 0, m10 := 1, m14 := 0,
    m3 := 0, m7 := 0, m11 := 0, m15 := 1 }

/-- The fields of `CORE.Window` that the platform files read or write. -/
structure WindowData where
  title : String
  flags : Nat
  ready : Bool
  fullscreen : Bool
  shouldClose : Bool
  eventWaiting : Bool
  display : Size
  screen : Size
  render : Size
  currentFbo : Size
  screenMin : Size
  screenMax : Size
  renderOffset : Point
  screenScale : Matrix

/-- The fields of `CORE.Input.Keyboard` that the platform files write. -/
structure KeyboardData where
  keyRepeatInFrame : Nat → Nat
  keyPressedQueueCount : Int
  charPressedQueueCount : Int

/-- The fields of `CORE.Input.Mouse` that the platform files write. -/
structure MouseData where
  currentPosition : Vector2
  previousPosition : Vector2
  scale : Vector2
  cursorHidden : Bool

/-- The fields of `CORE.Input.Touch` that the platform files read or write. -/
structure TouchData where
  currentTouchState : Nat → Nat
  previousTouchState : Nat → Nat

/-- The struct `CORE.Input.Gamepad`: `ready[MAX_GAMEPADS]`,
`currentButtonState[MAX_GAMEPADS][MAX_GAMEPAD_BUTTONS]` and so on. -/
structure GamepadData where
  lastButtonPressed : Int
  axisCount : Nat → Int
  ready : Nat → Bool
  currentButtonState : Nat → Nat → Nat
  previousButtonState : Nat → Nat → Nat
  axisState : Nat → Nat → ℚ

/-- The struct `CORE.Input`. -/
structure InputData where
  Keyboard : KeyboardData
  Mouse : MouseData
  Touch : TouchData
  Gamepad : GamepadData

/-- The struct `CORE.Storage`. -/
structure StorageData where
  basePath : String

/-- The struct `CORE.Time`; `base` is an `unsigned long long`. -/
structure TimeData where
  base : Nat

/-- The global state `CORE` (`CoreData` of `rcore.c`). -/
structure CoreData where
  Window : WindowData
  Input : InputData
  Storage : StorageData
  Time : TimeData

/-! ## The conversion of an `int` to `float` -/

/-- The distance between neighbouring `float` values (IEEE 754 binary32, a
24-bit significand) at the magnitude `n`: 1 below 2^24, and twice as much
with every further power of two. The first argument bounds the recursion;
`floatGap` gives it `n`, more than the halvings that can be made. -/
def floatGapAux : Nat → Nat → Nat
  | 0, _ => 1
  | fuel + 1, n => if n < 16777216 then 1 else 2 * floatGapAux fuel (n / 2)

/-- The distance between neighbouring `float` values at the magnitude of `x`. -/
def floatGap (x : Int) : Int := (floatGapAux x.natAbs x.natAbs : Nat)

/-- The `float` nearest to the integer `x`, as an integer: the multiple of
the gap just below `x` or the one just above, whichever is nearer, and of two
equally near ones the one with the even significand. Every `int` is within
the range of `float`. -/
def floatNearest (x : Int) : Int :=
  let gap := floatGap x
  let below := gap * (x / gap)
  if 2 * (x - below) < gap then below
  else if gap < 2 * (x - below) then below + gap
  else if (x / gap) % 2 = 0 then below
  else below + gap

/-- The conversion `(float)x` of an `int`: the nearest `float`. -/
def castFloat (x : Int) : ℚ := (floatNearest x : Int)

/-! ## Helpers for C arrays and loops -/

/-- Array store `a[i] = v`. -/
def set1 {α : Type} (a : Nat → α) (i : Nat) (v : α) : Nat → α :=
  fun i' => if i' = i then v else a i'

/-- Array store `a[i][j] = v`. -/
def set2 {α : Type} (a : Nat → Nat → α) (i j : Nat) (v : α) : Nat → Nat → α :=
  fun i' j' => if i' = i ∧ j' = j then v else a i' j'

/-- The loop `for (int i = 0; i < n; i++) body(i)`. -/
def forLoop {σ : Type} (body : Nat → σ → σ) : Nat → σ → σ
  | 0, s => s
  | n + 1, s => body n (forLoop body n s)

/-- Apply a state change to `CORE.Window`. -/
def CoreData.modWindow (CORE : CoreData) (f : WindowData → WindowData) : CoreData :=
  { CORE with Window := f CORE.Window }

/-- Apply a state change to `CORE.Input.Keyboard`. -/
def CoreData.modKeyboard (CORE : CoreData) (f : KeyboardData → KeyboardData) : CoreData :=
  { CORE with Input := { CORE.Input with Keyboard := f CORE.Input.Keyboard } }

/-- Apply a state change to `CORE.Input.Mouse`. -/
def CoreData.modMouse (CORE : CoreData) (f : MouseData → MouseData) : CoreData :=
  { CORE with Input := { CORE.Input with Mouse := f CORE.Input.Mouse } }

/-- Apply a state change to `CORE.Input.Touch`. -/
def CoreData.modTouch (CORE : CoreData) (f : TouchData → TouchData) : CoreData :=
  { CORE with Input := { CORE.Input with Touch := f CORE.Input.Touch } }

/-- Apply a state change to `CORE.Input.Gamepad`. -/
def CoreData.modGamepad (CORE : CoreData) (f : GamepadData → GamepadData) : CoreData :=
  { CORE with Input := { CORE.Input with Gamepad := f CORE.Input.Gamepad } }

/-- The first statements of `PollInputEvents`, the same text in the three
files: reset the key and char queues, the key repeats and the last gamepad
button, and register the previous touch states. `UpdateGestures` (under
`SUPPORT_GESTURES_SYSTEM`) works on the gesture module's own state, not on
`CORE`. -/
def pollReset (r : RaylibConsts) (CORE : CoreData) : CoreData :=
  let CORE := CORE.modKeyboard fun kb => { kb with keyPressedQueueCount := 0 }
  let CORE := CORE.modKeyboard fun kb => { kb with charPressedQueueCount := 0 }
  let CORE := forLoop
    (fun i c => c.modKeyboard fun kb =>
      { kb with keyRepeatInFrame := set1 kb.keyRepeatInFrame i 0 })
    r.MAX_KEYBOARD_KEYS CORE
  let CORE := CORE.modGamepad fun g => { g with lastButtonPressed := 0 }
  forLoop
    (fun i c => c.modTouch fun t =>
      { t with previousTouchState := set1 t.previousTouchState i (t.currentTouchState i) })
    r.MAX_TOUCH_POINTS CORE

/-- The loop "Register previous gamepad button states" for one pad:
`previousButtonState[pad][k] = currentButtonState[pad][k]` for
`k < MAX_GAMEPAD_BUTTONS`. -/
def registerPreviousButtons (r : RaylibConsts) (pad : Nat) (CORE : CoreData) : CoreData :=
  forLoop
    (fun k c => c.modGamepad fun g =>
      { g with
        previousButtonState := set2 g.previousButtonState pad k (g.currentButtonState pad k) })
    r.MAX_GAMEPAD_BUTTONS CORE

/-- One pass of the body of the button-map loop, the same text in
`MapControls` (Dreamcast) and `PollInputEvents` (PlayStation 2): `word` is
the vendor button word, `e` the table entry (vendor mask, raylib button). -/
def mapButton (pad : Nat) (word : Nat) (CORE : CoreData) (e : Nat × Nat) : CoreData :=
  if word &&& e.1 ≠ 0 then
    let CORE := CORE.modGamepad fun g =>
      { g with currentButtonState := set2 g.currentButtonState pad e.2 1 }
    CORE.modGamepad fun g => { g with lastButtonPressed := (e.2 : Int) }
  else
    CORE.modGamepad fun g =>
      { g with currentButtonState := set2 g.currentButtonState pad e.2 0 }

/-- The loop `for (j = 0; j < sizeof(buttonMap)/sizeof(buttonMap[0]); j++)`
over a button map. -/
def mapButtons (table : List (Nat × Nat)) (pad : Nat) (word : Nat) (CORE : CoreData) :
    CoreData :=
  table.foldl (mapButton pad word) CORE

/-- Conversion to `uint16_t`, the type of the vendor mask in both button maps. -/
def toU16 (n : Nat) : Nat := n % 65536

/-- The window and mouse assignments at the head of `InitPlatform`, the same
text in the Dreamcast and the Vita file, from `CORE.Window.fullscreen = true`
to `CORE.Input.Mouse.scale = (Vector2){ 1.0f, 1.0f }`. The mouse position is
`(float)CORE.Window.screen.width/2.0f`: the conversion rounds, the halving is
exact. -/
def initWindowState (r : RaylibConsts) (CORE : CoreData) : CoreData :=
  let CORE := CORE.modWindow fun w => { w with fullscreen := true }
  let CORE := CORE.modWindow fun w => { w with flags := w.flags ||| r.FLAG_FULLSCREEN_MODE }
  let CORE := CORE.modWindow fun w => { w with display := { w.display with width := w.screen.width } }
  let CORE := CORE.modWindow fun w => { w with display := { w.display with height := w.screen.height } }
  let CORE := CORE.modWindow fun w => { w with render := { w.render with width := w.screen.width } }
  let CORE := CORE.modWindow fun w => { w with render := { w.render with height := w.screen.height } }
  let CORE := CORE.modWindow fun w => { w with eventWaiting := false }
  let CORE := CORE.modWindow fun w => { w with screenScale := MatrixIdentity }
  let CORE := CORE.modWindow fun w => { w with currentFbo := { w.currentFbo with width := w.screen.width } }
  let CORE := CORE.modWindow fun w => { w with currentFbo := { w.currentFbo with height := w.screen.height } }
  let CORE := CORE.modMouse fun m =>
    { m with currentPosition :=
      { m.currentPosition with x := castFloat CORE.Window.screen.width / 2 } }
  let CORE := CORE.modMouse fun m =>
    { m with currentPosition :=
      { m.currentPosition with y := castFloat CORE.Window.screen.height / 2 } }
  CORE.modMouse fun m => { m with scale := { x := 1, y := 1 } }

/-- The four assignments after `SetupFramebuffer` in `InitPlatform`, the same
text in the three files: `render` takes the screen size and `currentFbo` the
render size. -/
def syncRenderSize (CORE : CoreData) : CoreData :=
  let CORE := CORE.modWindow fun w => { w with render := { w.render with width := w.screen.width } }
  let CORE := CORE.modWindow fun w => { w with render := { w.render with height := w.screen.height } }
  let CORE := CORE.modWindow fun w => { w with currentFbo := { w.currentFbo with width := w.render.width } }
  CORE.modWindow fun w => { w with currentFbo := { w.currentFbo with height := w.render.height } }

/-- The functions of `rcore.c` that `InitPlatform` calls in the three files.
`SetupFramebuffer width height` may change `CORE` in any way. `InitTimer`
("Initialize hi-res timer") is a transformer of `CORE.Time`, and
`GetWorkingDirectory` returns a string. -/
structure CoreEnv where
  SetupFramebuffer : Int → Int → CoreData → CoreData
  InitTimer : TimeData → TimeData
  GetWorkingDirectory : String

/-- The last statements of `InitPlatform`, the same text in the three files:
`CORE.Window.ready = true`, `InitTimer()` and the storage base path. -/
def finishInit (env : CoreEnv) (CORE : CoreData) : CoreData :=
  let CORE := CORE.modWindow fun w => { w with ready := true }
  let CORE := { CORE with Time := env.InitTimer CORE.Time }
  { CORE with Storage := { CORE.Storage with basePath := env.GetWorkingDirectory } }

/-! ## Dreamcast (`rcore_dreamcast.c`) -/

namespace Dreamcast

/-- Function `WindowShouldClose` of the Dreamcast file: the return value and
`CORE` after the call. -/
def WindowShouldClose (CORE : CoreData) : Bool × CoreData :=
  if CORE.Window.ready then (CORE.Window.shouldClose, CORE)
  else (true, CORE)

/-- The controller button masks of the KallistiOS header
`dc/maple/controller.h` that the button map names. -/
structure KosConsts where
  CONT_START : Nat
  CONT_A : Nat
  CONT_B : Nat
  CONT_X : Nat
  CONT_Y : Nat
  CONT_Z : Nat
  CONT_D : Nat
  CONT_DPAD_UP : Nat
  CONT_DPAD_DOWN : Nat
  CONT_DPAD_LEFT : Nat
  CONT_DPAD_RIGHT : Nat

/-- The values of the KallistiOS header. -/
def kosConsts : KosConsts where
  CONT_START := 8
  CONT_A := 4
  CONT_B := 2
  CONT_X := 1024
  CONT_Y := 512
  CONT_Z := 256
  CONT_D := 2048
  CONT_DPAD_UP := 16
  CONT_DPAD_DOWN := 32
  CONT_DPAD_LEFT := 64
  CONT_DPAD_RIGHT := 128

/-- The controller state `cont_state_t` of KallistiOS: the button word and
the six analog readings. -/
structure cont_state_t where
  buttons : Nat
  ltrig : Int
  rtrig : Int
  joyx : Int
  joyy : Int
  joy2x : Int
  joy2y : Int

/-- The table `buttonMap`: pairs (`dcbutton`, `raylibButton`) in source order. -/
def buttonMap (k : KosConsts) (r : RaylibConsts) : List (Nat × Nat) :=
  [ (toU16 k.CONT_START, r.GAMEPAD_BUTTON_MIDDLE_RIGHT),
    (toU16 k.CONT_A, r.GAMEPAD_BUTTON_RIGHT_FACE_DOWN),
    (toU16 k.CONT_B, r.GAMEPAD_BUTTON_RIGHT_FACE_RIGHT),
    (toU16 k.CONT_X, r.GAMEPAD_BUTTON_RIGHT_FACE_LEFT),
    (toU16 k.CONT_Y, r.GAMEPAD_BUTTON_RIGHT_FACE_UP),
    (toU16 k.CONT_Z, r.GAMEPAD_BUTTON_LEFT_TRIGGER_1),
    (toU16 k.CONT_D, r.GAMEPAD_BUTTON_RIGHT_TRIGGER_1),
    (toU16 k.CONT_DPAD_UP, r.GAMEPAD_BUTTON_LEFT_FACE_UP),
    (toU16 k.CONT_DPAD_DOWN, r.GAMEPAD_BUTTON_LEFT_FACE_DOWN),
    (toU16 k.CONT_DPAD_LEFT, r.GAMEPAD_BUTTON_LEFT_FACE_LEFT),
    (toU16 k.CONT_DPAD_RIGHT, r.GAMEPAD_BUTTON_LEFT_FACE_RIGHT) ]

/-- The store `CORE.Input.Gamepad.axisState[padIndex][axis] = v`. -/
def setAxis (padIndex axis : Nat) (v : ℚ) (CORE : CoreData) : CoreData :=
  CORE.modGamepad fun g => { g with axisState := set2 g.axisState padIndex axis v }

/-- Function `MapControls`: the button loop, the six axes, the axis count. -/
def MapControls (k : KosConsts) (r : RaylibConsts) (padIndex : Nat)
    (dcPadState : cont_state_t) (CORE : CoreData) : CoreData :=
  let CORE := mapButtons (buttonMap k r) padIndex dcPadState.buttons CORE
  let CORE := setAxis padIndex r.GAMEPAD_AXIS_LEFT_X ((dcPadState.joyx : ℚ) / 128) CORE
  let CORE := setAxis padIndex r.GAMEPAD_AXIS_LEFT_Y ((dcPadState.joyy : ℚ) / 128) CORE
  let CORE := setAxis padIndex r.GAMEPAD_AXIS_RIGHT_X ((dcPadState.joy2x : ℚ) / 128) CORE
  let CORE := setAxis padIndex r.GAMEPAD_AXIS_RIGHT_Y ((dcPadState.joy2y : ℚ) / 128) CORE
  let CORE := setAxis padIndex r.GAMEPAD_AXIS_LEFT_TRIGGER ((dcPadState.ltrig : ℚ) / 255) CORE
  let CORE := setAxis padIndex r.GAMEPAD_AXIS_RIGHT_TRIGGER ((dcPadState.rtrig : ℚ) / 255) CORE
  CORE.modGamepad fun g => { g with axisCount := set1 g.axisCount padIndex 6 }

/-- The maple bus as `PollInputEvents` sees it: `maple_enum_type padIndex
MAPLE_FUNC_CONTROLLER` gives a device (a handle) or `NULL`, and
`maple_dev_status` gives the state of a device or `NULL`. -/
structure Maple where
  maple_enum_type : Nat → Option Nat
  maple_dev_status : Nat → Option cont_state_t

/-- The body of the loop over `padIndex` in `PollInputEvents`. The test
`if (!CORE.Input.Gamepad.ready[padIndex]) continue;` reads back the flag just
stored, which is whether `cont` is not `NULL`: it is the `none` case of the
match on `cont`. -/
def pollPad (k : KosConsts) (r : RaylibConsts) (maple : Maple) (padIndex : Nat)
    (CORE : CoreData) : CoreData :=
  let cont := maple.maple_enum_type padIndex
  let CORE := CORE.modGamepad fun g => { g with ready := set1 g.ready padIndex cont.isSome }
  match cont with
  | none => CORE
  | some dev =>
    let CORE := registerPreviousButtons r padIndex CORE
    match maple.maple_dev_status dev with
    | none => CORE
    | some dcPadState => MapControls k r padIndex dcPadState CORE

/-- Function `PollInputEvents` of the Dreamcast file. -/
def PollInputEvents (k : KosConsts) (r : RaylibConsts) (maple : Maple) (CORE : CoreData) :
    CoreData :=
  let CORE := pollReset r CORE
  forLoop (pollPad k r maple) r.MAX_GAMEPADS CORE

/-- Function `InitPlatform` of the Dreamcast file; the result is the return
value and the new `CORE`. `glKosInit` does not touch `CORE`. -/
def InitPlatform (r : RaylibConsts) (env : CoreEnv) (CORE : CoreData) : Int × CoreData :=
  let CORE := initWindowState r CORE
  let CORE := env.SetupFramebuffer CORE.Window.display.width CORE.Window.display.height CORE
  let CORE := syncRenderSize CORE
  let CORE := finishInit env CORE
  (0, CORE)

end Dreamcast

/-! ## PlayStation 2 (`rcore_playstation2.c`) -/

namespace PlayStation2

/-- Function `WindowShouldClose` of the PlayStation 2 file: the return value and
`CORE` after the call. -/
def WindowShouldClose (CORE : CoreData) : Bool × CoreData :=
  if CORE.Window.ready then (CORE.Window.shouldClose, CORE)
  else (true, CORE)

/-- Constants of the PS2SDK header `libpad.h` that the file names. -/
structure PadConsts where
  PAD_SELECT : Nat
  PAD_START : Nat
  PAD_CROSS : Nat
  PAD_CIRCLE : Nat
  PAD_SQUARE : Nat
  PAD_TRIANGLE : Nat
  PAD_L1 : Nat
  PAD_L2 : Nat
  PAD_R1 : Nat
  PAD_R2 : Nat
  PAD_UP : Nat
  PAD_DOWN : Nat
  PAD_LEFT : Nat
  PAD_RIGHT : Nat
  PAD_L3 : Nat
  PAD_R3 : Nat
  PAD_STATE_DISCONN : Int
  PAD_STATE_FINDCTP1 : Int
  PAD_STATE_STABLE : Int
  PAD_MODECURID : Int
  PAD_MODECUREXID : Int
  PAD_MODETABLE : Int
  PAD_TYPE_DUALSHOCK : Int
  PAD_MMODE_DUALSHOCK : Int
  PAD_MMODE_LOCK : Int

/-- The values of the PS2SDK header. -/
def padConsts : PadConsts where
  PAD_SELECT := 0x0001
  PAD_START := 0x0008
  PAD_CROSS := 0x4000
  PAD_CIRCLE := 0x2000
  PAD_SQUARE := 0x8000
  PAD_TRIANGLE := 0x1000
  PAD_L1 := 0x0400
  PAD_L2 := 0x0100
  PAD_R1 := 0x0800
  PAD_R2 := 0x0200
  PAD_UP := 0x0010
  PAD_DOWN := 0x0040
  PAD_LEFT := 0x0080
  PAD_RIGHT := 0x0020
  PAD_L3 := 0x0002
  PAD_R3 := 0x0004
  PAD_STATE_DISCONN := 0
  PAD_STATE_FINDCTP1 := 2
  PAD_STATE_STABLE := 6
  PAD_MODECURID := 1
  PAD_MODECUREXID := 2
  PAD_MODETABLE := 4
  PAD_TYPE_DUALSHOCK := 7
  PAD_MMODE_DUALSHOCK := 1
  PAD_MMODE_LOCK := 3

/-- The table `buttonMap`: pairs (`ps2Button`, `raylibButton`) in source order. -/
def buttonMap (c : PadConsts) (r : RaylibConsts) : List (Nat × Nat) :=
  [ (toU16 c.PAD_SELECT, r.GAMEPAD_BUTTON_MIDDLE_LEFT),
    (toU16 c.PAD_START, r.GAMEPAD_BUTTON_MIDDLE_RIGHT),
    (toU16 c.PAD_CROSS, r.GAMEPAD_BUTTON_RIGHT_FACE_DOWN),
    (toU16 c.PAD_CIRCLE, r.GAMEPAD_BUTTON_RIGHT_FACE_RIGHT),
    (toU16 c.PAD_SQUARE, r.GAMEPAD_BUTTON_RIGHT_FACE_LEFT),
    (toU16 c.PAD_TRIANGLE, r.GAMEPAD_BUTTON_RIGHT_FACE_UP),
    (toU16 c.PAD_L1, r.GAMEPAD_BUTTON_LEFT_TRIGGER_1),
    (toU16 c.PAD_L2, r.GAMEPAD_BUTTON_LEFT_TRIGGER_2),
    (toU16 c.PAD_R1, r.GAMEPAD_BUTTON_RIGHT_TRIGGER_1),
    (toU16 c.PAD_R2, r.GAMEPAD_BUTTON_RIGHT_TRIGGER_2),
    (toU16 c.PAD_UP, r.GAMEPAD_BUTTON_LEFT_FACE_UP),
    (toU16 c.PAD_DOWN, r.GAMEPAD_BUTTON_LEFT_FACE_DOWN),
    (toU16 c.PAD_LEFT, r.GAMEPAD_BUTTON_LEFT_FACE_LEFT),
    (toU16 c.PAD_RIGHT, r.GAMEPAD_BUTTON_LEFT_FACE_RIGHT),
    (toU16 c.PAD_L3, r.GAMEPAD_BUTTON_LEFT_THUMB),
    (toU16 c.PAD_R3, r.GAMEPAD_BUTTON_RIGHT_THUMB) ]

/-- Pixel storage formats of `GS::` that the file names. -/
inductive Psm where
  | kPsm32
  | kPsm24
  | kPsmz24
  | kPsm8
  deriving DecidableEq, Repr

/-- The vendor calls with an effect outside the program, with their
arguments. A slot or area handle is the ordinal of the call that made it
(the first `pglAddGsMemSlot` gives slot 0). -/
inductive Call where
  | SetTraceLogCallback
  | SifInitRpc (mode : Int)
  | SifLoadModule (path : String)
  | padInit (mode : Int)
  | padPortOpen (port slot : Nat)
  | padSetMainMode (port slot : Nat) (mode lock : Int)
  | padInfoPressMode (port slot : Nat)
  | padEnterPressMode (port slot : Nat)
  | padSetActAlign (port slot : Nat) (align : List Nat)
  | gifCtrl (value : Nat)
  | SetGsCrt (interlace mode field : Int)
  | pglInit (immBufferVertexSize immDrawBufferSize : Int)
  | pglAddGsMemSlot (startingPage pageLength : Nat) (psm : Psm)
  | pglLockGsMemSlot (slot : Nat)
  | pglCreateGsMemArea (width height : Nat) (psm : Psm)
  | pglBindGsMemAreaToSlot (area slot : Nat)
  | pglSetDrawBuffers (frame0 frame1 depth : Nat)
  | pglSetDisplayBuffers (frame0 frame1 : Nat)
  | pglEndGeometry
  | pglFinishRenderingGeometry
  | pglWaitForVSync
  | pglSwapBuffers
  | pglRenderGeometry
  deriving DecidableEq, Repr

/-- What the vendor SDK answers. `padGetState n` is the value of the call
of `padGetState` that comes after `n` earlier ones; `padRead` is the return
value of `padRead` and the word `btns` it leaves in `buttons`;
`padInfoMode term index` is `padInfoMode(port, slot, term, index)`. -/
structure Vendor where
  padGetState : Nat → Int
  padRead : Int × Nat
  SifLoadModule : String → Int
  padPortOpen : Int
  padInfoMode : Int → Int → Int
  padInfoAct : Int
  pglHasLibraryBeenInitted : Bool
  pglHasGsMemBeenInitted : Bool

/-- The program state: `CORE`, the file-scope variables of
`rcore_playstation2.c` (`buttons.btns` is the field `btns`), the number of
`padGetState` calls made so far and the vendor calls made so far, the
latest last. The field `btns` is an `unsigned short`: `padRead` stores it
reduced to 16 bits. -/
structure State where
  CORE : CoreData
  actAlign : List Nat
  actuators : Int
  btns : Nat
  port : Nat
  slot : Nat
  paddata : Nat
  old_pad : Nat
  new_pad : Nat
  firstTime : Bool
  polls : Nat
  calls : List Call

/-- Record a vendor call. -/
def State.call (s : State) (c : Call) : State :=
  { s with calls := s.calls ++ [c] }

/-- The waiting loop of `waitPadReady` and of `PollInputEvents`:
`state = padGetState(port, slot)` is read until it is `PAD_STATE_STABLE` or
`PAD_STATE_FINDCTP1`. The result is the number of `padGetState` calls made
when the loop ends; `none` when `fuel` reads were not enough. -/
def padWait (c : PadConsts) (v : Vendor) : Nat → Nat → Option Nat
  | 0, _ => none
  | fuel + 1, polls =>
    let state := v.padGetState polls
    if state ≠ c.PAD_STATE_STABLE ∧ state ≠ c.PAD_STATE_FINDCTP1 then
      padWait c v fuel (polls + 1)
    else some (polls + 1)

/-- Function `waitPadReady`; it has no result but the calls it consumed. -/
def waitPadReady (c : PadConsts) (v : Vendor) (fuel : Nat) (s : State) : Option State :=
  match padWait c v fuel s.polls with
  | none => none
  | some polls => some { s with polls := polls }

/-- The statements of `PollInputEvents` that follow the waiting loop: the
pad is marked ready, the previous button states are registered, `padRead`
is called and, when it returns non-zero, the button map is applied to the
inverted button word. -/
def pollPadData (c : PadConsts) (r : RaylibConsts) (v : Vendor) (s : State) : State :=
  let s := { s with CORE := s.CORE.modGamepad fun g => { g with ready := set1 g.ready s.port true } }
  let s := { s with CORE := registerPreviousButtons r s.port s.CORE }
  let ret := v.padRead.1
  let s := { s with btns := toU16 v.padRead.2 }
  if ret ≠ 0 then
    let s := { s with paddata := 0xffff ^^^ s.btns }
    let s := { s with new_pad := s.paddata &&& (0xffffffff ^^^ (s.old_pad % 4294967296)) }
    let s := { s with old_pad := s.paddata }
    { s with CORE := mapButtons (buttonMap c r) s.port s.paddata s.CORE }
  else s

/-- Function `PollInputEvents` of the PlayStation 2 file; `none` when the
pad did not get ready within `fuel` reads of its state. -/
def PollInputEvents (c : PadConsts) (r : RaylibConsts) (v : Vendor) (fuel : Nat)
    (s : State) : Option State :=
  let s := { s with CORE := pollReset r s.CORE }
  match padWait c v fuel s.polls with
  | none => none
  | some polls => some (pollPadData c r v { s with polls := polls })

/-- The loop `do { if (padInfoMode(port, slot, PAD_MODETABLE, i) ==
PAD_TYPE_DUALSHOCK) break; i++; } while (i < modes);` of `initializePad`,
started at `i`; the result is the final `i`. The first argument bounds the
number of passes; `initializePad` gives it `modes + 1`, more than the loop
can make. -/
def scanModes (c : PadConsts) (v : Vendor) (modes : Int) : Nat → Int → Int
  | 0, i => i
  | n + 1, i =>
    if v.padInfoMode c.PAD_MODETABLE i = c.PAD_TYPE_DUALSHOCK then i
    else if i + 1 < modes then scanModes c v modes n (i + 1)
    else i + 1

/-- Function `initializePad`: the return value and the new state; `none`
when one of its waits for the pad did not end within `fuel` reads. Each
`waitPadReady` is followed, through `Option.bind`, by the statements after it. -/
def initializePad (c : PadConsts) (v : Vendor) (fuel : Nat) (port slot : Nat) (s : State) :
    Option (Int × State) :=
  (waitPadReady c v fuel s).bind fun s =>
    let modes := v.padInfoMode c.PAD_MODETABLE (-1)
    if modes = 0 then some (1, s)
    else
      let i := scanModes c v modes (modes.toNat + 1) 0
      if i ≥ modes then some (1, s)
      else
        let ret := v.padInfoMode c.PAD_MODECUREXID 0
        if ret = 0 then some (1, s)
        else
          let s := s.call (.padSetMainMode port slot c.PAD_MMODE_DUALSHOCK c.PAD_MMODE_LOCK)
          (waitPadReady c v fuel s).bind fun s =>
            let s := s.call (.padInfoPressMode port slot)
            (waitPadReady c v fuel s).bind fun s =>
              let s := s.call (.padEnterPressMode port slot)
              (waitPadReady c v fuel s).bind fun s =>
                let s := { s with actuators := v.padInfoAct }
                if s.actuators ≠ (0 : Int) then
                  let s := { s with actAlign := [0, 1, 0xff, 0xff, 0xff, 0xff] }
                  (waitPadReady c v fuel s).bind fun s =>
                    let s := s.call (.padSetActAlign port slot s.actAlign)
                    (waitPadReady c v fuel s).bind fun s => some (1, s)
                else
                  (waitPadReady c v fuel s).bind fun s => some (1, s)

/-- Function `initGsMemoryForRaylib`: the vendor calls it makes, in order.
The block under `if(0)` makes none. -/
def initGsMemoryForRaylib (pal : Bool) : List Call :=
  (if pal then
    [ .pglAddGsMemSlot 0 80 .kPsm32,
      .pglAddGsMemSlot 80 80 .kPsm32,
      .pglAddGsMemSlot 160 80 .kPsmz24 ]
  else
    [ .pglAddGsMemSlot 0 70 .kPsm32,
      .pglAddGsMemSlot 70 70 .kPsm32,
      .pglAddGsMemSlot 140 70 .kPsmz24 ])
  ++ [ .pglLockGsMemSlot 0, .pglLockGsMemSlot 1, .pglLockGsMemSlot 2 ]
  ++ (if pal then
    [ .pglCreateGsMemArea 640 256 .kPsm24,
      .pglCreateGsMemArea 640 256 .kPsm24,
      .pglCreateGsMemArea 640 256 .kPsmz24 ]
  else
    [ .pglCreateGsMemArea 640 224 .kPsm24,
      .pglCreateGsMemArea 640 224 .kPsm24,
      .pglCreateGsMemArea 640 224 .kPsmz24 ])
  ++ [ .pglBindGsMemAreaToSlot 0 0, .pglBindGsMemAreaToSlot 1 1, .pglBindGsMemAreaToSlot 2 2,
       .pglSetDrawBuffers 0 1 2, .pglSetDisplayBuffers 0 1 ]
  ++ (if pal then
    [ .pglAddGsMemSlot 240 2 .kPsm8,
      -- 64x32
      .pglAddGsMemSlot 242 1 .kPsm32, .pglAddGsMemSlot 243 1 .kPsm32,
      .pglAddGsMemSlot 244 1 .kPsm32, .pglAddGsMemSlot 245 1 .kPsm32,
      .pglAddGsMemSlot 246 1 .kPsm32, .pglAddGsMemSlot 247 1 .kPsm32,
      .pglAddGsMemSlot 248 1 .kPsm32, .pglAddGsMemSlot 249 1 .kPsm32,
      -- 64x64
      .pglAddGsMemSlot 250 2 .kPsm32, .pglAddGsMemSlot 252 2 .kPsm32,
      .pglAddGsMemSlot 254 2 .kPsm32, .pglAddGsMemSlot 256 2 .kPsm32,
      .pglAddGsMemSlot 258 2 .kPsm32, .pglAddGsMemSlot 260 2 .kPsm32,
      .pglAddGsMemSlot 262 2 .kPsm32, .pglAddGsMemSlot 264 2 .kPsm32,
      -- 128x128
      .pglAddGsMemSlot 266 8 .kPsm32, .pglAddGsMemSlot 274 8 .kPsm32,
      .pglAddGsMemSlot 282 8 .kPsm32, .pglAddGsMemSlot 290 8 .kPsm32,
      .pglAddGsMemSlot 298 8 .kPsm32, .pglAddGsMemSlot 306 8 .kPsm32,
      -- 256x256
      .pglAddGsMemSlot 314 32 .kPsm32, .pglAddGsMemSlot 346 32 .kPsm32,
      -- 512x256
      .pglAddGsMemSlot 378 64 .kPsm32, .pglAddGsMemSlot 442 64 .kPsm32 ]
  else
    [ .pglAddGsMemSlot 210 2 .kPsm8,
      -- 64x32
      .pglAddGsMemSlot 212 1 .kPsm32, .pglAddGsMemSlot 213 1 .kPsm32,
      .pglAddGsMemSlot 214 1 .kPsm32, .pglAddGsMemSlot 215 1 .kPsm32,
      .pglAddGsMemSlot 216 1 .kPsm32, .pglAddGsMemSlot 217 1 .kPsm32,
      .pglAddGsMemSlot 218 1 .kPsm32, .pglAddGsMemSlot 219 1 .kPsm32,
      -- 64x64
      .pglAddGsMemSlot 220 2 .kPsm32, .pglAddGsMemSlot 222 2 .kPsm32,
      .pglAddGsMemSlot 224 2 .kPsm32, .pglAddGsMemSlot 226 2 .kPsm32,
      .pglAddGsMemSlot 228 2 .kPsm32, .pglAddGsMemSlot 230 2 .kPsm32,
      .pglAddGsMemSlot 232 2 .kPsm32, .pglAddGsMemSlot 234 2 .kPsm32,
      -- 128x128
      .pglAddGsMemSlot 236 8 .kPsm32, .pglAddGsMemSlot 244 8 .kPsm32,
      .pglAddGsMemSlot 252 8 .kPsm32, .pglAddGsMemSlot 260 8 .kPsm32,
      .pglAddGsMemSlot 268 8 .kPsm32, .pglAddGsMemSlot 276 8 .kPsm32,
      -- 256x256
      .pglAddGsMemSlot 284 32 .kPsm32, .pglAddGsMemSlot 316 32 .kPsm32,
      -- 512x256
      .pglAddGsMemSlot 348 64 .kPsm32, .pglAddGsMemSlot 412 64 .kPsm32 ])

/-- The window and mouse assignments of the PlayStation 2 `InitPlatform`,
from `CORE.Window.fullscreen = true` to `CORE.Input.Mouse.scale`: the display
and the screen size are the constants 640 and 448, and the mouse position is
`(float)CORE.Window.screen.width/2.0f`. -/
def initWindowState (r : RaylibConsts) (CORE : CoreData) : CoreData :=
  let CORE := CORE.modWindow fun w => { w with fullscreen := true }
  let CORE := CORE.modWindow fun w => { w with flags := w.flags ||| r.FLAG_FULLSCREEN_MODE }
  let CORE := CORE.modWindow fun w => { w with display := { w.display with width := 640 } }
  let CORE := CORE.modWindow fun w => { w with display := { w.display with height := 448 } }
  let CORE := CORE.modWindow fun w => { w with screen := { w.screen with width := 640 } }
  let CORE := CORE.modWindow fun w => { w with screen := { w.screen with height := 448 } }
  let CORE := CORE.modWindow fun w => { w with render := { w.render with width := w.screen.width } }
  let CORE := CORE.modWindow fun w => { w with render := { w.render with height := w.screen.height } }
  let CORE := CORE.modWindow fun w => { w with eventWaiting := false }
  let CORE := CORE.modWindow fun w => { w with screenScale := MatrixIdentity }
  let CORE := CORE.modWindow fun w => { w with currentFbo := { w.currentFbo with width := w.screen.width } }
  let CORE := CORE.modWindow fun w => { w with currentFbo := { w.currentFbo with height := w.screen.height } }
  let CORE := CORE.modMouse fun m =>
    { m with currentPosition :=
      { m.currentPosition with x := castFloat CORE.Window.screen.width / 2 } }
  let CORE := CORE.modMouse fun m =>
    { m with currentPosition :=
      { m.currentPosition with y := castFloat CORE.Window.screen.height / 2 } }
  CORE.modMouse fun m => { m with scale := { x := 1, y := 1 } }

/-- The part of the PlayStation 2 `InitPlatform` from
`if (!pglHasLibraryBeenInitted())` to `CORE.Storage.basePath`: ps2gl and the
GS memory are initialised when they have not been, then the window state is
set. -/
def initGraphics (r : RaylibConsts) (v : Vendor) (env : CoreEnv) (s : State) : State :=
  let s :=
    if !v.pglHasLibraryBeenInitted then
      let s := s.call (.gifCtrl 1)
      let s := s.call (.SetGsCrt 1 2 1)
      s.call (.pglInit (128 * 1024) 1000)
    else s
  let s :=
    if !v.pglHasGsMemBeenInitted then
      { s with calls := s.calls ++ initGsMemoryForRaylib false }
    else s
  let CORE := initWindowState r s.CORE
  let CORE := env.SetupFramebuffer CORE.Window.display.width CORE.Window.display.height CORE
  let CORE := syncRenderSize CORE
  let CORE := finishInit env CORE
  { s with CORE := CORE }

/-- The part of the PlayStation 2 `InitPlatform` from
`if(!initializePad(port, slot))` to `return 0`; the statements after
`initializePad` follow it through `Option.bind`. -/
def initPadAndGraphics (c : PadConsts) (r : RaylibConsts) (v : Vendor) (env : CoreEnv)
    (fuel : Nat) (s : State) : Option (Int × State) :=
  (initializePad c v fuel s.port s.slot s).bind fun padResult =>
    let padOk := padResult.1
    let s := padResult.2
    if padOk = 0 then some (-1, s)
    else some (0, initGraphics r v env s)

/-- Function `InitPlatform` of the PlayStation 2 file: the return value and
the new state; `none` when a wait for the pad did not end within `fuel`
reads of its state. -/
def InitPlatform (c : PadConsts) (r : RaylibConsts) (v : Vendor) (env : CoreEnv)
    (fuel : Nat) (s : State) : Option (Int × State) :=
  let s := s.call .SetTraceLogCallback
  let s := s.call (.SifInitRpc 0)
  let s := s.call (.SifLoadModule "rom0:SIO2MAN")
  let ret := v.SifLoadModule "rom0:SIO2MAN"
  if ret < 0 then some (-1, s)
  else
    let s := s.call (.SifLoadModule "rom0:PADMAN")
    let ret := v.SifLoadModule "rom0:PADMAN"
    if ret < 0 then some (-1, s)
    else
      let s := s.call (.padInit 0)
      let s := { s with port := 0 }
      let s := { s with slot := 0 }
      let s := s.call (.padPortOpen s.port s.slot)
      let ret := v.padPortOpen
      if ret = 0 then some (-1, s)
      else initPadAndGraphics c r v env fuel s

end PlayStation2

/-! ## Vita (`rcore_vita.c`) -/

namespace Vita

/-- Function `WindowShouldClose` of the Vita file: the return value and
`CORE` after the call. -/
def WindowShouldClose (CORE : CoreData) : Bool × CoreData :=
  if CORE.Window.ready then (CORE.Window.shouldClose, CORE)
  else (true, CORE)

/-- Function `PollInputEvents` of the Vita file: the resets and the touch
registration only; the file ends it with "TODO: Poll input events for current
plaform". -/
def PollInputEvents (r : RaylibConsts) (CORE : CoreData) : CoreData :=
  pollReset r CORE

/-- Constants of the EGL headers that `InitPlatform` names. Handles
(`EGLDisplay`, `EGLContext`, `EGLSurface`, `EGLConfig`) and `EGLBoolean`
are numbers. -/
structure EglConsts where
  EGL_FALSE : Nat
  EGL_NO_DISPLAY : Nat
  EGL_NO_CONTEXT : Nat
  EGL_NO_SURFACE : Nat
  EGL_RED_SIZE : Int
  EGL_GREEN_SIZE : Int
  EGL_BLUE_SIZE : Int
  EGL_ALPHA_SIZE : Int
  EGL_DEPTH_SIZE : Int
  EGL_STENCIL_SIZE : Int
  EGL_SURFACE_TYPE : Int
  EGL_RENDERABLE_TYPE : Int
  EGL_OPENGL_ES2_BIT : Int
  EGL_SAMPLE_BUFFERS : Int
  EGL_SAMPLES : Int
  EGL_NONE : Int
  EGL_CONTEXT_CLIENT_VERSION : Int

/-- The values of the Khronos header `EGL/egl.h`. -/
def eglConsts : EglConsts where
  EGL_FALSE := 0
  EGL_NO_DISPLAY := 0
  EGL_NO_CONTEXT := 0
  EGL_NO_SURFACE := 0
  EGL_RED_SIZE := 0x3024
  EGL_GREEN_SIZE := 0x3023
  EGL_BLUE_SIZE := 0x3022
  EGL_ALPHA_SIZE := 0x3021
  EGL_DEPTH_SIZE := 0x3025
  EGL_STENCIL_SIZE := 0x3026
  EGL_SURFACE_TYPE := 0x3033
  EGL_RENDERABLE_TYPE := 0x3040
  EGL_OPENGL_ES2_BIT := 0x0004
  EGL_SAMPLE_BUFFERS := 0x3032
  EGL_SAMPLES := 0x3031
  EGL_NONE := 0x3038
  EGL_CONTEXT_CLIENT_VERSION := 0x3098

/-- The array `framebufferAttribs` of `InitPlatform`. -/
def framebufferAttribs (e : EglConsts) (sampleBuffer samples : Int) : List Int :=
  [ e.EGL_RED_SIZE, 8,
    e.EGL_GREEN_SIZE, 8,
    e.EGL_BLUE_SIZE, 8,
    e.EGL_ALPHA_SIZE, 8,
    e.EGL_DEPTH_SIZE, 32,
    e.EGL_STENCIL_SIZE, 8,
    e.EGL_SURFACE_TYPE, 5,
    e.EGL_RENDERABLE_TYPE, e.EGL_OPENGL_ES2_BIT,
    e.EGL_SAMPLE_BUFFERS, sampleBuffer,
    e.EGL_SAMPLES, samples,
    e.EGL_NONE ]

/-- The array `contextAttribs` of `InitPlatform`. -/
def contextAttribs (e : EglConsts) : List Int :=
  [ e.EGL_CONTEXT_CLIENT_VERSION, 2, e.EGL_NONE ]

/-- What the vendor SDK answers in `InitPlatform`. `eglChooseConfig n
attribs` is the call of `eglChooseConfig` after `n` earlier ones: its return
value, and the values `platform.config` and `numConfigs` hold after it.
`eglCreateContext config attribs` and `eglCreateWindowSurface config` give a
handle. -/
structure Vendor where
  pibInit : Int
  eglGetDisplay : Nat
  eglInitialize : Nat
  eglChooseConfig : Nat → List Int → Nat × Nat × Int
  eglBindAPI : Nat
  eglCreateContext : Nat → List Int → Nat
  eglCreateWindowSurface : Nat → Nat
  eglMakeCurrent : Nat

/-- The struct `PlatformData` of the Vita file. -/
structure PlatformData where
  device : Nat
  surface : Nat
  context : Nat
  config : Nat
  deriving DecidableEq, Repr

/-- The program state: `CORE` and the file-scope variable `platform`. -/
structure State where
  CORE : CoreData
  platform : PlatformData

/-- Function `InitPlatform` of the Vita file: the return value and the new
state. The locals `samples` and `sampleBuffer` start at 0 and become 4 and 1
under `if (CORE.Window.flags & FLAG_MSAA_4X_HINT)`. The local `numConfigs`
is read only after the second `eglChooseConfig` has written it.
`eglGetError`, `eglGetConfigAttrib` (it writes a local variable) and
`rlLoadExtensions` (it works on the state of rlgl) do not touch `CORE` or
`platform`. -/
def InitPlatform (e : EglConsts) (r : RaylibConsts) (v : Vendor) (env : CoreEnv)
    (s : State) : Int × State :=
  let pib_ret := v.pibInit
  if pib_ret ≠ 0 then
    (-1, { s with CORE := s.CORE.modWindow fun w => { w with ready := false } })
  else
    let s := { s with CORE := initWindowState r s.CORE }
    let samples : Int := if s.CORE.Window.flags &&& r.FLAG_MSAA_4X_HINT ≠ 0 then 4 else 0
    let sampleBuffer : Int := if s.CORE.Window.flags &&& r.FLAG_MSAA_4X_HINT ≠ 0 then 1 else 0
    let s := { s with platform := { s.platform with device := v.eglGetDisplay } }
    if s.platform.device = e.EGL_NO_DISPLAY then (-1, s)
    else if v.eglInitialize = e.EGL_FALSE then (-1, s)
    else
      let first := v.eglChooseConfig 0 (framebufferAttribs e sampleBuffer samples)
      let s := { s with platform := { s.platform with config := first.2.1 } }
      let ret := v.eglBindAPI
      if ret = 0 then (-1, s)
      else
        let second := v.eglChooseConfig 1 (framebufferAttribs e sampleBuffer samples)
        let ret := second.1
        let s := { s with platform := { s.platform with config := second.2.1 } }
        let numConfigs := second.2.2
        if ret = 0 then (-1, s)
        else if numConfigs ≠ 1 then (-1, s)
        else
          let s := { s with platform :=
            { s.platform with context := v.eglCreateContext s.platform.config (contextAttribs e) } }
          if s.platform.context = e.EGL_NO_CONTEXT then (-1, s)
          else
            let s := { s with CORE :=
              env.SetupFramebuffer s.CORE.Window.display.width s.CORE.Window.display.height s.CORE }
            let s := { s with platform :=
              { s.platform with surface := v.eglCreateWindowSurface s.platform.config } }
            if s.platform.surface = e.EGL_NO_SURFACE then (-1, s)
            else if v.eglMakeCurrent = e.EGL_FALSE then (-1, s)
            else
              let s := { s with CORE := syncRenderSize s.CORE }
              let s := { s with CORE := finishInit env s.CORE }
              (0, s)

end Vita

/-! ## Concrete states used as examples -/

/-- A `CORE` with every field zero, false or empty. -/
def coreZero : CoreData where
  Window :=
    { title := "", flags := 0, ready := false, fullscreen := false, shouldClose := false,
      eventWaiting := false,
      display := ⟨0, 0⟩, screen := ⟨0, 0⟩, render := ⟨0, 0⟩, currentFbo := ⟨0, 0⟩,
      screenMin := ⟨0, 0⟩, screenMax := ⟨0, 0⟩, renderOffset := ⟨0, 0⟩,
      screenScale := MatrixIdentity }
  Input :=
    { Keyboard :=
        { keyRepeatInFrame := fun _ => 0, keyPressedQueueCount := 0,
          charPressedQueueCount := 0 }
      Mouse :=
        { currentPosition := ⟨0, 0⟩, previousPosition := ⟨0, 0⟩, scale := ⟨0, 0⟩,
          cursorHidden := false }
      Touch := { currentTouchState := fun _ => 0, previousTouchState := fun _ => 0 }
      Gamepad :=
        { lastButtonPressed := 0, axisCount := fun _ => 0, ready := fun _ => false,
          currentButtonState := fun _ _ => 0, previousButtonState := fun _ _ => 0,
          axisState := fun _ _ => 0 } }
  Storage := { basePath := "" }
  Time := { base := 0 }

/-- A `CORE` whose window is ready, asks for 800 x 450 and has been told to
close; the rest as `coreZero`. -/
def coreReady : CoreData :=
  { coreZero with
    Window := { coreZero.Window with
      ready := true, shouldClose := true, flags := 32, screen := ⟨800, 450⟩ } }

/-- A Dreamcast controller state: A and D-pad up are down, the left stick is
at the far left and top, the right trigger is fully pressed. -/
def Dreamcast.padA : Dreamcast.cont_state_t :=
  { buttons := 4 + 16, ltrig := 0, rtrig := 255, joyx := -128, joyy := -128,
    joy2x := 0, joy2y := 0 }

/-- A PlayStation 2 program state before `InitPlatform`: `CORE` all zero, no
vendor call made yet, `firstTime` still true. -/
def PlayStation2.stateZero : PlayStation2.State :=
  { CORE := coreZero, actAlign := [0, 0, 0, 0, 0, 0], actuators := 0, btns := 0,
    port := 0, slot := 0, paddata := 0, old_pad := 0, new_pad := 0, firstTime := true,
    polls := 0, calls := [] }

/-- A PlayStation 2 whose pad reports state 1 (`PAD_STATE_FINDPAD`) twice and
`PAD_STATE_STABLE` from then on, whose `padRead` succeeds with only the cross
button down (bit `0x4000` of the active-low word clear), whose modules load,
and whose pad is a digital one (no mode table). -/
def PlayStation2.vendorA : PlayStation2.Vendor :=
  { padGetState := fun n => if n < 2 then 1 else 6
    padRead := (1, 0xBFFF)
    SifLoadModule := fun _ => 0
    padPortOpen := 1
    padInfoMode := fun _ _ => 0
    padInfoAct := 0
    pglHasLibraryBeenInitted := false
    pglHasGsMemBeenInitted := false }

/-- The same PlayStation 2 with no controller plugged in: every read of the
pad state gives `PAD_STATE_DISCONN`. -/
def PlayStation2.vendorNoPad : PlayStation2.Vendor :=
  { PlayStation2.vendorA with padGetState := fun _ => 0 }

/-- The functions of `rcore.c` as stand-ins that change nothing. -/
def coreEnvId : CoreEnv :=
  { SetupFramebuffer := fun _ _ c => c
    InitTimer := fun t => t
    GetWorkingDirectory := "" }

/-- A Dreamcast controller state with B and START down and nothing else. -/
def Dreamcast.padB : Dreamcast.cont_state_t :=
  { buttons := 2 + 8, ltrig := 0, rtrig := 0, joyx := 0, joyy := 0, joy2x := 0, joy2y := 0 }

/-- A maple bus with a controller in state `padA` at port 0, none at port 1,
a controller in state `padB` at port 2, and at port 3 a controller whose
status cannot be read. -/
def Dreamcast.mapleA : Dreamcast.Maple :=
  { maple_enum_type := fun p =>
      if p = 0 then some 10 else if p = 2 then some 12 else if p = 3 then some 13 else none
    maple_dev_status := fun dev =>
      if dev = 10 then some Dreamcast.padA else if dev = 12 then some Dreamcast.padB else none }

/-- A `CORE` in which the Y button (5) of pad 0 was down in the last frame;
the rest as `coreZero`. -/
def corePressed : CoreData :=
  coreZero.modGamepad fun g =>
    { g with currentButtonState := fun p b => if p = 0 ∧ b = 5 then 1 else 0 }

/-- The entries of a button map whose bit is set in a button word, in table
order: the buttons that are down. -/
def pressed (table : List (Nat × Nat)) (word : Nat) : List (Nat × Nat) :=
  table.filter fun e => word &&& e.1 ≠ 0

/-- The controller state the Dreamcast `PollInputEvents` reads for a pad:
the status of the controller enumerated there, when there is one and its
status is not `NULL`. -/
def Dreamcast.readState (maple : Dreamcast.Maple) (p : Nat) : Option Dreamcast.cont_state_t :=
  (maple.maple_enum_type p).bind maple.maple_dev_status

/-- The array `framebufferAttribs` that the Vita `InitPlatform` builds for a
window whose flags on entry are `flags`: the MSAA test reads the flags after
`FLAG_FULLSCREEN_MODE` has been OR-ed in. -/
def Vita.attribsFor (e : Vita.EglConsts) (r : RaylibConsts) (flags : Nat) : List Int :=
  if (flags ||| r.FLAG_FULLSCREEN_MODE) &&& r.FLAG_MSAA_4X_HINT ≠ 0 then
    Vita.framebufferAttribs e 1 4
  else Vita.framebufferAttribs e 0 0

/-- Every bring-up step of the Vita `InitPlatform` succeeds, for a window
whose flags on entry are `flags`: `pibInit` returns 0, `eglGetDisplay` is not
`EGL_NO_DISPLAY`, `eglInitialize` is not `EGL_FALSE`, `eglBindAPI` is not 0,
the second `eglChooseConfig` is not 0 and leaves `numConfigs = 1`,
`eglCreateContext` is not `EGL_NO_CONTEXT`, `eglCreateWindowSurface` is not
`EGL_NO_SURFACE`, `eglMakeCurrent` is not `EGL_FALSE`. -/
def Vita.bringUpSucceeds (e : Vita.EglConsts) (r : RaylibConsts) (v : Vita.Vendor)
    (flags : Nat) : Prop :=
  v.pibInit = 0 ∧
  v.eglGetDisplay ≠ e.EGL_NO_DISPLAY ∧
  v.eglInitialize ≠ e.EGL_FALSE ∧
  v.eglBindAPI ≠ 0 ∧
  (v.eglChooseConfig 1 (Vita.attribsFor e r flags)).1 ≠ 0 ∧
  (v.eglChooseConfig 1 (Vita.attribsFor e r flags)).2.2 = 1 ∧
  v.eglCreateContext (v.eglChooseConfig 1 (Vita.attribsFor e r flags)).2.1
    (Vita.contextAttribs e) ≠ e.EGL_NO_CONTEXT ∧
  v.eglCreateWindowSurface (v.eglChooseConfig 1 (Vita.attribsFor e r flags)).2.1
    ≠ e.EGL_NO_SURFACE ∧
  v.eglMakeCurrent ≠ e.EGL_FALSE

/-- Whether every bring-up step succeeds can be computed. -/
instance Vita.bringUpSucceeds.decidable (e : Vita.EglConsts) (r : RaylibConsts)
    (v : Vita.Vendor) (flags : Nat) : Decidable (Vita.bringUpSucceeds e r v flags) := by
  unfold Vita.bringUpSucceeds
  infer_instance

/-- A Vita on which every bring-up call succeeds: display 1, config 5 with
`numConfigs = 1`, context 2, surface 3. -/
def Vita.vendorOk : Vita.Vendor :=
  { pibInit := 0
    eglGetDisplay := 1
    eglInitialize := 1
    eglChooseConfig := fun _ _ => (1, 5, 1)
    eglBindAPI := 1
    eglCreateContext := fun _ _ => 2
    eglCreateWindowSurface := fun _ => 3
    eglMakeCurrent := 1 }

/-- A Vita on which `eglGetDisplay` gives `EGL_NO_DISPLAY`; the rest as
`vendorOk`. -/
def Vita.vendorNoDisplay : Vita.Vendor :=
  { Vita.vendorOk with eglGetDisplay := 0 }

/-- A Vita on which `pibInit` fails with -1; the rest as `vendorOk`. -/
def Vita.vendorNoPib : Vita.Vendor :=
  { Vita.vendorOk with pibInit := -1 }

/-- A Vita program state: `CORE` is `coreReady`, `platform` all zero. -/
def Vita.stateReady : Vita.State :=
  { CORE := coreReady, platform := { device := 0, surface := 0, context := 0, config := 0 } }

/-- The pad gets ready within `fuel` reads of its state, from whatever read
on: after any number `m` of reads, one of the next `fuel` reads gives
`PAD_STATE_STABLE` or `PAD_STATE_FINDCTP1`. Every waiting loop then ends. -/
def PlayStation2.PadGetsReady (c : PlayStation2.PadConsts) (v : PlayStation2.Vendor)
    (fuel : Nat) : Prop :=
  ∀ m, ∃ n, n < fuel ∧
    (v.padGetState (m + n) = c.PAD_STATE_STABLE ∨ v.padGetState (m + n) = c.PAD_STATE_FINDCTP1)

/-- `InitPlatform` returns -1 before it touches the pad: a module does not
load or the port does not open. -/
def PlayStation2.SetupFails (v : PlayStation2.Vendor) : Prop :=
  v.SifLoadModule "rom0:SIO2MAN" < 0 ∨ v.SifLoadModule "rom0:PADMAN" < 0 ∨ v.padPortOpen = 0

/-- Whether the setup fails can be computed. -/
instance PlayStation2.SetupFails.decidable (v : PlayStation2.Vendor) :
    Decidable (PlayStation2.SetupFails v) := by
  unfold PlayStation2.SetupFails
  infer_instance

/-- The functions of `rcore.c` with a `SetupFramebuffer` that clears
`CORE.Window.fullscreen` and `CORE.Window.flags`; the rest as `coreEnvId`. -/
def coreEnvClearing : CoreEnv :=
  { coreEnvId with
    SetupFramebuffer := fun _ _ c =>
      c.modWindow fun w => { w with fullscreen := false, flags := 0 } }

/-- `SetupFramebuffer` does not write the display size. -/
def CoreEnv.KeepsDisplay (env : CoreEnv) : Prop :=
  ∀ w h c, (env.SetupFramebuffer w h c).Window.display = c.Window.display

/-- The page intervals (starting page, page length) of the slots that a list
of vendor calls registers with `pglAddGsMemSlot`, in call order. -/
def PlayStation2.gsSlots : List PlayStation2.Call → List (Nat × Nat)
  | [] => []
  | .pglAddGsMemSlot startingPage pageLength _ :: rest =>
    (startingPage, pageLength) :: PlayStation2.gsSlots rest
  | _ :: rest => PlayStation2.gsSlots rest

/-- The dimensions (width, height) of the areas that a list of vendor calls
creates with `pglCreateGsMemArea`, in call order. -/
def PlayStation2.gsAreas : List PlayStation2.Call → List (Nat × Nat)
  | [] => []
  | .pglCreateGsMemArea width height _ :: rest => (width, height) :: PlayStation2.gsAreas rest
  | _ :: rest => PlayStation2.gsAreas rest

/-- The number of 8192-byte GS pages that a buffer of `width` x `height`
pixels of 32 bits needs: `width*height*4/8192`. -/
def PlayStation2.pagesFor (width height : Nat) : Nat := width * height * 4 / 8192

/-- The texture slots of `initGsMemoryForRaylib` under the comments of the
source that give their dimensions ("64x32", "64x64", "128x128", "256x256",
"512x256"): the dimensions and the intervals (starting page, page length) of
the `pglAddGsMemSlot` calls that follow the comment. -/
def PlayStation2.commentedSlots (pal : Bool) : List ((Nat × Nat) × List (Nat × Nat)) :=
  if pal then
    [ ((64, 32), [(242, 1), (243, 1), (244, 1), (245, 1), (246, 1), (247, 1), (248, 1), (249, 1)]),
      ((64, 64), [(250, 2), (252, 2), (254, 2), (256, 2), (258, 2), (260, 2), (262, 2), (264, 2)]),
      ((128, 128), [(266, 8), (274, 8), (282, 8), (290, 8), (298, 8), (306, 8)]),
      ((256, 256), [(314, 32), (346, 32)]),
      ((512, 256), [(378, 64), (442, 64)]) ]
  else
    [ ((64, 32), [(212, 1), (213, 1), (214, 1), (215, 1), (216, 1), (217, 1), (218, 1), (219, 1)]),
      ((64, 64), [(220, 2), (222, 2), (224, 2), (226, 2), (228, 2), (230, 2), (232, 2), (234, 2)]),
      ((128, 128), [(236, 8), (244, 8), (252, 8), (260, 8), (268, 8), (276, 8)]),
      ((256, 256), [(284, 32), (316, 32)]),
      ((512, 256), [(348, 64), (412, 64)]) ]

/-! ## Window, monitor, clipboard and cursor functions, file by file -/

/-- Function `SetWindowTitle` of the Dreamcast file. -/
def Dreamcast.SetWindowTitle (title : String) (CORE : CoreData) : CoreData :=
  CORE.modWindow fun w => { w with title := title }

/-- Function `SetWindowMinSize` of the Dreamcast file. -/
def Dreamcast.SetWindowMinSize (width height : Int) (CORE : CoreData) : CoreData :=
  let CORE := CORE.modWindow fun w => { w with screenMin := { w.screenMin with width := width } }
  CORE.modWindow fun w => { w with screenMin := { w.screenMin with height := height } }

/-- Function `SetWindowMaxSize` of the Dreamcast file. -/
def Dreamcast.SetWindowMaxSize (width height : Int) (CORE : CoreData) : CoreData :=
  let CORE := CORE.modWindow fun w => { w with screenMax := { w.screenMax with width := width } }
  CORE.modWindow fun w => { w with screenMax := { w.screenMax with height := height } }

/-- Function `GetMonitorCount` of the Dreamcast file: the return value and `CORE`
after the call. -/
def Dreamcast.GetMonitorCount (CORE : CoreData) : Int × CoreData := (1, CORE)

/-- Function `GetCurrentMonitor` of the Dreamcast file. -/
def Dreamcast.GetCurrentMonitor (CORE : CoreData) : Int × CoreData := (0, CORE)

/-- Function `GetMonitorPosition` of the Dreamcast file. -/
def Dreamcast.GetMonitorPosition (_monitor : Int) (CORE : CoreData) : Vector2 × CoreData :=
  ({ x := 0, y := 0 }, CORE)

/-- Function `GetMonitorWidth` of the Dreamcast file. -/
def Dreamcast.GetMonitorWidth (_monitor : Int) (CORE : CoreData) : Int × CoreData := (0, CORE)

/-- Function `GetMonitorHeight` of the Dreamcast file. -/
def Dreamcast.GetMonitorHeight (_monitor : Int) (CORE : CoreData) : Int × CoreData := (0, CORE)

/-- Function `GetMonitorPhysicalWidth` of the Dreamcast file. -/
def Dreamcast.GetMonitorPhysicalWidth (_monitor : Int) (CORE : CoreData) : Int × CoreData :=
  (0, CORE)

/-- Function `GetMonitorPhysicalHeight` of the Dreamcast file. -/
def Dreamcast.GetMonitorPhysicalHeight (_monitor : Int) (CORE : CoreData) : Int × CoreData :=
  (0, CORE)

/-- Function `GetMonitorRefreshRate` of the Dreamcast file. -/
def Dreamcast.GetMonitorRefreshRate (_monitor : Int) (CORE : CoreData) : Int × CoreData :=
  (0, CORE)

/-- Function `GetMonitorName` of the Dreamcast file. -/
def Dreamcast.GetMonitorName (_monitor : Int) (CORE : CoreData) : String × CoreData := ("", CORE)

/-- Function `GetWindowPosition` of the Dreamcast file. -/
def Dreamcast.GetWindowPosition (CORE : CoreData) : Vector2 × CoreData :=
  ({ x := 0, y := 0 }, CORE)

/-- Function `GetWindowScaleDPI` of the Dreamcast file. -/
def Dreamcast.GetWindowScaleDPI (CORE : CoreData) : Vector2 × CoreData :=
  ({ x := 1, y := 1 }, CORE)

/-- Function `SetClipboardText` of the Dreamcast file: it only logs a warning. -/
def Dreamcast.SetClipboardText (_text : String) (CORE : CoreData) : CoreData := CORE

/-- Function `GetClipboardText` of the Dreamcast file; `none` is `NULL`. -/
def Dreamcast.GetClipboardText (CORE : CoreData) : Option String × CoreData := (none, CORE)

/-- Function `ShowCursor` of the Dreamcast file. -/
def Dreamcast.ShowCursor (CORE : CoreData) : CoreData :=
  CORE.modMouse fun m => { m with cursorHidden := false }

/-- Function `HideCursor` of the Dreamcast file. -/
def Dreamcast.HideCursor (CORE : CoreData) : CoreData :=
  CORE.modMouse fun m => { m with cursorHidden := true }

/-- Function `SetMousePosition` of the Dreamcast file; `(float)x` and `(float)y`
are the nearest `float` values. -/
def Dreamcast.SetMousePosition (x y : Int) (CORE : CoreData) : CoreData :=
  let CORE := CORE.modMouse fun m =>
    { m with currentPosition := { x := castFloat x, y := castFloat y } }
  CORE.modMouse fun m => { m with previousPosition := m.currentPosition }

/-- Function `EnableCursor` of the Dreamcast file; `/` on `int` is the division
that truncates toward zero. -/
def Dreamcast.EnableCursor (CORE : CoreData) : CoreData :=
  let CORE := Dreamcast.SetMousePosition (CORE.Window.screen.width.tdiv 2)
    (CORE.Window.screen.height.tdiv 2) CORE
  CORE.modMouse fun m => { m with cursorHidden := false }

/-- Function `DisableCursor` of the Dreamcast file. -/
def Dreamcast.DisableCursor (CORE : CoreData) : CoreData :=
  let CORE := Dreamcast.SetMousePosition (CORE.Window.screen.width.tdiv 2)
    (CORE.Window.screen.height.tdiv 2) CORE
  CORE.modMouse fun m => { m with cursorHidden := true }

/-- Function `SetGamepadMappings` of the Dreamcast file. -/
def Dreamcast.SetGamepadMappings (_mappings : String) (CORE : CoreData) : Int × CoreData :=
  (0, CORE)

/-- Function `SetWindowTitle` of the PlayStation 2 file. -/
def PlayStation2.SetWindowTitle (title : String) (CORE : CoreData) : CoreData :=
  CORE.modWindow fun w => { w with title := title }

/-- Function `SetWindowMinSize` of the PlayStation 2 file. -/
def PlayStation2.SetWindowMinSize (width height : Int) (CORE : CoreData) : CoreData :=
  let CORE := CORE.modWindow fun w => { w with screenMin := { w.screenMin with width := width } }
  CORE.modWindow fun w => { w with screenMin := { w.screenMin with height := height } }

/-- Function `SetWindowMaxSize` of the PlayStation 2 file. -/
def PlayStation2.SetWindowMaxSize (width height : Int) (CORE : CoreData) : CoreData :=
  let CORE := CORE.modWindow fun w => { w with screenMax := { w.screenMax with width := width } }
  CORE.modWindow fun w => { w with screenMax := { w.screenMax with height := height } }

/-- Function `GetMonitorCount` of the PlayStation 2 file: the return value and `CORE`
after the call. -/
def PlayStation2.GetMonitorCount (CORE : CoreData) : Int × CoreData := (1, CORE)

/-- Function `GetCurrentMonitor` of the PlayStation 2 file. -/
def PlayStation2.GetCurrentMonitor (CORE : CoreData) : Int × CoreData := (0, CORE)

/-- Function `GetMonitorPosition` of the PlayStation 2 file. -/
def PlayStation2.GetMonitorPosition (_monitor : Int) (CORE : CoreData) : Vector2 × CoreData :=
  ({ x := 0, y := 0 }, CORE)

/-- Function `GetMonitorWidth` of the PlayStation 2 file. -/
def PlayStation2.GetMonitorWidth (_monitor : Int) (CORE : CoreData) : Int × CoreData := (0, CORE)

/-- Function `GetMonitorHeight` of the PlayStation 2 file. -/
def PlayStation2.GetMonitorHeight (_monitor : Int) (CORE : CoreData) : Int × CoreData := (0, CORE)

/-- Function `GetMonitorPhysicalWidth` of the PlayStation 2 file. -/
def PlayStation2.GetMonitorPhysicalWidth (_monitor : Int) (CORE : CoreData) : Int × CoreData :=
  (0, CORE)

/-- Function `GetMonitorPhysicalHeight` of the PlayStation 2 file. -/
def PlayStation2.GetMonitorPhysicalHeight (_monitor : Int) (CORE : CoreData) : Int × CoreData :=
  (0, CORE)

/-- Function `GetMonitorRefreshRate` of the PlayStation 2 file. -/
def PlayStation2.GetMonitorRefreshRate (_monitor : Int) (CORE : CoreData) : Int × CoreData :=
  (0, CORE)

/-- Function `GetMonitorName` of the PlayStation 2 file. -/
def PlayStation2.GetMonitorName (_monitor : Int) (CORE : CoreData) : String × CoreData := ("", CORE)

/-- Function `GetWindowPosition` of the PlayStation 2 file. -/
def PlayStation2.GetWindowPosition (CORE : CoreData) : Vector2 × CoreData :=
  ({ x := 0, y := 0 }, CORE)

/-- Function `GetWindowScaleDPI` of the PlayStation 2 file. -/
def PlayStation2.GetWindowScaleDPI (CORE : CoreData) : Vector2 × CoreData :=
  ({ x := 1, y := 1 }, CORE)

/-- Function `SetClipboardText` of the PlayStation 2 file: it only logs a warning. -/
def PlayStation2.SetClipboardText (_text : String) (CORE : CoreData) : CoreData := CORE

/-- Function `GetClipboardText` of the PlayStation 2 file; `none` is `NULL`. -/
def PlayStation2.GetClipboardText (CORE : CoreData) : Option String × CoreData := (none, CORE)

/-- Function `ShowCursor` of the PlayStation 2 file. -/
def PlayStation2.ShowCursor (CORE : CoreData) : CoreData :=
  CORE.modMouse fun m => { m with cursorHidden := false }

/-- Function `HideCursor` of the PlayStation 2 file. -/
def PlayStation2.HideCursor (CORE : CoreData) : CoreData :=
  CORE.modMouse fun m => { m with cursorHidden := true }

/-- Function `SetMousePosition` of the PlayStation 2 file; `(float)x` and `(float)y`
are the nearest `float` values. -/
def PlayStation2.SetMousePosition (x y : Int) (CORE : CoreData) : CoreData :=
  let CORE := CORE.modMouse fun m =>
    { m with currentPosition := { x := castFloat x, y := castFloat y } }
  CORE.modMouse fun m => { m with previousPosition := m.currentPosition }

/-- Function `EnableCursor` of the PlayStation 2 file; `/` on `int` is the division
that truncates toward zero. -/
def PlayStation2.EnableCursor (CORE : CoreData) : CoreData :=
  let CORE := PlayStation2.SetMousePosition (CORE.Window.screen.width.tdiv 2)
    (CORE.Window.screen.height.tdiv 2) CORE
  CORE.modMouse fun m => { m with cursorHidden := false }

/-- Function `DisableCursor` of the PlayStation 2 file. -/
def PlayStation2.DisableCursor (CORE : CoreData) : CoreData :=
  let CORE := PlayStation2.SetMousePosition (CORE.Window.screen.width.tdiv 2)
    (CORE.Window.screen.height.tdiv 2) CORE
  CORE.modMouse fun m => { m with cursorHidden := true }

/-- Function `SetGamepadMappings` of the PlayStation 2 file. -/
def PlayStation2.SetGamepadMappings (_mappings : String) (CORE : CoreData) : Int × CoreData :=
  (0, CORE)

/-- Function `SetWindowTitle` of the Vita file. -/
def Vita.SetWindowTitle (title : String) (CORE : CoreData) : CoreData :=
  CORE.modWindow fun w => { w with title := title }

/-- Function `SetWindowMinSize` of the Vita file. -/
def Vita.SetWindowMinSize (width height : Int) (CORE : CoreData) : CoreData :=
  let CORE := CORE.modWindow fun w => { w with screenMin := { w.screenMin with width := width } }
  CORE.modWindow fun w => { w with screenMin := { w.screenMin with height := height } }

/-- Function `SetWindowMaxSize` of the Vita file. -/
def Vita.SetWindowMaxSize (width height : Int) (CORE : CoreData) : CoreData :=
  let CORE := CORE.modWindow fun w => { w with screenMax := { w.screenMax with width := width } }
  CORE.modWindow fun w => { w with screenMax := { w.screenMax with height := height } }

/-- Function `GetMonitorCount` of the Vita file: the return value and `CORE`
after the call. -/
def Vita.GetMonitorCount (CORE : CoreData) : Int × CoreData := (1, CORE)

/-- Function `GetCurrentMonitor` of the Vita file. -/
def Vita.GetCurrentMonitor (CORE : CoreData) : Int × CoreData := (0, CORE)

/-- Function `GetMonitorPosition` of the Vita file. -/
def Vita.GetMonitorPosition (_monitor : Int) (CORE : CoreData) : Vector2 × CoreData :=
  ({ x := 0, y := 0 }, CORE)

/-- Function `GetMonitorWidth` of the Vita file. -/
def Vita.GetMonitorWidth (_monitor : Int) (CORE : CoreData) : Int × CoreData := (0, CORE)

/-- Function `GetMonitorHeight` of the Vita file. -/
def Vita.GetMonitorHeight (_monitor : Int) (CORE : CoreData) : Int × CoreData := (0, CORE)

/-- Function `GetMonitorPhysicalWidth` of the Vita file. -/
def Vita.GetMonitorPhysicalWidth (_monitor : Int) (CORE : CoreData) : Int × CoreData :=
  (0, CORE)

/-- Function `GetMonitorPhysicalHeight` of the Vita file. -/
def Vita.GetMonitorPhysicalHeight (_monitor : Int) (CORE : CoreData) : Int × CoreData :=
  (0, CORE)

/-- Function `GetMonitorRefreshRate` of the Vita file. -/
def Vita.GetMonitorRefreshRate (_monitor : Int) (CORE : CoreData) : Int × CoreData :=
  (0, CORE)

/-- Function `GetMonitorName` of the Vita file. -/
def Vita.GetMonitorName (_monitor : Int) (CORE : CoreData) : String × CoreData := ("", CORE)

/-- Function `GetWindowPosition` of the Vita file. -/
def Vita.GetWindowPosition (CORE : CoreData) : Vector2 × CoreData :=
  ({ x := 0, y := 0 }, CORE)

/-- Function `GetWindowScaleDPI` of the Vita file. -/
def Vita.GetWindowScaleDPI (CORE : CoreData) : Vector2 × CoreData :=
  ({ x := 1, y := 1 }, CORE)

/-- Function `SetClipboardText` of the Vita file: it only logs a warning. -/
def Vita.SetClipboardText (_text : String) (CORE : CoreData) : CoreData := CORE

/-- Function `GetClipboardText` of the Vita file; `none` is `NULL`. -/
def Vita.GetClipboardText (CORE : CoreData) : Option String × CoreData := (none, CORE)

/-- Function `ShowCursor` of the Vita file. -/
def Vita.ShowCursor (CORE : CoreData) : CoreData :=
  CORE.modMouse fun m => { m with cursorHidden := false }

/-- Function `HideCursor` of the Vita file. -/
def Vita.HideCursor (CORE : CoreData) : CoreData :=
  CORE.modMouse fun m => { m with cursorHidden := true }

/-- Function `SetMousePosition` of the Vita file; `(float)x` and `(float)y`
are the nearest `float` values. -/
def Vita.SetMousePosition (x y : Int) (CORE : CoreData) : CoreData :=
  let CORE := CORE.modMouse fun m =>
    { m with currentPosition := { x := castFloat x, y := castFloat y } }
  CORE.modMouse fun m => { m with previousPosition := m.currentPosition }

/-- Function `EnableCursor` of the Vita file; `/` on `int` is the division
that truncates toward zero. -/
def Vita.EnableCursor (CORE : CoreData) : CoreData :=
  let CORE := Vita.SetMousePosition (CORE.Window.screen.width.tdiv 2)
    (CORE.Window.screen.height.tdiv 2) CORE
  CORE.modMouse fun m => { m with cursorHidden := false }

/-- Function `DisableCursor` of the Vita file. -/
def Vita.DisableCursor (CORE : CoreData) : CoreData :=
  let CORE := Vita.SetMousePosition (CORE.Window.screen.width.tdiv 2)
    (CORE.Window.screen.height.tdiv 2) CORE
  CORE.modMouse fun m => { m with cursorHidden := true }

/-- Function `SetGamepadMappings` of the Vita file. -/
def Vita.SetGamepadMappings (_mappings : String) (CORE : CoreData) : Int × CoreData :=
  (0, CORE)

/-- Conversion of a signed integer to `unsigned long long int`: the value
modulo 2^64. -/
def toU64 (z : Int) : Nat := (z % 18446744073709551616).toNat

/-- Function `GetTime` of the Dreamcast file: the return value and `CORE`
after the call. `clock` is the reading `(tv_sec, tv_nsec)` that
`clock_gettime(CLOCK_MONOTONIC, &ts)` stores. The product, the sum and the
difference are `unsigned long long int` operations, taken modulo 2^64;
`CORE.Time.base` is an `unsigned long long int`. The `double` values are exact
rationals: `(double)n` is `n` and `1e-9` is `1/1000000000`. -/
def Dreamcast.GetTime (clock : Int × Int) (CORE : CoreData) : ℚ × CoreData :=
  let nanoSeconds : Nat :=
    ((toU64 clock.1 * 1000000000) % 18446744073709551616 + toU64 clock.2)
      % 18446744073709551616
  let elapsed : Nat :=
    (nanoSeconds + 18446744073709551616 - CORE.Time.base % 18446744073709551616)
      % 18446744073709551616
  let time : ℚ := (elapsed : ℚ) * (1 / 1000000000)
  (time, CORE)

/-- The condition under which `initializePad` goes on to enable the DualShock
mode: the reported mode count is not zero, some index `i` with
`0 <= i < modes` has the mode-table entry `PAD_TYPE_DUALSHOCK`, and the
current extended id is not zero. -/
def PlayStation2.DualShockFound (c : PlayStation2.PadConsts) (v : PlayStation2.Vendor) : Prop :=
  v.padInfoMode c.PAD_MODETABLE (-1) ≠ 0 ∧
  (∃ i : Int, 0 ≤ i ∧ i < v.padInfoMode c.PAD_MODETABLE (-1) ∧
    v.padInfoMode c.PAD_MODETABLE i = c.PAD_TYPE_DUALSHOCK) ∧
  v.padInfoMode c.PAD_MODECUREXID 0 ≠ 0

/-- A PlayStation 2 with a DualShock pad: ready at once, three modes of which
the third (index 2) is `PAD_TYPE_DUALSHOCK`, extended id 1, two actuators. -/
def PlayStation2.vendorDualShock : PlayStation2.Vendor :=
  { PlayStation2.vendorA with
    padGetState := fun _ => 6
    padInfoMode := fun term index =>
      if term = 4 then (if index = -1 then 3 else if index = 2 then 7 else 4) else 1
    padInfoAct := 2 }

/-- Function `SwapScreenBuffer` of the PlayStation 2 file. -/
def PlayStation2.SwapScreenBuffer (s : PlayStation2.State) : PlayStation2.State :=
  let s := s.call .pglEndGeometry
  let s :=
    if !s.firstTime then s.call .pglFinishRenderingGeometry
    else { s with firstTime := false }
  let s := s.call .pglWaitForVSync
  let s := s.call .pglSwapBuffers
  s.call .pglRenderGeometry

/-- The state after `n` calls of `SwapScreenBuffer` in a row. -/
def PlayStation2.swapTimes : Nat → PlayStation2.State → PlayStation2.State
  | 0, s => s
  | n + 1, s => PlayStation2.SwapScreenBuffer (PlayStation2.swapTimes n s)

/-! ## The multisampling request, and further vendors used as examples -/

/-- The attribute list that asks for multisampling exactly when
`FLAG_MSAA_4X_HINT` is set in `flags`: `EGL_SAMPLE_BUFFERS` 1 and
`EGL_SAMPLES` 4 when it is, 0 and 0 when it is not. -/
def Vita.msaaAttribs (e : Vita.EglConsts) (r : RaylibConsts) (flags : Nat) : List Int :=
  Vita.framebufferAttribs e (if flags &&& r.FLAG_MSAA_4X_HINT ≠ 0 then 1 else 0)
    (if flags &&& r.FLAG_MSAA_4X_HINT ≠ 0 then 4 else 0)

/-- A Vita whose `eglChooseConfig` accepts only the attribute list with
`EGL_SAMPLE_BUFFERS` 1 and `EGL_SAMPLES` 4; the rest as `vendorOk`. -/
def Vita.vendorMsaaOnly : Vita.Vendor :=
  { Vita.vendorOk with
    eglChooseConfig := fun _ attribs =>
      if attribs = Vita.framebufferAttribs Vita.eglConsts 1 4 then (1, 5, 1) else (0, 0, 0) }

/-- A Vita program state whose window flags are 0; the rest as `stateReady`. -/
def Vita.statePlain : Vita.State :=
  { Vita.stateReady with
    CORE := { coreReady with Window := { coreReady.Window with flags := 0 } } }

/-- A PlayStation 2 with a pad that is ready at once and reports two modes,
neither of them `PAD_TYPE_DUALSHOCK`; the rest as `vendorA`. -/
def PlayStation2.vendorNoDualShockMode : PlayStation2.Vendor :=
  { PlayStation2.vendorA with
    padGetState := fun _ => 6
    padInfoMode := fun term index =>
      if term = 4 then (if index = -1 then 2 else 4) else 1 }

/-- A PlayStation 2 with a pad that is ready at once and reports one mode,
`PAD_TYPE_DUALSHOCK`, but a current extended id of 0; the rest as `vendorA`. -/
def PlayStation2.vendorZeroExId : PlayStation2.Vendor :=
  { PlayStation2.vendorA with
    padGetState := fun _ => 6
    padInfoMode := fun term index =>
      if term = 4 then (if index = -1 then 1 else 7) else if term = 2 then 0 else 1 }

/-! ## The window operations that are not available, file by file -/

/-- The struct `Image` of `raylib.h`; `data` is the pixel bytes. -/
structure Image where
  data : List Nat
  width : Int
  height : Int
  mipmaps : Int
  format : Int

/-- A call of one of the window operations whose body, in each of the three
files, is the warning "not available on target platform", with its
arguments. -/
inductive WindowOp where
  | ToggleFullscreen
  | ToggleBorderlessWindowed
  | MaximizeWindow
  | MinimizeWindow
  | RestoreWindow
  | SetWindowState (flags : Nat)
  | ClearWindowState (flags : Nat)
  | SetWindowIcon (image : Image)
  | SetWindowIcons (images : List Image) (count : Int)
  | SetWindowPosition (x y : Int)
  | SetWindowMonitor (monitor : Int)
  | SetWindowSize (width height : Int)
  | SetWindowOpacity (opacity : ℚ)
  | SetWindowFocused

/-- Function `ToggleFullscreen` of the Dreamcast file: the body only logs a warning with
`TRACELOG`, which does not touch `CORE`. -/
def Dreamcast.ToggleFullscreen (CORE : CoreData) : CoreData := CORE

/-- Function `ToggleBorderlessWindowed` of the Dreamcast file. -/
def Dreamcast.ToggleBorderlessWindowed (CORE : CoreData) : CoreData := CORE

/-- Function `MaximizeWindow` of the Dreamcast file. -/
def Dreamcast.MaximizeWindow (CORE : CoreData) : CoreData := CORE

/-- Function `MinimizeWindow` of the Dreamcast file. -/
def Dreamcast.MinimizeWindow (CORE : CoreData) : CoreData := CORE

/-- Function `RestoreWindow` of the Dreamcast file. -/
def Dreamcast.RestoreWindow (CORE : CoreData) : CoreData := CORE

/-- Function `SetWindowState` of the Dreamcast file. -/
def Dreamcast.SetWindowState (_flags : Nat) (CORE : CoreData) : CoreData := CORE

/-- Function `ClearWindowState` of the Dreamcast file. -/
def Dreamcast.ClearWindowState (_flags : Nat) (CORE : CoreData) : CoreData := CORE

/-- Function `SetWindowIcon` of the Dreamcast file. -/
def Dreamcast.SetWindowIcon (_image : Image) (CORE : CoreData) : CoreData := CORE

/-- Function `SetWindowIcons` of the Dreamcast file. -/
def Dreamcast.SetWindowIcons (_images : List Image) (_count : Int) (CORE : CoreData) :
    CoreData := CORE

/-- Function `SetWindowPosition` of the Dreamcast file. -/
def Dreamcast.SetWindowPosition (_x _y : Int) (CORE : CoreData) : CoreData := CORE

/-- Function `SetWindowMonitor` of the Dreamcast file. -/
def Dreamcast.SetWindowMonitor (_monitor : Int) (CORE : CoreData) : CoreData := CORE

/-- Function `SetWindowSize` of the Dreamcast file. -/
def Dreamcast.SetWindowSize (_width _height : Int) (CORE : CoreData) : CoreData := CORE

/-- Function `SetWindowOpacity` of the Dreamcast file. -/
def Dreamcast.SetWindowOpacity (_opacity : ℚ) (CORE : CoreData) : CoreData := CORE

/-- Function `SetWindowFocused` of the Dreamcast file. -/
def Dreamcast.SetWindowFocused (CORE : CoreData) : CoreData := CORE

/-- One call of a window operation of the Dreamcast file. -/
def Dreamcast.runWindowOp : WindowOp → CoreData → CoreData
  | .ToggleFullscreen, CORE => Dreamcast.ToggleFullscreen CORE
  | .ToggleBorderlessWindowed, CORE => Dreamcast.ToggleBorderlessWindowed CORE
  | .MaximizeWindow, CORE => Dreamcast.MaximizeWindow CORE
  | .MinimizeWindow, CORE => Dreamcast.MinimizeWindow CORE
  | .RestoreWindow, CORE => Dreamcast.RestoreWindow CORE
  | .SetWindowState flags, CORE => Dreamcast.SetWindowState flags CORE
  | .ClearWindowState flags, CORE => Dreamcast.ClearWindowState flags CORE
  | .SetWindowIcon image, CORE => Dreamcast.SetWindowIcon image CORE
  | .SetWindowIcons images count, CORE => Dreamcast.SetWindowIcons images count CORE
  | .SetWindowPosition x y, CORE => Dreamcast.SetWindowPosition x y CORE
  | .SetWindowMonitor monitor, CORE => Dreamcast.SetWindowMonitor monitor CORE
  | .SetWindowSize width height, CORE => Dreamcast.SetWindowSize width height CORE
  | .SetWindowOpacity opacity, CORE => Dreamcast.SetWindowOpacity opacity CORE
  | .SetWindowFocused, CORE => Dreamcast.SetWindowFocused CORE

/-- A sequence of calls of window operations of the Dreamcast file, first call
first. -/
def Dreamcast.runWindowOps (ops : List WindowOp) (CORE : CoreData) : CoreData :=
  ops.foldl (fun c op => Dreamcast.runWindowOp op c) CORE

/-- Function `ToggleFullscreen` of the PlayStation 2 file: the body only logs a warning with
`TRACELOG`, which does not touch `CORE`. -/
def PlayStation2.ToggleFullscreen (CORE : CoreData) : CoreData := CORE

/-- Function `ToggleBorderlessWindowed` of the PlayStation 2 file. -/
def PlayStation2.ToggleBorderlessWindowed (CORE : CoreData) : CoreData := CORE

/-- Function `MaximizeWindow` of the PlayStation 2 file. -/
def PlayStation2.MaximizeWindow (CORE : CoreData) : CoreData := CORE

/-- Function `MinimizeWindow` of the PlayStation 2 file. -/
def PlayStation2.MinimizeWindow (CORE : CoreData) : CoreData := CORE

/-- Function `RestoreWindow` of the PlayStation 2 file. -/
def PlayStation2.RestoreWindow (CORE : CoreData) : CoreData := CORE

/-- Function `SetWindowState` of the PlayStation 2 file. -/
def PlayStation2.SetWindowState (_flags : Nat) (CORE : CoreData) : CoreData := CORE

/-- Function `ClearWindowState` of the PlayStation 2 file. -/
def PlayStation2.ClearWindowState (_flags : Nat) (CORE : CoreData) : CoreData := CORE

/-- Function `SetWindowIcon` of the PlayStation 2 file. -/
def PlayStation2.SetWindowIcon (_image : Image) (CORE : CoreData) : CoreData := CORE

/-- Function `SetWindowIcons` of the PlayStation 2 file. -/
def PlayStation2.SetWindowIcons (_images : List Image) (_count : Int) (CORE : CoreData) :
    CoreData := CORE

/-- Function `SetWindowPosition` of the PlayStation 2 file. -/
def PlayStation2.SetWindowPosition (_x _y : Int) (CORE : CoreData) : CoreData := CORE

/-- Function `SetWindowMonitor` of the PlayStation 2 file. -/
def PlayStation2.SetWindowMonitor (_monitor : Int) (CORE : CoreData) : CoreData := CORE

/-- Function `SetWindowSize` of the PlayStation 2 file. -/
def PlayStation2.SetWindowSize (_width _height : Int) (CORE : CoreData) : CoreData := CORE

/-- Function `SetWindowOpacity` of the PlayStation 2 file. -/
def PlayStation2.SetWindowOpacity (_opacity : ℚ) (CORE : CoreData) : CoreData := CORE

/-- Function `SetWindowFocused` of the PlayStation 2 file. -/
def PlayStation2.SetWindowFocused (CORE : CoreData) : CoreData := CORE

/-- One call of a window operation of the PlayStation 2 file. -/
def PlayStation2.runWindowOp : WindowOp → CoreData → CoreData
  | .ToggleFullscreen, CORE => PlayStation2.ToggleFullscreen CORE
  | .ToggleBorderlessWindowed, CORE => PlayStation2.ToggleBorderlessWindowed CORE
  | .MaximizeWindow, CORE => PlayStation2.MaximizeWindow CORE
  | .MinimizeWindow, CORE => PlayStation2.MinimizeWindow CORE
  | .RestoreWindow, CORE => PlayStation2.RestoreWindow CORE
  | .SetWindowState flags, CORE => PlayStation2.SetWindowState flags CORE
  | .ClearWindowState flags, CORE => PlayStation2.ClearWindowState flags CORE
  | .SetWindowIcon image, CORE => PlayStation2.SetWindowIcon image CORE
  | .SetWindowIcons images count, CORE => PlayStation2.SetWindowIcons images count CORE
  | .SetWindowPosition x y, CORE => PlayStation2.SetWindowPosition x y CORE
  | .SetWindowMonitor monitor, CORE => PlayStation2.SetWindowMonitor monitor CORE
  | .SetWindowSize width height, CORE => PlayStation2.SetWindowSize width height CORE
  | .SetWindowOpacity opacity, CORE => PlayStation2.SetWindowOpacity opacity CORE
  | .SetWindowFocused, CORE => PlayStation2.SetWindowFocused CORE

/-- A sequence of calls of window operations of the PlayStation 2 file, first call
first. -/
def PlayStation2.runWindowOps (ops : List WindowOp) (CORE : CoreData) : CoreData :=
  ops.foldl (fun c op => PlayStation2.runWindowOp op c) CORE

/-- Function `ToggleFullscreen` of the Vita file: the body only logs a warning with
`TRACELOG`, which does not touch `CORE`. -/
def Vita.ToggleFullscreen (CORE : CoreData) : CoreData := CORE

/-- Function `ToggleBorderlessWindowed` of the Vita file. -/
def Vita.ToggleBorderlessWindowed (CORE : CoreData) : CoreData := CORE

/-- Function `MaximizeWindow` of the Vita file. -/
def Vita.MaximizeWindow (CORE : CoreData) : CoreData := CORE

/-- Function `MinimizeWindow` of the Vita file. -/
def Vita.MinimizeWindow (CORE : CoreData) : CoreData := CORE

/-- Function `RestoreWindow` of the Vita file. -/
def Vita.RestoreWindow (CORE : CoreData) : CoreData := CORE

/-- Function `SetWindowState` of the Vita file. -/
def Vita.SetWindowState (_flags : Nat) (CORE : CoreData) : CoreData := CORE

/-- Function `ClearWindowState` of the Vita file. -/
def Vita.ClearWindowState (_flags : Nat) (CORE : CoreData) : CoreData := CORE

/-- Function `SetWindowIcon` of the Vita file. -/
def Vita.SetWindowIcon (_image : Image) (CORE : CoreData) : CoreData := CORE

/-- Function `SetWindowIcons` of the Vita file. -/
def Vita.SetWindowIcons (_images : List Image) (_count : Int) (CORE : CoreData) : CoreData := CORE

/-- Function `SetWindowPosition` of the Vita file. -/
def Vita.SetWindowPosition (_x _y : Int) (CORE : CoreData) : CoreData := CORE

/-- Function `SetWindowMonitor` of the Vita file. -/
def Vita.SetWindowMonitor (_monitor : Int) (CORE : CoreData) : CoreData := CORE

/-- Function `SetWindowSize` of the Vita file. -/
def Vita.SetWindowSize (_width _height : Int) (CORE : CoreData) : CoreData := CORE

/-- Function `SetWindowOpacity` of the Vita file. -/
def Vita.SetWindowOpacity (_opacity : ℚ) (CORE : CoreData) : CoreData := CORE

/-- Function `SetWindowFocused` of the Vita file. -/
def Vita.SetWindowFocused (CORE : CoreData) : CoreData := CORE

/-- One call of a window operation of the Vita file. -/
def Vita.runWindowOp : WindowOp → CoreData → CoreData
  | .ToggleFullscreen, CORE => Vita.ToggleFullscreen CORE
  | .ToggleBorderlessWindowed, CORE => Vita.ToggleBorderlessWindowed CORE
  | .MaximizeWindow, CORE => Vita.MaximizeWindow CORE
  | .MinimizeWindow, CORE => Vita.MinimizeWindow CORE
  | .RestoreWindow, CORE => Vita.RestoreWindow CORE
  | .SetWindowState flags, CORE => Vita.SetWindowState flags CORE
  | .ClearWindowState flags, CORE => Vita.ClearWindowState flags CORE
  | .SetWindowIcon image, CORE => Vita.SetWindowIcon image CORE
  | .SetWindowIcons images count, CORE => Vita.SetWindowIcons images count CORE
  | .SetWindowPosition x y, CORE => Vita.SetWindowPosition x y CORE
  | .SetWindowMonitor monitor, CORE => Vita.SetWindowMonitor monitor CORE
  | .SetWindowSize width height, CORE => Vita.SetWindowSize width height CORE
  | .SetWindowOpacity opacity, CORE => Vita.SetWindowOpacity opacity CORE
  | .SetWindowFocused, CORE => Vita.SetWindowFocused CORE

/-- A sequence of calls of window operations of the Vita file, first call
first. -/
def Vita.runWindowOps (ops : List WindowOp) (CORE : CoreData) : CoreData :=
  ops.foldl (fun c op => Vita.runWindowOp op c) CORE

/-- `SetupFramebuffer` does not write `CORE.Window.fullscreen` and
`CORE.Window.flags`. -/
def CoreEnv.KeepsFullscreen (env : CoreEnv) : Prop :=
  ∀ w h c, (env.SetupFramebuffer w h c).Window.fullscreen = c.Window.fullscreen ∧
    (env.SetupFramebuffer w h c).Window.flags = c.Window.flags

/-- A `CORE` whose screen is 33554434 wide and 0 high; the rest as
`coreZero`. -/
def coreWide : CoreData :=
  { coreZero with Window := { coreZero.Window with screen := ⟨33554434, 0⟩ } }

/-- A step of the Vita `InitPlatform` before the call of `SetupFramebuffer`
fails, for a window whose flags on entry are `flags`: `eglGetDisplay` gives
`EGL_NO_DISPLAY`, `eglInitialize` gives `EGL_FALSE`, `eglBindAPI` gives 0, the
second `eglChooseConfig` gives 0 or leaves `numConfigs` other than 1, or
`eglCreateContext` gives `EGL_NO_CONTEXT`. -/
def Vita.failsBeforeFramebuffer (e : Vita.EglConsts) (r : RaylibConsts) (v : Vita.Vendor)
    (flags : Nat) : Prop :=
  v.eglGetDisplay = e.EGL_NO_DISPLAY ∨
  v.eglInitialize = e.EGL_FALSE ∨
  v.eglBindAPI = 0 ∨
  (v.eglChooseConfig 1 (Vita.attribsFor e r flags)).1 = 0 ∨
  (v.eglChooseConfig 1 (Vita.attribsFor e r flags)).2.2 ≠ 1 ∨
  v.eglCreateContext (v.eglChooseConfig 1 (Vita.attribsFor e r flags)).2.1
    (Vita.contextAttribs e) = e.EGL_NO_CONTEXT

/-- Whether a step before `SetupFramebuffer` fails can be computed. -/
instance Vita.failsBeforeFramebuffer.decidable (e : Vita.EglConsts) (r : RaylibConsts)
    (v : Vita.Vendor) (flags : Nat) : Decidable (Vita.failsBeforeFramebuffer e r v flags) := by
  unfold Vita.failsBeforeFramebuffer
  infer_instance

/-- A step of the Vita `InitPlatform` after the call of `SetupFramebuffer`
fails: `eglCreateWindowSurface` gives `EGL_NO_SURFACE` or `eglMakeCurrent`
gives `EGL_FALSE`. -/
def Vita.failsAfterFramebuffer (e : Vita.EglConsts) (r : RaylibConsts) (v : Vita.Vendor)
    (flags : Nat) : Prop :=
  v.eglCreateWindowSurface (v.eglChooseConfig 1 (Vita.attribsFor e r flags)).2.1
    = e.EGL_NO_SURFACE ∨
  v.eglMakeCurrent = e.EGL_FALSE

/-- Whether a step after `SetupFramebuffer` fails can be computed. -/
instance Vita.failsAfterFramebuffer.decidable (e : Vita.EglConsts) (r : RaylibConsts)
    (v : Vita.Vendor) (flags : Nat) : Decidable (Vita.failsAfterFramebuffer e r v flags) := by
  unfold Vita.failsAfterFramebuffer
  infer_instance

/-- A Vita on which `eglMakeCurrent` gives `EGL_FALSE`; the rest as
`vendorOk`. -/
def Vita.vendorNoCurrent : Vita.Vendor :=
  { Vita.vendorOk with eglMakeCurrent := 0 }

/-- The Vita program state that a first `InitPlatform` leaves when
`eglGetDisplay` gives `EGL_NO_DISPLAY`: the state on entry of a second
attempt. -/
def Vita.stateRetry : Vita.State :=
  (Vita.InitPlatform Vita.eglConsts raylibConsts Vita.vendorNoDisplay coreEnvId
    Vita.stateReady).2

/-- Read number `n` of the pad state finds the pad ready: it gives
`PAD_STATE_STABLE` or `PAD_STATE_FINDCTP1`. -/
def PlayStation2.ReadyAt (c : PlayStation2.PadConsts) (v : PlayStation2.Vendor) (n : Nat) :
    Prop :=
  v.padGetState n = c.PAD_STATE_STABLE ∨ v.padGetState n = c.PAD_STATE_FINDCTP1

/-- From read number `m` on, at least `k` reads of the pad state find the pad
ready. -/
def PlayStation2.ReadyTimes (c : PlayStation2.PadConsts) (v : PlayStation2.Vendor) :
    Nat → Nat → Prop
  | 0, _ => True
  | k + 1, m =>
    ∃ j, m ≤ j ∧ PlayStation2.ReadyAt c v j ∧ PlayStation2.ReadyTimes c v k (j + 1)

/-- The number of calls of `waitPadReady` in a run of `initializePad`, by the
tests it makes: one when it returns at one of the first three tests, and on
the DualShock path the first, three more, one before `padSetActAlign` when
`padInfoAct` is not zero, and the last. -/
def PlayStation2.padWaits (c : PlayStation2.PadConsts) (v : PlayStation2.Vendor) : Nat :=
  let modes := v.padInfoMode c.PAD_MODETABLE (-1)
  if modes = 0 then 1
  else
    let i := PlayStation2.scanModes c v modes (modes.toNat + 1) 0
    if i ≥ modes then 1
    else
      let ret := v.padInfoMode c.PAD_MODECUREXID 0
      if ret = 0 then 1
      else if v.padInfoAct ≠ 0 then 6
      else 5

/-- A PlayStation 2 with a digital pad that is ready at the first read of its
state and at no later one; the rest as `vendorA`. -/
def PlayStation2.vendorReadyOnce : PlayStation2.Vendor :=
  { PlayStation2.vendorA with padGetState := fun n => if n = 0 then 6 else 0 }

/-- A PlayStation 2 with a DualShock pad that is ready at the first read of
its state and at no later one; the rest as `vendorDualShock`. -/
def PlayStation2.vendorDualShockOnce : PlayStation2.Vendor :=
  { PlayStation2.vendorDualShock with padGetState := fun n => if n = 0 then 6 else 0 }

/-! # Theorems -/

/-! ## Frame lemmas for the state helpers -/

@[simp] theorem modGamepad_Gamepad (CORE : CoreData) (f : GamepadData → GamepadData) :
    (CORE.modGamepad f).Input.Gamepad = f CORE.Input.Gamepad := rfl

@[simp] theorem modGamepad_Window (CORE : CoreData) (f : GamepadData → GamepadData) :
    (CORE.modGamepad f).Window = CORE.Window := rfl

@[simp] theorem modKeyboard_Gamepad (CORE : CoreData) (f : KeyboardData → KeyboardData) :
    (CORE.modKeyboard f).Input.Gamepad = CORE.Input.Gamepad := rfl

@[simp] theorem modKeyboard_Window (CORE : CoreData) (f : KeyboardData → KeyboardData) :
    (CORE.modKeyboard f).Window = CORE.Window := rfl

@[simp] theorem modTouch_Gamepad (CORE : CoreData) (f : TouchData → TouchData) :
    (CORE.modTouch f).Input.Gamepad = CORE.Input.Gamepad := rfl

@[simp] theorem modTouch_Window (CORE : CoreData) (f : TouchData → TouchData) :
    (CORE.modTouch f).Window = CORE.Window := rfl

@[simp] theorem modMouse_Gamepad (CORE : CoreData) (f : MouseData → MouseData) :
    (CORE.modMouse f).Input.Gamepad = CORE.Input.Gamepad := rfl

@[simp] theorem modMouse_Window (CORE : CoreData) (f : MouseData → MouseData) :
    (CORE.modMouse f).Window = CORE.Window := rfl

@[simp] theorem modWindow_Window (CORE : CoreData) (f : WindowData → WindowData) :
    (CORE.modWindow f).Window = f CORE.Window := rfl

@[simp] theorem modWindow_Input (CORE : CoreData) (f : WindowData → WindowData) :
    (CORE.modWindow f).Input = CORE.Input := rfl

@[simp] theorem set2_same {α : Type} (a : Nat → Nat → α) (i j : Nat) (v : α) :
    set2 a i j v i j = v := by simp [set2]

theorem set2_other {α : Type} (a : Nat → Nat → α) (i j i' j' : Nat) (v : α)
    (h : ¬ (i' = i ∧ j' = j)) : set2 a i j v i' j' = a i' j' := by
  simp [set2, h]

@[simp] theorem set1_same {α : Type} (a : Nat → α) (i : Nat) (v : α) : set1 a i v i = v := by
  simp [set1]

theorem set1_other {α : Type} (a : Nat → α) (i i' : Nat) (v : α) (h : i' ≠ i) :
    set1 a i v i' = a i' := by
  simp [set1, h]

/-- A loop keeps whatever every pass of its body keeps. -/
theorem forLoop_keeps {σ β : Type} (proj : σ → β) (body : Nat → σ → σ) (n : Nat) (s : σ)
    (h : ∀ i s, proj (body i s) = proj s) :
    proj (forLoop body n s) = proj s := by
  induction n with
  | zero => rfl
  | succ n ih => rw [forLoop, h, ih]

/-! ## The button loop -/

/-- One pass of the button loop writes `currentButtonState[pad][e.2]`. -/
theorem mapButton_current_same (pad word : Nat) (CORE : CoreData) (e : Nat × Nat) :
    (mapButton pad word CORE e).Input.Gamepad.currentButtonState pad e.2
      = if word &&& e.1 ≠ 0 then 1 else 0 := by
  unfold mapButton
  split <;> simp

/-- One pass of the button loop leaves every other button slot alone. -/
theorem mapButton_current_other (pad word : Nat) (CORE : CoreData) (e : Nat × Nat)
    (p b : Nat) (h : ¬ (p = pad ∧ b = e.2)) :
    (mapButton pad word CORE e).Input.Gamepad.currentButtonState p b
      = CORE.Input.Gamepad.currentButtonState p b := by
  unfold mapButton
  split <;> simp [set2_other _ _ _ _ _ _ h]

/-- The button loop leaves alone every slot of another pad and every slot
whose button is not in the table. -/
theorem mapButtons_current_other (table : List (Nat × Nat)) (pad word : Nat)
    (CORE : CoreData) (p b : Nat) (h : p ≠ pad ∨ b ∉ table.map Prod.snd) :
    (mapButtons table pad word CORE).Input.Gamepad.currentButtonState p b
      = CORE.Input.Gamepad.currentButtonState p b := by
  induction table generalizing CORE with
  | nil => rfl
  | cons e rest ih =>
    have hrest : p ≠ pad ∨ b ∉ rest.map Prod.snd := by
      rcases h with h | h
      · exact Or.inl h
      · exact Or.inr fun hb => h (by simp [hb])
    have hne : ¬ (p = pad ∧ b = e.2) := by
      rintro ⟨hp, hb⟩
      rcases h with h | h
      · exact h hp
      · exact h (by simp [hb])
    show (mapButtons rest pad word
      (mapButton pad word CORE e)).Input.Gamepad.currentButtonState p b = _
    rw [ih _ hrest, mapButton_current_other _ _ _ _ _ _ hne]

/-- When no raylib button is named twice, the button loop leaves in the slot
of every table entry the state of that entry's bit. -/
theorem mapButtons_current_mem (table : List (Nat × Nat)) (pad word : Nat)
    (CORE : CoreData) (hnodup : (table.map Prod.snd).Nodup) (e : Nat × Nat) (he : e ∈ table) :
    (mapButtons table pad word CORE).Input.Gamepad.currentButtonState pad e.2
      = if word &&& e.1 ≠ 0 then 1 else 0 := by
  induction table generalizing CORE with
  | nil => cases he
  | cons e0 rest ih =>
    simp only [List.map_cons, List.nodup_cons] at hnodup
    show (mapButtons rest pad word
      (mapButton pad word CORE e0)).Input.Gamepad.currentButtonState pad e.2 = _
    rcases List.mem_cons.mp he with rfl | hmem
    · rw [mapButtons_current_other _ _ _ _ _ _ (Or.inr hnodup.1), mapButton_current_same]
    · exact ih _ hnodup.2 hmem

/-- `MapControls` changes the button states only through its button loop. -/
theorem Dreamcast.MapControls_current (k : Dreamcast.KosConsts) (r : RaylibConsts)
    (padIndex : Nat) (st : Dreamcast.cont_state_t) (CORE : CoreData) :
    (Dreamcast.MapControls k r padIndex st CORE).Input.Gamepad.currentButtonState
      = (mapButtons (Dreamcast.buttonMap k r) padIndex st.buttons
          CORE).Input.Gamepad.currentButtonState := by
  simp [Dreamcast.MapControls, Dreamcast.setAxis]

/-! ## C1: the Dreamcast button map -/

/-- C1. Dreamcast `MapControls`: for every pad index `p` and controller state
`st`, when the table names no raylib button twice, after `MapControls p st`
each of the 11 entries (mask `m`, button `b`) has
`currentButtonState[p][b] = 1` if `(st.buttons & m) != 0` and `= 0` otherwise,
and every button slot of pad `p` that the table does not name is unchanged. -/
theorem Dreamcast.MapControls_button_states (k : Dreamcast.KosConsts) (r : RaylibConsts)
    (hnodup : ((Dreamcast.buttonMap k r).map Prod.snd).Nodup)
    (p : Nat) (st : Dreamcast.cont_state_t) (CORE : CoreData) :
    (Dreamcast.buttonMap k r).length = 11 ∧
    (∀ e ∈ Dreamcast.buttonMap k r,
      (Dreamcast.MapControls k r p st CORE).Input.Gamepad.currentButtonState p e.2
        = if st.buttons &&& e.1 ≠ 0 then 1 else 0) ∧
    (∀ b, b ∉ (Dreamcast.buttonMap k r).map Prod.snd →
      (Dreamcast.MapControls k r p st CORE).Input.Gamepad.currentButtonState p b
        = CORE.Input.Gamepad.currentButtonState p b) := by
  refine ⟨rfl, ?_, ?_⟩
  · intro e he
    rw [Dreamcast.MapControls_current]
    exact mapButtons_current_mem _ _ _ _ hnodup e he
  · intro b hb
    rw [Dreamcast.MapControls_current]
    exact mapButtons_current_other _ _ _ _ _ _ (Or.inr hb)

/-- C1 at the header values: the table names no button twice; with A and
D-pad up down on pad 1, the slots of A (7) and D-pad up (1) hold 1, the slot
of B (6) holds 0, and slot 13, which the table does not name, keeps its 0. -/
theorem Dreamcast.MapControls_button_states_witness :
    ((Dreamcast.buttonMap Dreamcast.kosConsts raylibConsts).map Prod.snd).Nodup ∧
    (Dreamcast.MapControls Dreamcast.kosConsts raylibConsts 1 Dreamcast.padA
      coreZero).Input.Gamepad.currentButtonState 1 7 = 1 ∧
    (Dreamcast.MapControls Dreamcast.kosConsts raylibConsts 1 Dreamcast.padA
      coreZero).Input.Gamepad.currentButtonState 1 1 = 1 ∧
    (Dreamcast.MapControls Dreamcast.kosConsts raylibConsts 1 Dreamcast.padA
      coreZero).Input.Gamepad.currentButtonState 1 6 = 0 ∧
    (Dreamcast.MapControls Dreamcast.kosConsts raylibConsts 1 Dreamcast.padA
      coreZero).Input.Gamepad.currentButtonState 1 13 = 0 :=
  have h := Dreamcast.MapControls_button_states Dreamcast.kosConsts raylibConsts
    (by decide) 1 Dreamcast.padA coreZero
  ⟨by decide, h.2.1 (4, 7) (by decide), h.2.1 (16, 1) (by decide),
    h.2.1 (2, 6) (by decide), h.2.2 13 (by decide)⟩

/-- The resets at the head of `PollInputEvents` change the gamepad state
only in `lastButtonPressed`, which becomes 0. -/
theorem pollReset_Gamepad (r : RaylibConsts) (CORE : CoreData) :
    (pollReset r CORE).Input.Gamepad = { CORE.Input.Gamepad with lastButtonPressed := 0 } := by
  unfold pollReset
  simp only []
  rw [forLoop_keeps (fun c : CoreData => c.Input.Gamepad), modGamepad_Gamepad,
    forLoop_keeps (fun c : CoreData => c.Input.Gamepad)]
  · rfl
  · intro _ _; rfl
  · intro _ _; rfl

/-- The resets at the head of `PollInputEvents` leave `CORE.Window` alone. -/
theorem pollReset_Window (r : RaylibConsts) (CORE : CoreData) :
    (pollReset r CORE).Window = CORE.Window := by
  unfold pollReset
  simp only []
  rw [forLoop_keeps (fun c : CoreData => c.Window), modGamepad_Window,
    forLoop_keeps (fun c : CoreData => c.Window)]
  · rfl
  · intro _ _; rfl
  · intro _ _; rfl

/-- Registering the previous button states leaves the current ones, the
ready flags and the last button alone. -/
theorem registerPreviousButtons_keeps (r : RaylibConsts) (pad : Nat) (CORE : CoreData) :
    (registerPreviousButtons r pad CORE).Input.Gamepad.currentButtonState
        = CORE.Input.Gamepad.currentButtonState ∧
    (registerPreviousButtons r pad CORE).Input.Gamepad.ready = CORE.Input.Gamepad.ready ∧
    (registerPreviousButtons r pad CORE).Input.Gamepad.lastButtonPressed
        = CORE.Input.Gamepad.lastButtonPressed := by
  unfold registerPreviousButtons
  refine ⟨?_, ?_, ?_⟩
  · exact forLoop_keeps (fun c : CoreData => c.Input.Gamepad.currentButtonState) _ _ _
      (by intro _ _; rfl)
  · exact forLoop_keeps (fun c : CoreData => c.Input.Gamepad.ready) _ _ _ (by intro _ _; rfl)
  · exact forLoop_keeps (fun c : CoreData => c.Input.Gamepad.lastButtonPressed) _ _ _
      (by intro _ _; rfl)

/-- The registering loop run for `n` buttons: slot `k` of pad `p` of the
previous states holds the current state when `p` is the pad and `k < n`,
and is unchanged otherwise. -/
theorem registerLoop_previous (pad n : Nat) (CORE : CoreData) (p k : Nat) :
    (forLoop
      (fun k (c : CoreData) => c.modGamepad fun g =>
        { g with
          previousButtonState := set2 g.previousButtonState pad k (g.currentButtonState pad k) })
      n CORE).Input.Gamepad.previousButtonState p k
      = if p = pad ∧ k < n then CORE.Input.Gamepad.currentButtonState pad k
        else CORE.Input.Gamepad.previousButtonState p k := by
  induction n with
  | zero => simp [forLoop]
  | succ n ih =>
    rw [forLoop]
    simp only [modGamepad_Gamepad]
    rw [forLoop_keeps (fun c : CoreData => c.Input.Gamepad.currentButtonState) _ _ _
      (by intro _ _; rfl)]
    by_cases h : p = pad ∧ k = n
    · obtain ⟨rfl, rfl⟩ := h
      simp
    · rw [set2_other _ _ _ _ _ _ h, ih]
      by_cases hp : p = pad
      · have hk : k ≠ n := fun hk => h ⟨hp, hk⟩
        have : k < n + 1 ↔ k < n := by omega
        simp [hp, this]
      · simp [hp]

/-- Registering the previous button states of a pad. -/
theorem registerPreviousButtons_previous (r : RaylibConsts) (pad : Nat) (CORE : CoreData)
    (p k : Nat) :
    (registerPreviousButtons r pad CORE).Input.Gamepad.previousButtonState p k
      = if p = pad ∧ k < r.MAX_GAMEPAD_BUTTONS then CORE.Input.Gamepad.currentButtonState pad k
        else CORE.Input.Gamepad.previousButtonState p k :=
  registerLoop_previous pad r.MAX_GAMEPAD_BUTTONS CORE p k

/-! ## The PlayStation 2 pad -/

/-- The waiting loop ends when a read of the pad state gives `PAD_STATE_STABLE`
or `PAD_STATE_FINDCTP1`: if read number `polls + n` does, `n + 1` reads are
enough. -/
theorem PlayStation2.padWait_of_ready (c : PlayStation2.PadConsts) (v : PlayStation2.Vendor)
    (n polls : Nat)
    (h : v.padGetState (polls + n) = c.PAD_STATE_STABLE ∨
      v.padGetState (polls + n) = c.PAD_STATE_FINDCTP1) :
    ∃ m, PlayStation2.padWait c v (n + 1) polls = some m := by
  induction n generalizing polls with
  | zero =>
    have h' : ¬ (v.padGetState polls ≠ c.PAD_STATE_STABLE ∧
        v.padGetState polls ≠ c.PAD_STATE_FINDCTP1) := by
      rintro ⟨h1, h2⟩
      rcases h with h | h
      · exact h1 h
      · exact h2 h
    exact ⟨polls + 1, by simp only [PlayStation2.padWait, if_neg h']⟩
  | succ n ih =>
    by_cases hc : v.padGetState polls ≠ c.PAD_STATE_STABLE ∧
        v.padGetState polls ≠ c.PAD_STATE_FINDCTP1
    · have h2 : v.padGetState (polls + 1 + n) = c.PAD_STATE_STABLE ∨
          v.padGetState (polls + 1 + n) = c.PAD_STATE_FINDCTP1 := by
        have e : polls + 1 + n = polls + (n + 1) := by omega
        rw [e]; exact h
      obtain ⟨m, hm⟩ := ih (polls + 1) h2
      refine ⟨m, ?_⟩
      rw [PlayStation2.padWait]
      simp only [if_pos hc]
      exact hm
    · exact ⟨polls + 1, by rw [PlayStation2.padWait]; simp only [if_neg hc]⟩

/-- The waiting loop never ends while every read of the pad state gives
something else than `PAD_STATE_STABLE` and `PAD_STATE_FINDCTP1`. -/
theorem PlayStation2.padWait_never (c : PlayStation2.PadConsts) (v : PlayStation2.Vendor)
    (h : ∀ n, v.padGetState n ≠ c.PAD_STATE_STABLE ∧ v.padGetState n ≠ c.PAD_STATE_FINDCTP1)
    (fuel polls : Nat) : PlayStation2.padWait c v fuel polls = none := by
  induction fuel generalizing polls with
  | zero => rfl
  | succ fuel ih =>
    rw [PlayStation2.padWait]
    simp only [if_pos (h polls)]
    exact ih _

/-- What `PollInputEvents` leaves when `padRead` returns non-zero. -/
theorem PlayStation2.pollPadData_read (c : PlayStation2.PadConsts) (r : RaylibConsts)
    (v : PlayStation2.Vendor) (s : PlayStation2.State) (hread : v.padRead.1 ≠ 0) :
    (PlayStation2.pollPadData c r v s).CORE
      = mapButtons (PlayStation2.buttonMap c r) s.port (0xffff ^^^ toU16 v.padRead.2)
          (registerPreviousButtons r s.port
            (s.CORE.modGamepad fun g => { g with ready := set1 g.ready s.port true })) ∧
    (PlayStation2.pollPadData c r v s).btns = toU16 v.padRead.2 ∧
    (PlayStation2.pollPadData c r v s).port = s.port := by
  simp [PlayStation2.pollPadData, hread]

/-- What `PollInputEvents` leaves when `padRead` returns zero. -/
theorem PlayStation2.pollPadData_noread (c : PlayStation2.PadConsts) (r : RaylibConsts)
    (v : PlayStation2.Vendor) (s : PlayStation2.State) (hread : v.padRead.1 = 0) :
    (PlayStation2.pollPadData c r v s).CORE
      = registerPreviousButtons r s.port
          (s.CORE.modGamepad fun g => { g with ready := set1 g.ready s.port true }) ∧
    (PlayStation2.pollPadData c r v s).port = s.port := by
  simp [PlayStation2.pollPadData, hread]

/-- `PollInputEvents` returns the state its straight-line part makes from
the reset state, once the waiting loop has ended. -/
theorem PlayStation2.PollInputEvents_some (c : PlayStation2.PadConsts) (r : RaylibConsts)
    (v : PlayStation2.Vendor) (fuel : Nat) (s s' : PlayStation2.State)
    (h : PlayStation2.PollInputEvents c r v fuel s = some s') :
    ∃ m, s' = PlayStation2.pollPadData c r v
      { s with CORE := pollReset r s.CORE, polls := m } := by
  unfold PlayStation2.PollInputEvents at h
  simp only [] at h
  split at h
  · cases h
  · next m _ => exact ⟨m, (Option.some.inj h).symm⟩

/-- `PollInputEvents` returns when the pad gets ready. -/
theorem PlayStation2.PollInputEvents_returns (c : PlayStation2.PadConsts) (r : RaylibConsts)
    (v : PlayStation2.Vendor) (s : PlayStation2.State) (n : Nat)
    (hready : v.padGetState (s.polls + n) = c.PAD_STATE_STABLE ∨
      v.padGetState (s.polls + n) = c.PAD_STATE_FINDCTP1) :
    ∃ s', PlayStation2.PollInputEvents c r v (n + 1) s = some s' := by
  obtain ⟨m, hm⟩ := PlayStation2.padWait_of_ready c v n s.polls hready
  unfold PlayStation2.PollInputEvents
  simp only [hm]
  exact ⟨_, rfl⟩

/-- C2. PlayStation 2 `PollInputEvents`: once the pad is ready (so that the
call gets to `padRead`), whenever `padRead` returns non-zero and the table
names no raylib button twice, the call returns and leaves, for every one of
the 16 entries (mask `m`, button `b`), `currentButtonState[port][b] = 1` when
`((0xffff XOR btns) & m) != 0` and `= 0` otherwise, `btns` being the 16-bit
word `padRead` left in `buttons.btns`. -/
theorem PlayStation2.PollInputEvents_button_states (c : PlayStation2.PadConsts)
    (r : RaylibConsts) (v : PlayStation2.Vendor)
    (hnodup : ((PlayStation2.buttonMap c r).map Prod.snd).Nodup)
    (s : PlayStation2.State) (n : Nat)
    (hready : v.padGetState (s.polls + n) = c.PAD_STATE_STABLE ∨
      v.padGetState (s.polls + n) = c.PAD_STATE_FINDCTP1)
    (hread : v.padRead.1 ≠ 0) :
    (PlayStation2.buttonMap c r).length = 16 ∧
    (∃ s', PlayStation2.PollInputEvents c r v (n + 1) s = some s') ∧
    ∀ fuel s', PlayStation2.PollInputEvents c r v fuel s = some s' →
      s'.btns = toU16 v.padRead.2 ∧
      ∀ e ∈ PlayStation2.buttonMap c r,
        s'.CORE.Input.Gamepad.currentButtonState s.port e.2
          = if (0xffff ^^^ s'.btns) &&& e.1 ≠ 0 then 1 else 0 := by
  refine ⟨rfl, PlayStation2.PollInputEvents_returns c r v s n hready, ?_⟩
  intro fuel s' h
  obtain ⟨m, rfl⟩ := PlayStation2.PollInputEvents_some c r v fuel s s' h
  obtain ⟨hcore, hbtns, -⟩ := PlayStation2.pollPadData_read c r v
    { s with CORE := pollReset r s.CORE, polls := m } hread
  refine ⟨hbtns, ?_⟩
  intro e he
  rw [hcore, hbtns]
  exact mapButtons_current_mem _ _ _ _ hnodup e he

/-- C2 at the header values: the table names no button twice; the pad is ready
at its third read, `padRead` returns 1 with only the cross bit clear, and
the call returns with the slot of cross (7) at 1 and the slot of circle (6)
at 0 on port 0. -/
theorem PlayStation2.PollInputEvents_button_states_witness :
    ((PlayStation2.buttonMap PlayStation2.padConsts raylibConsts).map Prod.snd).Nodup ∧
    ∃ s', PlayStation2.PollInputEvents PlayStation2.padConsts raylibConsts
        PlayStation2.vendorA 3 PlayStation2.stateZero = some s' ∧
      s'.CORE.Input.Gamepad.currentButtonState 0 7 = 1 ∧
      s'.CORE.Input.Gamepad.currentButtonState 0 6 = 0 :=
  have h := PlayStation2.PollInputEvents_button_states PlayStation2.padConsts raylibConsts
    PlayStation2.vendorA (by decide) PlayStation2.stateZero 2 (by decide) (by decide)
  ⟨by decide, h.2.1.elim fun s' hs' =>
    ⟨s', hs', by
      have h7 := (h.2.2 3 s' hs').2 (0x4000, 7) (by decide)
      have h6 := (h.2.2 3 s' hs').2 (0x2000, 6) (by decide)
      rw [(h.2.2 3 s' hs').1] at h7 h6
      exact ⟨h7, h6⟩⟩⟩

/-! ## The Dreamcast pads -/

/-- A fold keeps whatever every step keeps. -/
theorem foldl_keeps {σ β ε : Type} (proj : σ → β) (f : σ → ε → σ) (l : List ε) (s : σ)
    (h : ∀ s e, proj (f s e) = proj s) : proj (l.foldl f s) = proj s := by
  induction l generalizing s with
  | nil => rfl
  | cons e rest ih => rw [List.foldl_cons, ih, h]

/-- The button loop leaves the ready flags and the previous button states
alone. -/
theorem mapButtons_keeps (table : List (Nat × Nat)) (pad word : Nat) (CORE : CoreData) :
    (mapButtons table pad word CORE).Input.Gamepad.ready = CORE.Input.Gamepad.ready ∧
    (mapButtons table pad word CORE).Input.Gamepad.previousButtonState
      = CORE.Input.Gamepad.previousButtonState := by
  unfold mapButtons
  constructor
  · apply foldl_keeps (fun c : CoreData => c.Input.Gamepad.ready)
    intro c e
    unfold mapButton
    split <;> rfl
  · apply foldl_keeps (fun c : CoreData => c.Input.Gamepad.previousButtonState)
    intro c e
    unfold mapButton
    split <;> rfl

/-- `MapControls` leaves the ready flags and the previous button states alone. -/
theorem Dreamcast.MapControls_keeps (k : Dreamcast.KosConsts) (r : RaylibConsts)
    (padIndex : Nat) (st : Dreamcast.cont_state_t) (CORE : CoreData) :
    (Dreamcast.MapControls k r padIndex st CORE).Input.Gamepad.ready
      = CORE.Input.Gamepad.ready ∧
    (Dreamcast.MapControls k r padIndex st CORE).Input.Gamepad.previousButtonState
      = CORE.Input.Gamepad.previousButtonState := by
  have h := mapButtons_keeps (Dreamcast.buttonMap k r) padIndex st.buttons CORE
  simp [Dreamcast.MapControls, Dreamcast.setAxis, h.1, h.2]

/-- One pass of the pad loop sets the ready flag of its pad to whether a
controller is enumerated there, and no other. -/
theorem Dreamcast.pollPad_ready (k : Dreamcast.KosConsts) (r : RaylibConsts)
    (maple : Dreamcast.Maple) (q : Nat) (CORE : CoreData) (p : Nat) :
    (Dreamcast.pollPad k r maple q CORE).Input.Gamepad.ready p
      = if p = q then (maple.maple_enum_type q).isSome else CORE.Input.Gamepad.ready p := by
  unfold Dreamcast.pollPad
  simp only []
  split
  · next h => simp [h, set1]
  · next dev h =>
    split
    · rw [(registerPreviousButtons_keeps _ _ _).2.1]
      simp [h, set1]
    · rw [(Dreamcast.MapControls_keeps _ _ _ _ _).1, (registerPreviousButtons_keeps _ _ _).2.1]
      simp [h, set1]

/-- One pass of the pad loop leaves the current button states of the other
pads alone. -/
theorem Dreamcast.pollPad_current_other (k : Dreamcast.KosConsts) (r : RaylibConsts)
    (maple : Dreamcast.Maple) (q : Nat) (CORE : CoreData) (p b : Nat) (hp : p ≠ q) :
    (Dreamcast.pollPad k r maple q CORE).Input.Gamepad.currentButtonState p b
      = CORE.Input.Gamepad.currentButtonState p b := by
  unfold Dreamcast.pollPad
  simp only []
  split
  · rfl
  · split
    · rw [(registerPreviousButtons_keeps _ _ _).1]
      rfl
    · rw [Dreamcast.MapControls_current, mapButtons_current_other _ _ _ _ _ _ (Or.inl hp),
        (registerPreviousButtons_keeps _ _ _).1]
      rfl

/-- One pass of the pad loop, when the state of its pad is read, leaves in
the slot of every table entry the state of that entry's bit. -/
theorem Dreamcast.pollPad_current_read (k : Dreamcast.KosConsts) (r : RaylibConsts)
    (maple : Dreamcast.Maple) (q : Nat) (CORE : CoreData)
    (hnodup : ((Dreamcast.buttonMap k r).map Prod.snd).Nodup)
    (dev : Nat) (st : Dreamcast.cont_state_t)
    (hdev : maple.maple_enum_type q = some dev) (hst : maple.maple_dev_status dev = some st)
    (e : Nat × Nat) (he : e ∈ Dreamcast.buttonMap k r) :
    (Dreamcast.pollPad k r maple q CORE).Input.Gamepad.currentButtonState q e.2
      = if st.buttons &&& e.1 ≠ 0 then 1 else 0 := by
  unfold Dreamcast.pollPad
  simp only [hdev, hst]
  rw [Dreamcast.MapControls_current]
  exact mapButtons_current_mem _ _ _ _ hnodup e he

/-- One pass of the pad loop leaves the previous button states of the other
pads alone. -/
theorem Dreamcast.pollPad_previous_other (k : Dreamcast.KosConsts) (r : RaylibConsts)
    (maple : Dreamcast.Maple) (q : Nat) (CORE : CoreData) (p b : Nat) (hp : p ≠ q) :
    (Dreamcast.pollPad k r maple q CORE).Input.Gamepad.previousButtonState p b
      = CORE.Input.Gamepad.previousButtonState p b := by
  have hne : ¬ (p = q ∧ b < r.MAX_GAMEPAD_BUTTONS) := fun h => hp h.1
  unfold Dreamcast.pollPad
  simp only []
  split
  · rfl
  · split
    · rw [registerPreviousButtons_previous, if_neg hne]
      rfl
    · rw [(Dreamcast.MapControls_keeps _ _ _ _ _).2, registerPreviousButtons_previous,
        if_neg hne]
      rfl

/-- One pass of the pad loop, when a controller is enumerated at its pad,
registers the current button states of that pad as the previous ones. -/
theorem Dreamcast.pollPad_previous_same (k : Dreamcast.KosConsts) (r : RaylibConsts)
    (maple : Dreamcast.Maple) (q : Nat) (CORE : CoreData) (b : Nat)
    (hdev : (maple.maple_enum_type q).isSome = true) (hb : b < r.MAX_GAMEPAD_BUTTONS) :
    (Dreamcast.pollPad k r maple q CORE).Input.Gamepad.previousButtonState q b
      = CORE.Input.Gamepad.currentButtonState q b := by
  obtain ⟨dev, hdev⟩ := Option.isSome_iff_exists.mp hdev
  unfold Dreamcast.pollPad
  simp only [hdev]
  split
  · rw [registerPreviousButtons_previous, if_pos ⟨rfl, hb⟩]
    rfl
  · rw [(Dreamcast.MapControls_keeps _ _ _ _ _).2, registerPreviousButtons_previous,
      if_pos ⟨rfl, hb⟩]
    rfl

/-- The pad loop run for the pads below `n` leaves the current button states
of the pads from `n` on alone. -/
theorem Dreamcast.pollLoop_current_late (k : Dreamcast.KosConsts) (r : RaylibConsts)
    (maple : Dreamcast.Maple) (n : Nat) (CORE : CoreData) (p b : Nat) (hp : n ≤ p) :
    (forLoop (Dreamcast.pollPad k r maple) n CORE).Input.Gamepad.currentButtonState p b
      = CORE.Input.Gamepad.currentButtonState p b := by
  induction n with
  | zero => rfl
  | succ n ih =>
    rw [forLoop, Dreamcast.pollPad_current_other _ _ _ _ _ _ _ (by omega), ih (by omega)]

/-- The pad loop run for the pads below `n` leaves a pad `p < n` as the pass
for `p` left it: the ready flag, the current and the previous button states. -/
theorem Dreamcast.pollLoop_done (k : Dreamcast.KosConsts) (r : RaylibConsts)
    (maple : Dreamcast.Maple) (n : Nat) (CORE : CoreData) (p : Nat) (hp : p < n) :
    (forLoop (Dreamcast.pollPad k r maple) n CORE).Input.Gamepad.ready p
      = (Dreamcast.pollPad k r maple p
          (forLoop (Dreamcast.pollPad k r maple) p CORE)).Input.Gamepad.ready p ∧
    (∀ b, (forLoop (Dreamcast.pollPad k r maple) n CORE).Input.Gamepad.currentButtonState p b
      = (Dreamcast.pollPad k r maple p
          (forLoop (Dreamcast.pollPad k r maple) p CORE)).Input.Gamepad.currentButtonState p b) ∧
    (∀ b, (forLoop (Dreamcast.pollPad k r maple) n CORE).Input.Gamepad.previousButtonState p b
      = (Dreamcast.pollPad k r maple p
          (forLoop (Dreamcast.pollPad k r maple) p CORE)).Input.Gamepad.previousButtonState p b) := by
  induction n with
  | zero => omega
  | succ n ih =>
    rcases Nat.lt_succ_iff_lt_or_eq.mp hp with hlt | rfl
    · have hne : p ≠ n := by omega
      obtain ⟨h1, h2, h3⟩ := ih hlt
      refine ⟨?_, ?_, ?_⟩
      · rw [forLoop, Dreamcast.pollPad_ready, if_neg hne, h1]
      · intro b
        rw [forLoop, Dreamcast.pollPad_current_other _ _ _ _ _ _ _ hne, h2]
      · intro b
        rw [forLoop, Dreamcast.pollPad_previous_other _ _ _ _ _ _ _ hne, h3]
    · exact ⟨rfl, fun _ => rfl, fun _ => rfl⟩

/-- Dreamcast `PollInputEvents` sets the ready flag of every pad index below
`MAX_GAMEPADS` to whether a controller is enumerated there. -/
theorem Dreamcast.PollInputEvents_ready (k : Dreamcast.KosConsts) (r : RaylibConsts)
    (maple : Dreamcast.Maple) (CORE : CoreData) (p : Nat) (hp : p < r.MAX_GAMEPADS) :
    (Dreamcast.PollInputEvents k r maple CORE).Input.Gamepad.ready p
      = (maple.maple_enum_type p).isSome := by
  unfold Dreamcast.PollInputEvents
  simp only []
  rw [(Dreamcast.pollLoop_done k r maple _ _ p hp).1, Dreamcast.pollPad_ready, if_pos rfl]

/-- Dreamcast `PollInputEvents`, for a pad whose state is read, leaves in the
slot of every table entry the state of that entry's bit. -/
theorem Dreamcast.PollInputEvents_current (k : Dreamcast.KosConsts) (r : RaylibConsts)
    (maple : Dreamcast.Maple) (CORE : CoreData)
    (hnodup : ((Dreamcast.buttonMap k r).map Prod.snd).Nodup)
    (p : Nat) (hp : p < r.MAX_GAMEPADS) (dev : Nat) (st : Dreamcast.cont_state_t)
    (hdev : maple.maple_enum_type p = some dev) (hst : maple.maple_dev_status dev = some st)
    (e : Nat × Nat) (he : e ∈ Dreamcast.buttonMap k r) :
    (Dreamcast.PollInputEvents k r maple CORE).Input.Gamepad.currentButtonState p e.2
      = if st.buttons &&& e.1 ≠ 0 then 1 else 0 := by
  unfold Dreamcast.PollInputEvents
  simp only []
  rw [(Dreamcast.pollLoop_done k r maple _ _ p hp).2.1]
  exact Dreamcast.pollPad_current_read k r maple p _ hnodup dev st hdev hst e he

/-- Dreamcast `PollInputEvents`, for a pad with a controller enumerated,
registers the button states the pad had before the call as the previous ones. -/
theorem Dreamcast.PollInputEvents_previous (k : Dreamcast.KosConsts) (r : RaylibConsts)
    (maple : Dreamcast.Maple) (CORE : CoreData)
    (p : Nat) (hp : p < r.MAX_GAMEPADS) (hdev : (maple.maple_enum_type p).isSome = true)
    (b : Nat) (hb : b < r.MAX_GAMEPAD_BUTTONS) :
    (Dreamcast.PollInputEvents k r maple CORE).Input.Gamepad.previousButtonState p b
      = CORE.Input.Gamepad.currentButtonState p b := by
  unfold Dreamcast.PollInputEvents
  simp only []
  rw [(Dreamcast.pollLoop_done k r maple _ _ p hp).2.2,
    Dreamcast.pollPad_previous_same k r maple p _ b hdev hb,
    Dreamcast.pollLoop_current_late k r maple p _ p b (Nat.le_refl p), pollReset_Gamepad]

/-- Vita `PollInputEvents` leaves the ready flags and the button states of
the gamepads as they were. -/
theorem Vita.PollInputEvents_gamepad (r : RaylibConsts) (CORE : CoreData) :
    (Vita.PollInputEvents r CORE).Input.Gamepad.ready = CORE.Input.Gamepad.ready ∧
    (Vita.PollInputEvents r CORE).Input.Gamepad.currentButtonState
      = CORE.Input.Gamepad.currentButtonState ∧
    (Vita.PollInputEvents r CORE).Input.Gamepad.previousButtonState
      = CORE.Input.Gamepad.previousButtonState := by
  unfold Vita.PollInputEvents
  rw [pollReset_Gamepad]
  exact ⟨rfl, rfl, rfl⟩

/-- What the straight-line part of the PlayStation 2 `PollInputEvents` does
to the ready flag and to the previous button states of the port. -/
theorem PlayStation2.pollPadData_ready_previous (c : PlayStation2.PadConsts)
    (r : RaylibConsts) (v : PlayStation2.Vendor) (s : PlayStation2.State) :
    (PlayStation2.pollPadData c r v s).CORE.Input.Gamepad.ready s.port = true ∧
    ∀ b, b < r.MAX_GAMEPAD_BUTTONS →
      (PlayStation2.pollPadData c r v s).CORE.Input.Gamepad.previousButtonState s.port b
        = s.CORE.Input.Gamepad.currentButtonState s.port b := by
  by_cases hread : v.padRead.1 = 0
  · rw [(PlayStation2.pollPadData_noread c r v s hread).1]
    refine ⟨?_, ?_⟩
    · rw [(registerPreviousButtons_keeps _ _ _).2.1]
      simp
    · intro b hb
      rw [registerPreviousButtons_previous, if_pos ⟨rfl, hb⟩]
      rfl
  · rw [(PlayStation2.pollPadData_read c r v s hread).1]
    refine ⟨?_, ?_⟩
    · rw [(mapButtons_keeps _ _ _ _).1, (registerPreviousButtons_keeps _ _ _).2.1]
      simp
    · intro b hb
      rw [(mapButtons_keeps _ _ _ _).2, registerPreviousButtons_previous, if_pos ⟨rfl, hb⟩]
      rfl

/-! ## C3: gamepad polling in `PollInputEvents` -/

/-- C3, as the code has it. The Dreamcast and the PlayStation 2
`PollInputEvents` poll the gamepads: the Dreamcast one sets `ready[p]`, for
every `p < MAX_GAMEPADS`, to whether a controller is enumerated at `p` and,
when its status is read, sets the mapped button states of `p` from the status
word; the PlayStation 2 one, once the pad is ready, returns with
`ready[port] = true` and, when `padRead` returns non-zero, with the mapped
button states of `port` set from the inverted button word. The Vita
`PollInputEvents` reads no controller and leaves `ready` and
`currentButtonState` as they were. (Both tables are taken to name no raylib
button twice.) -/
theorem PollInputEvents_gamepad_polling (k : Dreamcast.KosConsts)
    (c : PlayStation2.PadConsts) (r : RaylibConsts) (maple : Dreamcast.Maple)
    (v : PlayStation2.Vendor) (CORE : CoreData) (s : PlayStation2.State) (n : Nat)
    (hdc : ((Dreamcast.buttonMap k r).map Prod.snd).Nodup)
    (hps : ((PlayStation2.buttonMap c r).map Prod.snd).Nodup)
    (hready : v.padGetState (s.polls + n) = c.PAD_STATE_STABLE ∨
      v.padGetState (s.polls + n) = c.PAD_STATE_FINDCTP1) :
    (∀ p, p < r.MAX_GAMEPADS →
      (Dreamcast.PollInputEvents k r maple CORE).Input.Gamepad.ready p
        = (maple.maple_enum_type p).isSome ∧
      ∀ dev st, maple.maple_enum_type p = some dev → maple.maple_dev_status dev = some st →
        ∀ e ∈ Dreamcast.buttonMap k r,
          (Dreamcast.PollInputEvents k r maple CORE).Input.Gamepad.currentButtonState p e.2
            = if st.buttons &&& e.1 ≠ 0 then 1 else 0) ∧
    ((∃ s', PlayStation2.PollInputEvents c r v (n + 1) s = some s') ∧
      ∀ fuel s', PlayStation2.PollInputEvents c r v fuel s = some s' →
        s'.CORE.Input.Gamepad.ready s.port = true ∧
        (v.padRead.1 ≠ 0 → ∀ e ∈ PlayStation2.buttonMap c r,
          s'.CORE.Input.Gamepad.currentButtonState s.port e.2
            = if (0xffff ^^^ toU16 v.padRead.2) &&& e.1 ≠ 0 then 1 else 0)) ∧
    ((Vita.PollInputEvents r CORE).Input.Gamepad.ready = CORE.Input.Gamepad.ready ∧
      (Vita.PollInputEvents r CORE).Input.Gamepad.currentButtonState
        = CORE.Input.Gamepad.currentButtonState) := by
  refine ⟨?_, ⟨PlayStation2.PollInputEvents_returns c r v s n hready, ?_⟩, ?_⟩
  · intro p hp
    exact ⟨Dreamcast.PollInputEvents_ready k r maple CORE p hp, fun dev st hdev hst e he =>
      Dreamcast.PollInputEvents_current k r maple CORE hdc p hp dev st hdev hst e he⟩
  · intro fuel s' h
    obtain ⟨m, rfl⟩ := PlayStation2.PollInputEvents_some c r v fuel s s' h
    refine ⟨(PlayStation2.pollPadData_ready_previous c r v
      { s with CORE := pollReset r s.CORE, polls := m }).1, ?_⟩
    intro hread e he
    rw [(PlayStation2.pollPadData_read c r v
      { s with CORE := pollReset r s.CORE, polls := m } hread).1]
    exact mapButtons_current_mem _ _ _ _ hps e he
  · exact ⟨(Vita.PollInputEvents_gamepad r CORE).1, (Vita.PollInputEvents_gamepad r CORE).2.1⟩

/-- C3 at the header values: with a controller at port 0 whose A button is
down, the Dreamcast call marks pad 0 ready and sets the slot of A; with the
pad ready at its third read, the PlayStation 2 call returns with port 0
ready. -/
theorem PollInputEvents_gamepad_polling_witness :
    ((Dreamcast.buttonMap Dreamcast.kosConsts raylibConsts).map Prod.snd).Nodup ∧
    ((PlayStation2.buttonMap PlayStation2.padConsts raylibConsts).map Prod.snd).Nodup ∧
    (Dreamcast.PollInputEvents Dreamcast.kosConsts raylibConsts Dreamcast.mapleA
      coreZero).Input.Gamepad.ready 0 = true ∧
    (Dreamcast.PollInputEvents Dreamcast.kosConsts raylibConsts Dreamcast.mapleA
      coreZero).Input.Gamepad.currentButtonState 0 7 = 1 ∧
    ∃ s', PlayStation2.PollInputEvents PlayStation2.padConsts raylibConsts
        PlayStation2.vendorA 3 PlayStation2.stateZero = some s' ∧
      s'.CORE.Input.Gamepad.ready 0 = true :=
  have h := PollInputEvents_gamepad_polling Dreamcast.kosConsts PlayStation2.padConsts
    raylibConsts Dreamcast.mapleA PlayStation2.vendorA coreZero PlayStation2.stateZero 2
    (by decide) (by decide) (by decide)
  ⟨by decide, by decide, (h.1 0 (by decide)).1,
    (h.1 0 (by decide)).2 10 Dreamcast.padA rfl rfl (4, 7) (by decide),
    h.2.1.1.elim fun s' hs' => ⟨s', hs', (h.2.1.2 3 s' hs').1⟩⟩

/-- C3 fails for the Vita file: its `PollInputEvents` takes no controller
input at all, and from a `CORE` whose pad 0 is not ready and whose button
slots are 0 it leaves pad 0 not ready and the slot of A at 0, where the
Dreamcast `PollInputEvents`, from the same `CORE` and a controller at port 0
with A down, marks the pad ready and sets the slot. -/
theorem PollInputEvents_gamepad_polling_counterexample :
    (Vita.PollInputEvents raylibConsts coreZero).Input.Gamepad.ready 0 = false ∧
    (Vita.PollInputEvents raylibConsts coreZero).Input.Gamepad.currentButtonState 0 7 = 0 ∧
    (Dreamcast.PollInputEvents Dreamcast.kosConsts raylibConsts Dreamcast.mapleA
      coreZero).Input.Gamepad.ready 0 = true ∧
    (Dreamcast.PollInputEvents Dreamcast.kosConsts raylibConsts Dreamcast.mapleA
      coreZero).Input.Gamepad.currentButtonState 0 7 = 1 := by
  refine ⟨?_, ?_, ?_, ?_⟩
  · rw [(Vita.PollInputEvents_gamepad raylibConsts coreZero).1]; rfl
  · rw [(Vita.PollInputEvents_gamepad raylibConsts coreZero).2.1]; rfl
  · rw [Dreamcast.PollInputEvents_ready _ _ _ _ 0 (by decide)]; rfl
  · exact Dreamcast.PollInputEvents_current _ _ _ _ (by decide) 0 (by decide) 10
      Dreamcast.padA rfl rfl (4, 7) (by decide)

/-! ## C4: the previous button states -/

/-- C4. `PollInputEvents` registers the previous gamepad button states: on
the Dreamcast, for every `p < MAX_GAMEPADS` with a controller enumerated, and
on the PlayStation 2 (once the pad is ready, so that the call returns) for the
opened port, `previousButtonState[p][k]` after the call is
`currentButtonState[p][k]` before the call, for every
`k < MAX_GAMEPAD_BUTTONS`. -/
theorem PollInputEvents_registers_previous (k : Dreamcast.KosConsts)
    (c : PlayStation2.PadConsts) (r : RaylibConsts) (maple : Dreamcast.Maple)
    (v : PlayStation2.Vendor) (CORE : CoreData) (s : PlayStation2.State) (n : Nat)
    (hready : v.padGetState (s.polls + n) = c.PAD_STATE_STABLE ∨
      v.padGetState (s.polls + n) = c.PAD_STATE_FINDCTP1) :
    (∀ p, p < r.MAX_GAMEPADS → (maple.maple_enum_type p).isSome = true →
      ∀ b, b < r.MAX_GAMEPAD_BUTTONS →
        (Dreamcast.PollInputEvents k r maple CORE).Input.Gamepad.previousButtonState p b
          = CORE.Input.Gamepad.currentButtonState p b) ∧
    ((∃ s', PlayStation2.PollInputEvents c r v (n + 1) s = some s') ∧
      ∀ fuel s', PlayStation2.PollInputEvents c r v fuel s = some s' →
        ∀ b, b < r.MAX_GAMEPAD_BUTTONS →
          s'.CORE.Input.Gamepad.previousButtonState s.port b
            = s.CORE.Input.Gamepad.currentButtonState s.port b) := by
  refine ⟨?_, PlayStation2.PollInputEvents_returns c r v s n hready, ?_⟩
  · intro p hp hdev b hb
    exact Dreamcast.PollInputEvents_previous k r maple CORE p hp hdev b hb
  · intro fuel s' h b hb
    obtain ⟨m, rfl⟩ := PlayStation2.PollInputEvents_some c r v fuel s s' h
    rw [(PlayStation2.pollPadData_ready_previous c r v
      { s with CORE := pollReset r s.CORE, polls := m }).2 b hb]
    show (pollReset r s.CORE).Input.Gamepad.currentButtonState s.port b = _
    rw [pollReset_Gamepad]

/-- C4 at concrete inputs: the Y button of pad 0 was down before the call; a
controller is enumerated at port 0 (Dreamcast) and the pad is ready at its
third read (PlayStation 2); after the call the previous state of Y on pad 0
is 1 on both. -/
theorem PollInputEvents_registers_previous_witness :
    (Dreamcast.PollInputEvents Dreamcast.kosConsts raylibConsts Dreamcast.mapleA
      corePressed).Input.Gamepad.previousButtonState 0 5 = 1 ∧
    ∃ s', PlayStation2.PollInputEvents PlayStation2.padConsts raylibConsts
        PlayStation2.vendorA 3 { PlayStation2.stateZero with CORE := corePressed } = some s' ∧
      s'.CORE.Input.Gamepad.previousButtonState 0 5 = 1 :=
  have h := PollInputEvents_registers_previous Dreamcast.kosConsts PlayStation2.padConsts
    raylibConsts Dreamcast.mapleA PlayStation2.vendorA corePressed
    { PlayStation2.stateZero with CORE := corePressed } 2 (by decide)
  ⟨h.1 0 (by decide) rfl 5 (by decide),
    h.2.1.elim fun s' hs' => ⟨s', hs', h.2.2 3 s' hs' 5 (by decide)⟩⟩

/-! ## The last button pressed -/

/-- One pass of the button loop sets `lastButtonPressed` when the bit is set. -/
theorem mapButton_last (pad word : Nat) (CORE : CoreData) (e : Nat × Nat) :
    (mapButton pad word CORE e).Input.Gamepad.lastButtonPressed
      = if word &&& e.1 ≠ 0 then (e.2 : Int) else CORE.Input.Gamepad.lastButtonPressed := by
  unfold mapButton
  split <;> rfl

/-- After the button loop `lastButtonPressed` is the button of the last table
entry whose bit is set, and is unchanged when there is none. -/
theorem mapButtons_last (table : List (Nat × Nat)) (pad word : Nat) (CORE : CoreData) :
    (mapButtons table pad word CORE).Input.Gamepad.lastButtonPressed
      = (((pressed table word).getLast?).map fun e => (e.2 : Int)).getD
          CORE.Input.Gamepad.lastButtonPressed := by
  induction table using List.reverseRecOn with
  | nil => rfl
  | append_singleton l e ih =>
    unfold mapButtons at ih ⊢
    rw [List.foldl_append, List.foldl_cons, List.foldl_nil, mapButton_last]
    unfold pressed at ih ⊢
    rw [List.filter_append]
    by_cases h : word &&& e.1 ≠ 0
    · have hf : List.filter (fun e => decide (word &&& e.1 ≠ 0)) [e] = [e] := by
        simp [List.filter, h]
      rw [if_pos h, hf, List.getLast?_concat]
      rfl
    · have hf : List.filter (fun e => decide (word &&& e.1 ≠ 0)) [e] = [] := by
        simp [List.filter, h]
      rw [if_neg h, hf, List.append_nil]
      exact ih

/-- The button loop leaves `lastButtonPressed` alone when no button is down. -/
theorem mapButtons_last_none (table : List (Nat × Nat)) (pad word : Nat) (CORE : CoreData)
    (h : pressed table word = []) :
    (mapButtons table pad word CORE).Input.Gamepad.lastButtonPressed
      = CORE.Input.Gamepad.lastButtonPressed := by
  rw [mapButtons_last, h]
  rfl

/-- The button loop leaves in `lastButtonPressed` the button of the last
entry that is down. -/
theorem mapButtons_last_some (table : List (Nat × Nat)) (pad word : Nat) (CORE : CoreData)
    (e : Nat × Nat) (h : (pressed table word).getLast? = some e) :
    (mapButtons table pad word CORE).Input.Gamepad.lastButtonPressed = (e.2 : Int) := by
  rw [mapButtons_last, h]
  rfl

/-- An entry that is down is an entry of the table. -/
theorem mem_of_pressed_getLast (table : List (Nat × Nat)) (word : Nat) (e : Nat × Nat)
    (h : (pressed table word).getLast? = some e) : e ∈ table :=
  (List.mem_filter.mp (List.mem_of_getLast?_eq_some h)).1

/-- One pass of the Dreamcast pad loop on `lastButtonPressed`: the last button
down of the pad when its state is read and a button is down, unchanged
otherwise. -/
theorem Dreamcast.pollPad_last (k : Dreamcast.KosConsts) (r : RaylibConsts)
    (maple : Dreamcast.Maple) (q : Nat) (CORE : CoreData) :
    (Dreamcast.pollPad k r maple q CORE).Input.Gamepad.lastButtonPressed
      = match Dreamcast.readState maple q with
        | some st =>
          (((pressed (Dreamcast.buttonMap k r) st.buttons).getLast?).map
            fun e => (e.2 : Int)).getD CORE.Input.Gamepad.lastButtonPressed
        | none => CORE.Input.Gamepad.lastButtonPressed := by
  unfold Dreamcast.pollPad Dreamcast.readState
  simp only []
  cases hdev : maple.maple_enum_type q with
  | none => rfl
  | some dev =>
    simp only [Option.bind]
    cases hst : maple.maple_dev_status dev with
    | none =>
      simp only []
      rw [(registerPreviousButtons_keeps _ _ _).2.2]
      rfl
    | some st =>
      simp only []
      have hmc : (Dreamcast.MapControls k r q st
          (registerPreviousButtons r q
            (CORE.modGamepad fun g =>
              { g with ready := set1 g.ready q (some dev).isSome }))).Input.Gamepad.lastButtonPressed
          = (mapButtons (Dreamcast.buttonMap k r) q st.buttons
              (registerPreviousButtons r q
                (CORE.modGamepad fun g =>
                  { g with ready := set1 g.ready q (some dev).isSome }))).Input.Gamepad.lastButtonPressed := by
        simp [Dreamcast.MapControls, Dreamcast.setAxis]
      rw [hmc, mapButtons_last, (registerPreviousButtons_keeps _ _ _).2.2]
      rfl

/-- The Dreamcast pad loop on `lastButtonPressed`, started from 0 and run for
the pads below `n`, when no table entry names button 0: the result is 0
exactly when no pad below `n` whose state is read has a button down, and
otherwise it is the last button down of the highest such pad. -/
theorem Dreamcast.pollLoop_last (k : Dreamcast.KosConsts) (r : RaylibConsts)
    (maple : Dreamcast.Maple) (CORE : CoreData)
    (hzero : CORE.Input.Gamepad.lastButtonPressed = 0)
    (hnz : ∀ e ∈ Dreamcast.buttonMap k r, e.2 ≠ 0) (n : Nat) :
    ((forLoop (Dreamcast.pollPad k r maple) n CORE).Input.Gamepad.lastButtonPressed = 0 ↔
      ∀ p, p < n → ∀ st, Dreamcast.readState maple p = some st →
        pressed (Dreamcast.buttonMap k r) st.buttons = []) ∧
    (∀ p, p < n → ∀ st e, Dreamcast.readState maple p = some st →
      (pressed (Dreamcast.buttonMap k r) st.buttons).getLast? = some e →
      (∀ q, p < q → q < n → ∀ st', Dreamcast.readState maple q = some st' →
        pressed (Dreamcast.buttonMap k r) st'.buttons = []) →
      (forLoop (Dreamcast.pollPad k r maple) n CORE).Input.Gamepad.lastButtonPressed
        = (e.2 : Int)) := by
  induction n with
  | zero =>
    refine ⟨⟨fun _ p hp => absurd hp (Nat.not_lt_zero p), fun _ => hzero⟩, ?_⟩
    intro p hp
    exact absurd hp (Nat.not_lt_zero p)
  | succ n ih =>
    obtain ⟨ihA, ihB⟩ := ih
    have hstep := Dreamcast.pollPad_last k r maple n (forLoop (Dreamcast.pollPad k r maple) n CORE)
    rw [forLoop]
    cases hrs : Dreamcast.readState maple n with
    | none =>
      rw [hrs] at hstep
      simp only [] at hstep
      rw [hstep]
      refine ⟨⟨fun h p hp st hst => ?_, fun h => ?_⟩, ?_⟩
      · rcases Nat.lt_succ_iff_lt_or_eq.mp hp with hlt | rfl
        · exact ihA.mp h p hlt st hst
        · rw [hrs] at hst; cases hst
      · exact ihA.mpr fun p hp st hst => h p (Nat.lt_succ_of_lt hp) st hst
      · intro p hp st e hst hlast hq
        rcases Nat.lt_succ_iff_lt_or_eq.mp hp with hlt | rfl
        · exact ihB p hlt st e hst hlast fun q hpq hqn => hq q hpq (Nat.lt_succ_of_lt hqn)
        · rw [hrs] at hst; cases hst
    | some stn =>
      rw [hrs] at hstep
      simp only [] at hstep
      cases hl : (pressed (Dreamcast.buttonMap k r) stn.buttons).getLast? with
      | none =>
        have hnil : pressed (Dreamcast.buttonMap k r) stn.buttons = [] :=
          List.getLast?_eq_none_iff.mp hl
        rw [hl] at hstep
        simp only [Option.map, Option.getD] at hstep
        rw [hstep]
        refine ⟨⟨fun h p hp st hst => ?_, fun h => ?_⟩, ?_⟩
        · rcases Nat.lt_succ_iff_lt_or_eq.mp hp with hlt | rfl
          · exact ihA.mp h p hlt st hst
          · rw [hrs] at hst
            cases hst
            exact hnil
        · exact ihA.mpr fun p hp st hst => h p (Nat.lt_succ_of_lt hp) st hst
        · intro p hp st e hst hlast hq
          rcases Nat.lt_succ_iff_lt_or_eq.mp hp with hlt | rfl
          · exact ihB p hlt st e hst hlast fun q hpq hqn => hq q hpq (Nat.lt_succ_of_lt hqn)
          · rw [hrs] at hst
            cases hst
            rw [hl] at hlast
            cases hlast
      | some en =>
        rw [hl] at hstep
        simp only [Option.map, Option.getD] at hstep
        rw [hstep]
        have hen : en.2 ≠ 0 := hnz en (mem_of_pressed_getLast _ _ _ hl)
        have hne : pressed (Dreamcast.buttonMap k r) stn.buttons ≠ [] := by
          intro h0
          rw [h0] at hl
          cases hl
        refine ⟨⟨fun h => ?_, fun h => ?_⟩, ?_⟩
        · exact absurd (Int.natCast_eq_zero.mp h) hen
        · exact absurd (h n (Nat.lt_succ_self n) stn hrs) hne
        · intro p hp st e hst hlast hq
          rcases Nat.lt_succ_iff_lt_or_eq.mp hp with hlt | rfl
          · exact absurd (hq n hlt (Nat.lt_succ_self n) stn hrs) hne
          · rw [hrs] at hst
            cases hst
            rw [hl] at hlast
            cases hlast
            rfl

/-- What the straight-line part of the PlayStation 2 `PollInputEvents` does
to `lastButtonPressed`. -/
theorem PlayStation2.pollPadData_last (c : PlayStation2.PadConsts) (r : RaylibConsts)
    (v : PlayStation2.Vendor) (s : PlayStation2.State) :
    (PlayStation2.pollPadData c r v s).CORE.Input.Gamepad.lastButtonPressed
      = if v.padRead.1 ≠ 0 then
          (((pressed (PlayStation2.buttonMap c r) (0xffff ^^^ toU16 v.padRead.2)).getLast?).map
            fun e => (e.2 : Int)).getD s.CORE.Input.Gamepad.lastButtonPressed
        else s.CORE.Input.Gamepad.lastButtonPressed := by
  by_cases hread : v.padRead.1 = 0
  · have hn : ¬ v.padRead.1 ≠ 0 := fun h => h hread
    rw [(PlayStation2.pollPadData_noread c r v s hread).1, if_neg hn,
      (registerPreviousButtons_keeps _ _ _).2.2]
    rfl
  · rw [(PlayStation2.pollPadData_read c r v s hread).1, if_pos hread, mapButtons_last,
      (registerPreviousButtons_keeps _ _ _).2.2]
    rfl

/-! ## C5: `lastButtonPressed` -/

/-- C5. `PollInputEvents` resets `lastButtonPressed` to 0 and then, when no
table entry names button 0 (`GAMEPAD_BUTTON_UNKNOWN`): after the call
`lastButtonPressed` is 0 if and only if no mapped button bit is set on any
pad whose state was read; otherwise it is the raylib button of the last entry
in table order whose bit is set, taken from the highest-index pad that has a
mapped button down (Dreamcast) or from the opened port (PlayStation 2, once
the pad is ready, so that the call returns). -/
theorem PollInputEvents_last_button (k : Dreamcast.KosConsts)
    (c : PlayStation2.PadConsts) (r : RaylibConsts) (maple : Dreamcast.Maple)
    (v : PlayStation2.Vendor) (CORE : CoreData) (s : PlayStation2.State) (n : Nat)
    (hdc : ∀ e ∈ Dreamcast.buttonMap k r, e.2 ≠ 0)
    (hps : ∀ e ∈ PlayStation2.buttonMap c r, e.2 ≠ 0)
    (hready : v.padGetState (s.polls + n) = c.PAD_STATE_STABLE ∨
      v.padGetState (s.polls + n) = c.PAD_STATE_FINDCTP1) :
    (((Dreamcast.PollInputEvents k r maple CORE).Input.Gamepad.lastButtonPressed = 0 ↔
        ∀ p, p < r.MAX_GAMEPADS → ∀ st, Dreamcast.readState maple p = some st →
          pressed (Dreamcast.buttonMap k r) st.buttons = []) ∧
      (∀ p, p < r.MAX_GAMEPADS → ∀ st e, Dreamcast.readState maple p = some st →
        (pressed (Dreamcast.buttonMap k r) st.buttons).getLast? = some e →
        (∀ q, p < q → q < r.MAX_GAMEPADS → ∀ st', Dreamcast.readState maple q = some st' →
          pressed (Dreamcast.buttonMap k r) st'.buttons = []) →
        (Dreamcast.PollInputEvents k r maple CORE).Input.Gamepad.lastButtonPressed
          = (e.2 : Int))) ∧
    ((∃ s', PlayStation2.PollInputEvents c r v (n + 1) s = some s') ∧
      ∀ fuel s', PlayStation2.PollInputEvents c r v fuel s = some s' →
        (s'.CORE.Input.Gamepad.lastButtonPressed = 0 ↔
          (v.padRead.1 ≠ 0 →
            pressed (PlayStation2.buttonMap c r) (0xffff ^^^ toU16 v.padRead.2) = [])) ∧
        (v.padRead.1 ≠ 0 → ∀ e,
          (pressed (PlayStation2.buttonMap c r) (0xffff ^^^ toU16 v.padRead.2)).getLast?
            = some e →
          s'.CORE.Input.Gamepad.lastButtonPressed = (e.2 : Int))) := by
  refine ⟨?_, PlayStation2.PollInputEvents_returns c r v s n hready, ?_⟩
  · have hzero : (pollReset r CORE).Input.Gamepad.lastButtonPressed = 0 := by
      rw [pollReset_Gamepad]
    exact Dreamcast.pollLoop_last k r maple (pollReset r CORE) hzero hdc r.MAX_GAMEPADS
  · intro fuel s' h
    obtain ⟨m, rfl⟩ := PlayStation2.PollInputEvents_some c r v fuel s s' h
    have hlast := PlayStation2.pollPadData_last c r v
      { s with CORE := pollReset r s.CORE, polls := m }
    have hzero : (pollReset r s.CORE).Input.Gamepad.lastButtonPressed = 0 := by
      rw [pollReset_Gamepad]
    simp only [hzero] at hlast
    rw [hlast]
    by_cases hread : v.padRead.1 = 0
    · have hn : ¬ v.padRead.1 ≠ 0 := fun h => h hread
      rw [if_neg hn]
      exact ⟨⟨fun _ h => absurd h hn, fun _ => rfl⟩, fun h => absurd h hn⟩
    · rw [if_pos hread]
      cases hl : (pressed (PlayStation2.buttonMap c r)
          (0xffff ^^^ toU16 v.padRead.2)).getLast? with
      | none =>
        have hnil := List.getLast?_eq_none_iff.mp hl
        refine ⟨⟨fun _ _ => hnil, fun _ => rfl⟩, ?_⟩
        intro _ e he
        cases he
      | some e0 =>
        have he0 : e0.2 ≠ 0 := hps e0 (mem_of_pressed_getLast _ _ _ hl)
        have hne : pressed (PlayStation2.buttonMap c r) (0xffff ^^^ toU16 v.padRead.2) ≠ [] := by
          intro h0
          rw [h0] at hl
          cases hl
        refine ⟨⟨fun h => ?_, fun h => absurd (h hread) hne⟩, ?_⟩
        · exact absurd (Int.natCast_eq_zero.mp h) he0
        · intro _ e he
          cases he
          rfl

/-- C5 at the header values: no table entry names button 0. On the
Dreamcast, with A and D-pad up down at port 0, START and B down at port 2 and
an unreadable controller at port 3, `lastButtonPressed` is B (6), the last
entry in table order of the highest pad with a button down. On the
PlayStation 2, with only cross down, it is cross (7). -/
theorem PollInputEvents_last_button_witness :
    (∀ e ∈ Dreamcast.buttonMap Dreamcast.kosConsts raylibConsts, e.2 ≠ 0) ∧
    (∀ e ∈ PlayStation2.buttonMap PlayStation2.padConsts raylibConsts, e.2 ≠ 0) ∧
    (Dreamcast.PollInputEvents Dreamcast.kosConsts raylibConsts Dreamcast.mapleA
      coreZero).Input.Gamepad.lastButtonPressed = 6 ∧
    ∃ s', PlayStation2.PollInputEvents PlayStation2.padConsts raylibConsts
        PlayStation2.vendorA 3 PlayStation2.stateZero = some s' ∧
      s'.CORE.Input.Gamepad.lastButtonPressed = 7 :=
  have h := PollInputEvents_last_button Dreamcast.kosConsts PlayStation2.padConsts
    raylibConsts Dreamcast.mapleA PlayStation2.vendorA coreZero PlayStation2.stateZero 2
    (by decide) (by decide) (by decide)
  ⟨by decide, by decide,
    h.1.2 2 (by decide) Dreamcast.padB (2, 6) rfl (by decide) (fun q hpq hqn st' hst' => by
      have hq4 : q < 4 := hqn
      have hq : q = 3 := by omega
      subst hq
      have h3 : Dreamcast.readState Dreamcast.mapleA 3 = none := rfl
      rw [h3] at hst'
      cases hst'),
    h.2.1.elim fun s' hs' => ⟨s', hs', (h.2.2 3 s' hs').2 (by decide) (0x4000, 7) (by decide)⟩⟩

/-! ## C6: `WindowShouldClose` -/

/-- C6. `WindowShouldClose` returns `CORE.Window.shouldClose` when
`CORE.Window.ready` is true and `true` when it is false, in the Dreamcast,
the PlayStation 2 and the Vita file, and leaves `CORE` as it was. -/
theorem WindowShouldClose_result (CORE : CoreData) :
    ((Dreamcast.WindowShouldClose CORE).1
        = (if CORE.Window.ready = true then CORE.Window.shouldClose else true) ∧
      (Dreamcast.WindowShouldClose CORE).2 = CORE) ∧
    ((PlayStation2.WindowShouldClose CORE).1
        = (if CORE.Window.ready = true then CORE.Window.shouldClose else true) ∧
      (PlayStation2.WindowShouldClose CORE).2 = CORE) ∧
    ((Vita.WindowShouldClose CORE).1
        = (if CORE.Window.ready = true then CORE.Window.shouldClose else true) ∧
      (Vita.WindowShouldClose CORE).2 = CORE) := by
  unfold Dreamcast.WindowShouldClose PlayStation2.WindowShouldClose Vita.WindowShouldClose
  cases CORE.Window.ready <;> simp

/-! ## The window state in `InitPlatform` -/

/-- The window assignments at the head of the Dreamcast and Vita
`InitPlatform`, field by field. -/
theorem initWindowState_Window (r : RaylibConsts) (CORE : CoreData) :
    (initWindowState r CORE).Window
      = { CORE.Window with
          fullscreen := true
          flags := CORE.Window.flags ||| r.FLAG_FULLSCREEN_MODE
          display := CORE.Window.screen
          render := CORE.Window.screen
          eventWaiting := false
          screenScale := MatrixIdentity
          currentFbo := CORE.Window.screen } := rfl

/-- The assignments after `SetupFramebuffer`, field by field. -/
theorem syncRenderSize_Window (CORE : CoreData) :
    (syncRenderSize CORE).Window
      = { CORE.Window with render := CORE.Window.screen, currentFbo := CORE.Window.screen } :=
  rfl

/-- The last statements of `InitPlatform` change `CORE.Window` only in
`ready`, which becomes true. -/
theorem finishInit_Window (env : CoreEnv) (CORE : CoreData) :
    (finishInit env CORE).Window = { CORE.Window with ready := true } := rfl

/-! ## C7: the Vita `InitPlatform` -/

/-- The attribute list `InitPlatform` passes, as a function of the flags on
entry. -/
theorem Vita.attribs_eq (e : Vita.EglConsts) (r : RaylibConsts) (flags : Nat) :
    Vita.framebufferAttribs e
      (if (flags ||| r.FLAG_FULLSCREEN_MODE) &&& r.FLAG_MSAA_4X_HINT ≠ 0 then 1 else 0)
      (if (flags ||| r.FLAG_FULLSCREEN_MODE) &&& r.FLAG_MSAA_4X_HINT ≠ 0 then 4 else 0)
      = Vita.attribsFor e r flags := by
  unfold Vita.attribsFor
  split <;> rfl

/-- The Vita `InitPlatform` returns 0 when every bring-up step succeeds and
-1 otherwise. -/
theorem Vita.InitPlatform_fst (e : Vita.EglConsts) (r : RaylibConsts) (v : Vita.Vendor)
    (env : CoreEnv) (s : Vita.State) :
    (Vita.InitPlatform e r v env s).1
      = if Vita.bringUpSucceeds e r v s.CORE.Window.flags then 0 else -1 := by
  have hfl : (initWindowState r s.CORE).Window.flags
      = s.CORE.Window.flags ||| r.FLAG_FULLSCREEN_MODE := rfl
  unfold Vita.InitPlatform Vita.bringUpSucceeds
  simp only [hfl, Vita.attribs_eq]
  by_cases h1 : v.pibInit = 0
  · by_cases h2 : v.eglGetDisplay = e.EGL_NO_DISPLAY
    · simp [h1, h2]
    · by_cases h3 : v.eglInitialize = e.EGL_FALSE
      · simp [h1, h2, h3]
      · by_cases h4 : v.eglBindAPI = 0
        · simp [h1, h2, h3, h4]
        · by_cases h5 : (v.eglChooseConfig 1 (Vita.attribsFor e r s.CORE.Window.flags)).1 = 0
          · simp [h1, h2, h3, h4, h5]
          · by_cases h6 : (v.eglChooseConfig 1 (Vita.attribsFor e r s.CORE.Window.flags)).2.2 = 1
            · by_cases h7 : v.eglCreateContext
                  (v.eglChooseConfig 1 (Vita.attribsFor e r s.CORE.Window.flags)).2.1
                  (Vita.contextAttribs e) = e.EGL_NO_CONTEXT
              · simp [h1, h2, h3, h4, h5, h6, h7]
              · by_cases h8 : v.eglCreateWindowSurface
                    (v.eglChooseConfig 1 (Vita.attribsFor e r s.CORE.Window.flags)).2.1
                    = e.EGL_NO_SURFACE
                · simp [h1, h2, h3, h4, h5, h6, h7, h8]
                · by_cases h9 : v.eglMakeCurrent = e.EGL_FALSE
                  · simp [h1, h2, h3, h4, h5, h6, h7, h8, h9]
                  · simp [h1, h2, h3, h4, h5, h6, h7, h8, h9]
            · simp [h1, h2, h3, h4, h5, h6]
  · simp [h1]

/-- The `CORE` the Vita `InitPlatform` leaves: with `ready` false when
`pibInit` fails; with the window assignments made and nothing else when a
step before `SetupFramebuffer` fails; as `SetupFramebuffer` left it when a
later step fails; and with `ready` true when it returns 0. -/
theorem Vita.InitPlatform_core (e : Vita.EglConsts) (r : RaylibConsts) (v : Vita.Vendor)
    (env : CoreEnv) (s : Vita.State) :
    (v.pibInit ≠ 0 →
      (Vita.InitPlatform e r v env s).2.CORE
        = s.CORE.modWindow fun w => { w with ready := false }) ∧
    (v.pibInit = 0 → (Vita.InitPlatform e r v env s).1 ≠ 0 →
      (Vita.InitPlatform e r v env s).2.CORE = initWindowState r s.CORE ∨
      (Vita.InitPlatform e r v env s).2.CORE
        = env.SetupFramebuffer s.CORE.Window.screen.width s.CORE.Window.screen.height
            (initWindowState r s.CORE)) ∧
    ((Vita.InitPlatform e r v env s).1 = 0 →
      (Vita.InitPlatform e r v env s).2.CORE
        = finishInit env (syncRenderSize
            (env.SetupFramebuffer s.CORE.Window.screen.width s.CORE.Window.screen.height
              (initWindowState r s.CORE)))) := by
  have hfl : (initWindowState r s.CORE).Window.flags
      = s.CORE.Window.flags ||| r.FLAG_FULLSCREEN_MODE := rfl
  have hdw : (initWindowState r s.CORE).Window.display.width = s.CORE.Window.screen.width := rfl
  have hdh : (initWindowState r s.CORE).Window.display.height = s.CORE.Window.screen.height := rfl
  unfold Vita.InitPlatform
  simp only [hfl, hdw, hdh, Vita.attribs_eq]
  by_cases h1 : v.pibInit = 0
  · by_cases h2 : v.eglGetDisplay = e.EGL_NO_DISPLAY
    · simp [h1, h2]
    · by_cases h3 : v.eglInitialize = e.EGL_FALSE
      · simp [h1, h2, h3]
      · by_cases h4 : v.eglBindAPI = 0
        · simp [h1, h2, h3, h4]
        · by_cases h5 : (v.eglChooseConfig 1 (Vita.attribsFor e r s.CORE.Window.flags)).1 = 0
          · simp [h1, h2, h3, h4, h5]
          · by_cases h6 : (v.eglChooseConfig 1 (Vita.attribsFor e r s.CORE.Window.flags)).2.2 = 1
            · by_cases h7 : v.eglCreateContext
                  (v.eglChooseConfig 1 (Vita.attribsFor e r s.CORE.Window.flags)).2.1
                  (Vita.contextAttribs e) = e.EGL_NO_CONTEXT
              · simp [h1, h2, h3, h4, h5, h6, h7]
              · by_cases h8 : v.eglCreateWindowSurface
                    (v.eglChooseConfig 1 (Vita.attribsFor e r s.CORE.Window.flags)).2.1
                    = e.EGL_NO_SURFACE
                · simp [h1, h2, h3, h4, h5, h6, h7, h8]
                · by_cases h9 : v.eglMakeCurrent = e.EGL_FALSE
                  · simp [h1, h2, h3, h4, h5, h6, h7, h8, h9]
                  · simp [h1, h2, h3, h4, h5, h6, h7, h8, h9]
            · simp [h1, h2, h3, h4, h5, h6]
  · simp [h1]

/-- C7. The Vita `InitPlatform` returns 0 if and only if every bring-up step
succeeds (`pibInit` returns 0, `eglGetDisplay` is not `EGL_NO_DISPLAY`,
`eglInitialize` and `eglBindAPI` succeed, the second `eglChooseConfig`
succeeds with `numConfigs` equal to 1, `eglCreateContext` is not
`EGL_NO_CONTEXT`, `eglCreateWindowSurface` is not `EGL_NO_SURFACE`,
`eglMakeCurrent` succeeds), and returns -1 in every other case.
`CORE.Window.ready` is true when it returns 0 and false when `pibInit` fails;
on the other paths that return -1 `InitPlatform` does not write it: it has the
value it had on entry or the value `SetupFramebuffer` left, so it is the value
on entry whenever `SetupFramebuffer` does not write `ready`. -/
theorem Vita.InitPlatform_bring_up (e : Vita.EglConsts) (r : RaylibConsts) (v : Vita.Vendor)
    (env : CoreEnv) (s : Vita.State) :
    ((Vita.InitPlatform e r v env s).1 = 0 ↔
      Vita.bringUpSucceeds e r v s.CORE.Window.flags) ∧
    ((Vita.InitPlatform e r v env s).1 ≠ 0 → (Vita.InitPlatform e r v env s).1 = -1) ∧
    ((Vita.InitPlatform e r v env s).1 = 0 →
      (Vita.InitPlatform e r v env s).2.CORE.Window.ready = true) ∧
    (v.pibInit ≠ 0 → (Vita.InitPlatform e r v env s).2.CORE.Window.ready = false) ∧
    (v.pibInit = 0 → (Vita.InitPlatform e r v env s).1 ≠ 0 →
      (Vita.InitPlatform e r v env s).2.CORE.Window.ready = s.CORE.Window.ready ∨
      (Vita.InitPlatform e r v env s).2.CORE.Window.ready
        = (env.SetupFramebuffer s.CORE.Window.screen.width s.CORE.Window.screen.height
            (initWindowState r s.CORE)).Window.ready) ∧
    ((∀ w h c, (env.SetupFramebuffer w h c).Window.ready = c.Window.ready) →
      v.pibInit = 0 → (Vita.InitPlatform e r v env s).1 ≠ 0 →
      (Vita.InitPlatform e r v env s).2.CORE.Window.ready = s.CORE.Window.ready) := by
  have hfst := Vita.InitPlatform_fst e r v env s
  obtain ⟨hpib, hfail, hok⟩ := Vita.InitPlatform_core e r v env s
  have hkeep : (initWindowState r s.CORE).Window.ready = s.CORE.Window.ready := rfl
  refine ⟨?_, ?_, ?_, ?_, ?_, ?_⟩
  · rw [hfst]
    by_cases hb : Vita.bringUpSucceeds e r v s.CORE.Window.flags
    · simp [hb]
    · simp [hb]
  · rw [hfst]
    by_cases hb : Vita.bringUpSucceeds e r v s.CORE.Window.flags
    · simp [hb]
    · simp [hb]
  · intro h
    rw [hok h, finishInit_Window]
  · intro h
    rw [hpib h]
    rfl
  · intro h1 h2
    rcases hfail h1 h2 with h | h
    · exact Or.inl (by rw [h, hkeep])
    · exact Or.inr (by rw [h])
  · intro hsf h1 h2
    rcases hfail h1 h2 with h | h
    · rw [h, hkeep]
    · rw [h, hsf, hkeep]

/-- C7 at concrete inputs: with every EGL call succeeding the bring-up
succeeds, `InitPlatform` returns 0 and the window is ready; with `pibInit`
returning -1 it returns -1 and a window that was ready is not ready any more;
with `eglGetDisplay` giving `EGL_NO_DISPLAY` it returns -1 and `ready` keeps
its value. -/
theorem Vita.InitPlatform_bring_up_witness :
    Vita.bringUpSucceeds Vita.eglConsts raylibConsts Vita.vendorOk
      Vita.stateReady.CORE.Window.flags ∧
    (Vita.InitPlatform Vita.eglConsts raylibConsts Vita.vendorOk coreEnvId
      Vita.stateReady).1 = 0 ∧
    (Vita.InitPlatform Vita.eglConsts raylibConsts Vita.vendorOk coreEnvId
      Vita.stateReady).2.CORE.Window.ready = true ∧
    (Vita.InitPlatform Vita.eglConsts raylibConsts Vita.vendorNoPib coreEnvId
      Vita.stateReady).1 = -1 ∧
    (Vita.InitPlatform Vita.eglConsts raylibConsts Vita.vendorNoPib coreEnvId
      Vita.stateReady).2.CORE.Window.ready = false ∧
    (Vita.InitPlatform Vita.eglConsts raylibConsts Vita.vendorNoDisplay coreEnvId
      Vita.stateReady).2.CORE.Window.ready = Vita.stateReady.CORE.Window.ready :=
  have hok := Vita.InitPlatform_bring_up Vita.eglConsts raylibConsts Vita.vendorOk coreEnvId
    Vita.stateReady
  have hpib := Vita.InitPlatform_bring_up Vita.eglConsts raylibConsts Vita.vendorNoPib coreEnvId
    Vita.stateReady
  have hdpy := Vita.InitPlatform_bring_up Vita.eglConsts raylibConsts Vita.vendorNoDisplay
    coreEnvId Vita.stateReady
  ⟨by decide, hok.1.mpr (by decide), hok.2.2.1 (hok.1.mpr (by decide)),
    hpib.2.1 (fun h => absurd (hpib.1.mp h) (by decide)), hpib.2.2.2.1 (by decide),
    hdpy.2.2.2.2.2 (fun _ _ _ => rfl) rfl (fun h => absurd (hdpy.1.mp h) (by decide))⟩

/-! ## C8: the PlayStation 2 `InitPlatform` -/

/-- More fuel does not change the result of a waiting loop that ended. -/
theorem PlayStation2.padWait_mono (c : PlayStation2.PadConsts) (v : PlayStation2.Vendor)
    (fuel polls m : Nat) (h : PlayStation2.padWait c v fuel polls = some m) (k : Nat) :
    PlayStation2.padWait c v (fuel + k) polls = some m := by
  induction fuel generalizing polls with
  | zero => cases h
  | succ fuel ih =>
    have e : fuel + 1 + k = (fuel + k) + 1 := by omega
    rw [e]
    rw [PlayStation2.padWait] at h ⊢
    by_cases hc : v.padGetState polls ≠ c.PAD_STATE_STABLE ∧
        v.padGetState polls ≠ c.PAD_STATE_FINDCTP1
    · simp only [if_pos hc] at h ⊢
      exact ih _ h
    · simp only [if_neg hc] at h ⊢
      exact h

/-- When the pad gets ready within `fuel` reads, every waiting loop ends. -/
theorem PlayStation2.padWait_total (c : PlayStation2.PadConsts) (v : PlayStation2.Vendor)
    (fuel : Nat) (hgap : PlayStation2.PadGetsReady c v fuel) (polls : Nat) :
    ∃ m, PlayStation2.padWait c v fuel polls = some m := by
  obtain ⟨n, hn, hr⟩ := hgap polls
  obtain ⟨m, hm⟩ := PlayStation2.padWait_of_ready c v n polls hr
  refine ⟨m, ?_⟩
  have e : fuel = (n + 1) + (fuel - (n + 1)) := by omega
  rw [e]
  exact PlayStation2.padWait_mono c v (n + 1) polls m hm _

/-- When the pad gets ready within `fuel` reads, `waitPadReady` returns, and
changes only the count of reads. -/
theorem PlayStation2.waitPadReady_eq (c : PlayStation2.PadConsts) (v : PlayStation2.Vendor)
    (fuel : Nat) (hgap : PlayStation2.PadGetsReady c v fuel) (s : PlayStation2.State) :
    PlayStation2.waitPadReady c v fuel s
      = some { s with polls := (PlayStation2.padWait c v fuel s.polls).getD 0 } := by
  obtain ⟨m, hm⟩ := PlayStation2.padWait_total c v fuel hgap s.polls
  unfold PlayStation2.waitPadReady
  rw [hm]
  rfl

/-- A `waitPadReady` that returns has changed only the count of reads. -/
theorem PlayStation2.waitPadReady_some (c : PlayStation2.PadConsts) (v : PlayStation2.Vendor)
    (fuel : Nat) (s s1 : PlayStation2.State)
    (h : PlayStation2.waitPadReady c v fuel s = some s1) :
    ∃ m, s1 = { s with polls := m } := by
  unfold PlayStation2.waitPadReady at h
  split at h
  · cases h
  · next m _ => exact ⟨m, (Option.some.inj h).symm⟩

/-- `waitPadReady` never returns while the pad never gets ready. -/
theorem PlayStation2.waitPadReady_never (c : PlayStation2.PadConsts) (v : PlayStation2.Vendor)
    (h : ∀ n, v.padGetState n ≠ c.PAD_STATE_STABLE ∧ v.padGetState n ≠ c.PAD_STATE_FINDCTP1)
    (fuel : Nat) (s : PlayStation2.State) : PlayStation2.waitPadReady c v fuel s = none := by
  unfold PlayStation2.waitPadReady
  rw [PlayStation2.padWait_never c v h]

/-- Every run of `initializePad` that returns, returns 1 and leaves `CORE` as
it was. -/
theorem PlayStation2.initializePad_some (c : PlayStation2.PadConsts) (v : PlayStation2.Vendor)
    (fuel port slot : Nat) (s : PlayStation2.State) (res : Int × PlayStation2.State)
    (h : PlayStation2.initializePad c v fuel port slot s = some res) :
    res.1 = 1 ∧ res.2.CORE = s.CORE := by
  unfold PlayStation2.initializePad at h
  obtain ⟨s1, hw1, h⟩ := Option.bind_eq_some.mp h
  obtain ⟨m1, rfl⟩ := PlayStation2.waitPadReady_some c v fuel _ _ hw1
  simp only [] at h
  split_ifs at h
  · cases h; exact ⟨rfl, rfl⟩
  · cases h; exact ⟨rfl, rfl⟩
  · cases h; exact ⟨rfl, rfl⟩
  · obtain ⟨s2, hw2, h⟩ := Option.bind_eq_some.mp h
    obtain ⟨m2, rfl⟩ := PlayStation2.waitPadReady_some c v fuel _ _ hw2
    obtain ⟨s3, hw3, h⟩ := Option.bind_eq_some.mp h
    obtain ⟨m3, rfl⟩ := PlayStation2.waitPadReady_some c v fuel _ _ hw3
    obtain ⟨s4, hw4, h⟩ := Option.bind_eq_some.mp h
    obtain ⟨m4, rfl⟩ := PlayStation2.waitPadReady_some c v fuel _ _ hw4
    obtain ⟨s5, hw5, h⟩ := Option.bind_eq_some.mp h
    obtain ⟨m5, rfl⟩ := PlayStation2.waitPadReady_some c v fuel _ _ hw5
    obtain ⟨s6, hw6, h⟩ := Option.bind_eq_some.mp h
    obtain ⟨m6, rfl⟩ := PlayStation2.waitPadReady_some c v fuel _ _ hw6
    cases h; exact ⟨rfl, rfl⟩
  · obtain ⟨s2, hw2, h⟩ := Option.bind_eq_some.mp h
    obtain ⟨m2, rfl⟩ := PlayStation2.waitPadReady_some c v fuel _ _ hw2
    obtain ⟨s3, hw3, h⟩ := Option.bind_eq_some.mp h
    obtain ⟨m3, rfl⟩ := PlayStation2.waitPadReady_some c v fuel _ _ hw3
    obtain ⟨s4, hw4, h⟩ := Option.bind_eq_some.mp h
    obtain ⟨m4, rfl⟩ := PlayStation2.waitPadReady_some c v fuel _ _ hw4
    obtain ⟨s5, hw5, h⟩ := Option.bind_eq_some.mp h
    obtain ⟨m5, rfl⟩ := PlayStation2.waitPadReady_some c v fuel _ _ hw5
    cases h; exact ⟨rfl, rfl⟩

/-- When the pad gets ready within `fuel` reads, `initializePad` returns. -/
theorem PlayStation2.initializePad_total (c : PlayStation2.PadConsts)
    (v : PlayStation2.Vendor) (fuel : Nat) (hgap : PlayStation2.PadGetsReady c v fuel)
    (port slot : Nat) (s : PlayStation2.State) :
    ∃ res, PlayStation2.initializePad c v fuel port slot s = some res := by
  unfold PlayStation2.initializePad
  simp only [PlayStation2.waitPadReady_eq c v fuel hgap, Option.some_bind]
  split_ifs <;> exact ⟨_, rfl⟩

/-- `initializePad` never returns while the pad never gets ready. -/
theorem PlayStation2.initializePad_never (c : PlayStation2.PadConsts)
    (v : PlayStation2.Vendor)
    (h : ∀ n, v.padGetState n ≠ c.PAD_STATE_STABLE ∧ v.padGetState n ≠ c.PAD_STATE_FINDCTP1)
    (fuel port slot : Nat) (s : PlayStation2.State) :
    PlayStation2.initializePad c v fuel port slot s = none := by
  unfold PlayStation2.initializePad
  rw [PlayStation2.waitPadReady_never c v h]
  rfl

/-- Recording a vendor call leaves `CORE` alone. -/
theorem PlayStation2.State.call_CORE (s : PlayStation2.State) (call : PlayStation2.Call) :
    (s.call call).CORE = s.CORE := rfl

/-- The PlayStation 2 `InitPlatform` returns -1 and leaves `CORE` as it was
when a module does not load or the port does not open, whatever the fuel. -/
theorem PlayStation2.InitPlatform_fails (c : PlayStation2.PadConsts) (r : RaylibConsts)
    (v : PlayStation2.Vendor) (env : CoreEnv) (fuel : Nat) (s : PlayStation2.State)
    (hf : PlayStation2.SetupFails v) :
    ∃ s', PlayStation2.InitPlatform c r v env fuel s = some (-1, s') ∧ s'.CORE = s.CORE := by
  unfold PlayStation2.InitPlatform
  simp only []
  by_cases h1 : v.SifLoadModule "rom0:SIO2MAN" < 0
  · rw [if_pos h1]
    exact ⟨_, rfl, rfl⟩
  · rw [if_neg h1]
    by_cases h2 : v.SifLoadModule "rom0:PADMAN" < 0
    · rw [if_pos h2]
      exact ⟨_, rfl, rfl⟩
    · rw [if_neg h2]
      have h3 : v.padPortOpen = 0 := by
        rcases hf with h | h | h
        · exact absurd h h1
        · exact absurd h h2
        · exact h
      rw [if_pos h3]
      refine ⟨_, rfl, ?_⟩
      simp only [PlayStation2.State.call_CORE]

/-- The graphics part of the PlayStation 2 `InitPlatform` on `CORE`. -/
theorem PlayStation2.initGraphics_CORE (r : RaylibConsts) (v : PlayStation2.Vendor)
    (env : CoreEnv) (s : PlayStation2.State) :
    (PlayStation2.initGraphics r v env s).CORE
      = finishInit env (syncRenderSize
          (env.SetupFramebuffer 640 448 (PlayStation2.initWindowState r s.CORE))) := by
  unfold PlayStation2.initGraphics
  cases v.pglHasLibraryBeenInitted <;> cases v.pglHasGsMemBeenInitted <;> rfl

/-- When the setup does not fail, `InitPlatform` is its pad and graphics part
run on a state with the same `CORE`. -/
theorem PlayStation2.InitPlatform_past_setup (c : PlayStation2.PadConsts) (r : RaylibConsts)
    (v : PlayStation2.Vendor) (env : CoreEnv) (fuel : Nat) (s : PlayStation2.State)
    (hf : ¬ PlayStation2.SetupFails v) :
    ∃ s1, s1.CORE = s.CORE ∧
      PlayStation2.InitPlatform c r v env fuel s
        = PlayStation2.initPadAndGraphics c r v env fuel s1 := by
  have h1 : ¬ v.SifLoadModule "rom0:SIO2MAN" < 0 := fun h => hf (Or.inl h)
  have h2 : ¬ v.SifLoadModule "rom0:PADMAN" < 0 := fun h => hf (Or.inr (Or.inl h))
  have h3 : ¬ v.padPortOpen = 0 := fun h => hf (Or.inr (Or.inr h))
  unfold PlayStation2.InitPlatform
  simp only [if_neg h1, if_neg h2, if_neg h3]
  refine ⟨_, ?_, rfl⟩
  simp only [PlayStation2.State.call_CORE]

/-- Every run of the PlayStation 2 `InitPlatform` that gets past the setup
and returns, returns 0 with the window state set. -/
theorem PlayStation2.InitPlatform_some (c : PlayStation2.PadConsts) (r : RaylibConsts)
    (v : PlayStation2.Vendor) (env : CoreEnv) (fuel : Nat) (s : PlayStation2.State)
    (hf : ¬ PlayStation2.SetupFails v) (res : Int × PlayStation2.State)
    (h : PlayStation2.InitPlatform c r v env fuel s = some res) :
    res.1 = 0 ∧
    res.2.CORE = finishInit env (syncRenderSize
      (env.SetupFramebuffer 640 448 (PlayStation2.initWindowState r s.CORE))) := by
  obtain ⟨s1, hs1, heq⟩ := PlayStation2.InitPlatform_past_setup c r v env fuel s hf
  rw [heq] at h
  unfold PlayStation2.initPadAndGraphics at h
  obtain ⟨pr, hp, h⟩ := Option.bind_eq_some.mp h
  obtain ⟨hp1, hp2⟩ := PlayStation2.initializePad_some c v fuel _ _ _ pr hp
  have hne : ¬ pr.1 = 0 := by rw [hp1]; decide
  simp only [if_neg hne] at h
  have hres := (Option.some.inj h).symm
  subst hres
  refine ⟨rfl, ?_⟩
  show (PlayStation2.initGraphics r v env pr.2).CORE = _
  rw [PlayStation2.initGraphics_CORE, hp2, hs1]

/-- When the setup does not fail and the pad gets ready within `fuel` reads,
the PlayStation 2 `InitPlatform` returns. -/
theorem PlayStation2.InitPlatform_total (c : PlayStation2.PadConsts) (r : RaylibConsts)
    (v : PlayStation2.Vendor) (env : CoreEnv) (fuel : Nat) (s : PlayStation2.State)
    (hf : ¬ PlayStation2.SetupFails v) (hgap : PlayStation2.PadGetsReady c v fuel) :
    ∃ res, PlayStation2.InitPlatform c r v env fuel s = some res := by
  obtain ⟨s1, _, heq⟩ := PlayStation2.InitPlatform_past_setup c r v env fuel s hf
  rw [heq]
  unfold PlayStation2.initPadAndGraphics
  obtain ⟨pr, hp⟩ := PlayStation2.initializePad_total c v fuel hgap s1.port s1.slot s1
  rw [hp, Option.some_bind]
  simp only []
  split_ifs <;> exact ⟨_, rfl⟩

/-- When the setup does not fail and the pad never gets ready, the
PlayStation 2 `InitPlatform` does not return, whatever the fuel. -/
theorem PlayStation2.InitPlatform_never (c : PlayStation2.PadConsts) (r : RaylibConsts)
    (v : PlayStation2.Vendor) (env : CoreEnv) (fuel : Nat) (s : PlayStation2.State)
    (hf : ¬ PlayStation2.SetupFails v)
    (h : ∀ n, v.padGetState n ≠ c.PAD_STATE_STABLE ∧ v.padGetState n ≠ c.PAD_STATE_FINDCTP1) :
    PlayStation2.InitPlatform c r v env fuel s = none := by
  obtain ⟨s1, _, heq⟩ := PlayStation2.InitPlatform_past_setup c r v env fuel s hf
  rw [heq]
  unfold PlayStation2.initPadAndGraphics
  rw [PlayStation2.initializePad_never c v h]
  rfl

/-- C8 fails where it says that in every other case `InitPlatform` returns 0:
with both modules loaded and the port open but no controller plugged in
(`padGetState` gives `PAD_STATE_DISCONN` at every read), the wait in
`initializePad` never ends and `InitPlatform` returns nothing, whatever the
number of reads allowed. -/
theorem PlayStation2.InitPlatform_returns_counterexample :
    ¬ PlayStation2.SetupFails PlayStation2.vendorNoPad ∧
    ¬ ∃ fuel res, PlayStation2.InitPlatform PlayStation2.padConsts raylibConsts
        PlayStation2.vendorNoPad coreEnvId fuel PlayStation2.stateZero = some res := by
  have hf : ¬ PlayStation2.SetupFails PlayStation2.vendorNoPad := by
    unfold PlayStation2.SetupFails
    decide
  refine ⟨hf, ?_⟩
  rintro ⟨fuel, res, h⟩
  rw [PlayStation2.InitPlatform_never PlayStation2.padConsts raylibConsts
    PlayStation2.vendorNoPad coreEnvId fuel PlayStation2.stateZero hf
    (fun _ => ⟨by show (0 : Int) ≠ 6; decide, by show (0 : Int) ≠ 2; decide⟩)] at h
  cases h

/-! ## C9: the display size after `InitPlatform` -/

/-- The window assignments at the head of the PlayStation 2 `InitPlatform`,
field by field. -/
theorem PlayStation2.initWindowState_fixed_size (r : RaylibConsts) (CORE : CoreData) :
    (PlayStation2.initWindowState r CORE).Window
      = { CORE.Window with
          fullscreen := true
          flags := CORE.Window.flags ||| r.FLAG_FULLSCREEN_MODE
          display := ⟨640, 448⟩
          screen := ⟨640, 448⟩
          render := ⟨640, 448⟩
          eventWaiting := false
          screenScale := MatrixIdentity
          currentFbo := ⟨640, 448⟩ } := rfl

/-- C9, as the code has it. After a successful `InitPlatform`, when
`SetupFramebuffer` does not write the display size: on the Dreamcast and on
the Vita `CORE.Window.display` holds the width and height that
`CORE.Window.screen` had when `InitPlatform` was called; on the PlayStation 2
it holds 640 x 448, whatever the screen size was. -/
theorem InitPlatform_display (c : PlayStation2.PadConsts) (e : Vita.EglConsts)
    (r : RaylibConsts) (env : CoreEnv) (hkeep : env.KeepsDisplay) :
    (∀ CORE, (Dreamcast.InitPlatform r env CORE).1 = 0 ∧
      (Dreamcast.InitPlatform r env CORE).2.Window.display = CORE.Window.screen) ∧
    (∀ (v : Vita.Vendor) (s : Vita.State), (Vita.InitPlatform e r v env s).1 = 0 →
      (Vita.InitPlatform e r v env s).2.CORE.Window.display = s.CORE.Window.screen) ∧
    (∀ (v : PlayStation2.Vendor) (s : PlayStation2.State) (fuel : Nat)
      (res : Int × PlayStation2.State),
      PlayStation2.InitPlatform c r v env fuel s = some res → res.1 = 0 →
      res.2.CORE.Window.display = ⟨640, 448⟩) := by
  refine ⟨?_, ?_, ?_⟩
  · intro CORE
    refine ⟨rfl, ?_⟩
    unfold Dreamcast.InitPlatform
    simp only [finishInit_Window, syncRenderSize_Window]
    rw [hkeep, initWindowState_Window]
  · intro v s h0
    rw [(Vita.InitPlatform_core e r v env s).2.2 h0]
    simp only [finishInit_Window, syncRenderSize_Window]
    rw [hkeep, initWindowState_Window]
  · intro v s fuel res h h0
    by_cases hf : PlayStation2.SetupFails v
    · obtain ⟨s', hs', _⟩ := PlayStation2.InitPlatform_fails c r v env fuel s hf
      rw [hs'] at h
      have hres := (Option.some.inj h).symm
      subst hres
      exact absurd h0 (by show ¬ ((-1 : Int) = 0); decide)
    · rw [(PlayStation2.InitPlatform_some c r v env fuel s hf res h).2]
      simp only [finishInit_Window, syncRenderSize_Window]
      rw [hkeep, PlayStation2.initWindowState_fixed_size]

/-- C9 at concrete inputs: with a `SetupFramebuffer` that changes nothing and
a screen size of 800 x 450 on entry, the Dreamcast and the Vita
`InitPlatform` leave a display size of 800 x 450. -/
theorem InitPlatform_display_witness :
    coreEnvId.KeepsDisplay ∧
    (Dreamcast.InitPlatform raylibConsts coreEnvId coreReady).2.Window.display = ⟨800, 450⟩ ∧
    (Vita.InitPlatform Vita.eglConsts raylibConsts Vita.vendorOk coreEnvId
      Vita.stateReady).2.CORE.Window.display = ⟨800, 450⟩ :=
  have h := InitPlatform_display PlayStation2.padConsts Vita.eglConsts raylibConsts coreEnvId
    (fun _ _ _ => rfl)
  ⟨fun _ _ _ => rfl, (h.1 coreReady).2,
    h.2.1 Vita.vendorOk Vita.stateReady (by
      rw [Vita.InitPlatform_fst, if_pos (by decide)])⟩

/-- C9 fails for the PlayStation 2 file: with a `SetupFramebuffer` that
changes nothing and a screen size of 800 x 450 on entry, `InitPlatform`
returns 0 and the display size is 640 x 448, not the 800 x 450 asked for. -/
theorem InitPlatform_display_counterexample :
    ∃ s', PlayStation2.InitPlatform PlayStation2.padConsts raylibConsts PlayStation2.vendorA
        coreEnvId 3 { PlayStation2.stateZero with CORE := coreReady } = some (0, s') ∧
      s'.CORE.Window.display = ⟨640, 448⟩ ∧
      s'.CORE.Window.display ≠ coreReady.Window.screen := by
  have hf : ¬ PlayStation2.SetupFails PlayStation2.vendorA := by
    unfold PlayStation2.SetupFails
    decide
  have hgap : PlayStation2.PadGetsReady PlayStation2.padConsts PlayStation2.vendorA 3 :=
    fun m => ⟨2, by decide, Or.inl (by
      show (if m + 2 < 2 then (1 : Int) else 6) = 6
      rw [if_neg (by omega)])⟩
  obtain ⟨res, hres⟩ := PlayStation2.InitPlatform_total PlayStation2.padConsts raylibConsts
    PlayStation2.vendorA coreEnvId 3 { PlayStation2.stateZero with CORE := coreReady } hf hgap
  obtain ⟨h0, hcore⟩ := PlayStation2.InitPlatform_some PlayStation2.padConsts raylibConsts
    PlayStation2.vendorA coreEnvId 3 { PlayStation2.stateZero with CORE := coreReady } hf res
    hres
  have hd : res.2.CORE.Window.display = ⟨640, 448⟩ := by
    rw [hcore]
    rfl
  refine ⟨res.2, ?_, hd, ?_⟩
  · rw [hres, ← h0]
  · rw [hd]
    decide

/-! ## C10: the Dreamcast `InitPlatform` -/

/-- C10, as the code has it. The Dreamcast `InitPlatform` returns 0 for every
initial state and, whatever `SetupFramebuffer` does to `CORE`, leaves
`CORE.Window.ready = true`, the render size equal to the screen size and the
`currentFbo` size equal to the render size. `CORE.Window.fullscreen` and
`CORE.Window.flags` are written before `SetupFramebuffer` is called: when
`SetupFramebuffer` does not write `fullscreen`, it is true afterwards, and
when `SetupFramebuffer` does not write `flags`, they are the old flags OR
`FLAG_FULLSCREEN_MODE`, every other flag bit preserved. -/
theorem Dreamcast.InitPlatform_window (r : RaylibConsts) (env : CoreEnv) (CORE : CoreData) :
    (Dreamcast.InitPlatform r env CORE).1 = 0 ∧
    (Dreamcast.InitPlatform r env CORE).2.Window.ready = true ∧
    (Dreamcast.InitPlatform r env CORE).2.Window.render
      = (Dreamcast.InitPlatform r env CORE).2.Window.screen ∧
    (Dreamcast.InitPlatform r env CORE).2.Window.currentFbo
      = (Dreamcast.InitPlatform r env CORE).2.Window.render ∧
    ((∀ w h c, (env.SetupFramebuffer w h c).Window.fullscreen = c.Window.fullscreen) →
      (Dreamcast.InitPlatform r env CORE).2.Window.fullscreen = true) ∧
    ((∀ w h c, (env.SetupFramebuffer w h c).Window.flags = c.Window.flags) →
      (Dreamcast.InitPlatform r env CORE).2.Window.flags
        = CORE.Window.flags ||| r.FLAG_FULLSCREEN_MODE ∧
      ∀ i, r.FLAG_FULLSCREEN_MODE.testBit i = false →
        (Dreamcast.InitPlatform r env CORE).2.Window.flags.testBit i
          = CORE.Window.flags.testBit i) := by
  have hW : (Dreamcast.InitPlatform r env CORE).2.Window
      = { (env.SetupFramebuffer (initWindowState r CORE).Window.display.width
            (initWindowState r CORE).Window.display.height
            (initWindowState r CORE)).Window with
          render := (env.SetupFramebuffer (initWindowState r CORE).Window.display.width
            (initWindowState r CORE).Window.display.height
            (initWindowState r CORE)).Window.screen
          currentFbo := (env.SetupFramebuffer (initWindowState r CORE).Window.display.width
            (initWindowState r CORE).Window.display.height
            (initWindowState r CORE)).Window.screen
          ready := true } := by
    unfold Dreamcast.InitPlatform
    simp only [finishInit_Window, syncRenderSize_Window]
  refine ⟨rfl, ?_, ?_, ?_, ?_, ?_⟩
  · rw [hW]
  · rw [hW]
  · rw [hW]
  · intro hsf
    rw [hW]
    show (env.SetupFramebuffer _ _ _).Window.fullscreen = true
    rw [hsf, initWindowState_Window]
  · intro hsf
    have hfl : (Dreamcast.InitPlatform r env CORE).2.Window.flags
        = CORE.Window.flags ||| r.FLAG_FULLSCREEN_MODE := by
      rw [hW]
      show (env.SetupFramebuffer _ _ _).Window.flags = _
      rw [hsf, initWindowState_Window]
    refine ⟨hfl, ?_⟩
    intro i hi
    rw [hfl, Nat.testBit_or, hi, Bool.or_false]

/-- C10 at concrete inputs: with a `SetupFramebuffer` that changes nothing,
from a window with flags 32 (`FLAG_MSAA_4X_HINT`) the Dreamcast `InitPlatform`
leaves `fullscreen` true and flags 34, the old flags OR
`FLAG_FULLSCREEN_MODE`. -/
theorem Dreamcast.InitPlatform_window_witness :
    (Dreamcast.InitPlatform raylibConsts coreEnvId coreReady).2.Window.fullscreen = true ∧
    (Dreamcast.InitPlatform raylibConsts coreEnvId coreReady).2.Window.flags = 34 :=
  have h := Dreamcast.InitPlatform_window raylibConsts coreEnvId coreReady
  ⟨h.2.2.2.2.1 (fun _ _ _ => rfl), (h.2.2.2.2.2 (fun _ _ _ => rfl)).1⟩

/-- C10 fails where it says "whatever `SetupFramebuffer` does": `fullscreen`
and `flags` are written before the call, and with a `SetupFramebuffer` that
clears them the Dreamcast `InitPlatform` returns 0 with `fullscreen` false and
flags 0, not the old flags 32 OR `FLAG_FULLSCREEN_MODE`. -/
theorem Dreamcast.InitPlatform_window_counterexample :
    (Dreamcast.InitPlatform raylibConsts coreEnvClearing coreReady).1 = 0 ∧
    (Dreamcast.InitPlatform raylibConsts coreEnvClearing coreReady).2.Window.fullscreen
      = false ∧
    (Dreamcast.InitPlatform raylibConsts coreEnvClearing coreReady).2.Window.flags = 0 ∧
    coreReady.Window.flags ||| raylibConsts.FLAG_FULLSCREEN_MODE = 34 :=
  ⟨rfl, rfl, rfl, rfl⟩

/-! ## C11: the GS memory layout -/

set_option maxRecDepth 100000 in
/-- C11. PlayStation 2 GS memory layout: for `pal = false` and for
`pal = true`, the page intervals `[start, start + length)` of the 30 slots
that `initGsMemoryForRaylib` registers with `pglAddGsMemSlot` (two frame
buffers, the depth buffer and the texture slots) are pairwise disjoint, cover
every page from 0 up to the end page with no gap (the first interval starts
at page 0 and each interval starts where the one before it ended), and the
end page is 476 (NTSC) respectively 506
(PAL), within the 512 pages of GS memory. -/
theorem PlayStation2.initGsMemoryForRaylib_layout :
    ((PlayStation2.gsSlots (PlayStation2.initGsMemoryForRaylib false)).length = 30 ∧
      (PlayStation2.gsSlots (PlayStation2.initGsMemoryForRaylib false)).Pairwise
        (fun a b => a.1 + a.2 ≤ b.1 ∨ b.1 + b.2 ≤ a.1) ∧
      (PlayStation2.gsSlots (PlayStation2.initGsMemoryForRaylib false)).head? = some (0, 70) ∧
      (∀ ab ∈ (PlayStation2.gsSlots (PlayStation2.initGsMemoryForRaylib false)).zip
          (PlayStation2.gsSlots (PlayStation2.initGsMemoryForRaylib false)).tail,
        ab.1.1 + ab.1.2 = ab.2.1) ∧
      (∀ p, p < 476 → ∃ a ∈ PlayStation2.gsSlots (PlayStation2.initGsMemoryForRaylib false),
        a.1 ≤ p ∧ p < a.1 + a.2) ∧
      (∀ a ∈ PlayStation2.gsSlots (PlayStation2.initGsMemoryForRaylib false),
        0 < a.2 ∧ a.1 + a.2 ≤ 476) ∧
      (476, 0) ∈ (PlayStation2.gsSlots (PlayStation2.initGsMemoryForRaylib false)).map
        (fun a => (a.1 + a.2, 0)) ∧
      476 ≤ 512) ∧
    ((PlayStation2.gsSlots (PlayStation2.initGsMemoryForRaylib true)).length = 30 ∧
      (PlayStation2.gsSlots (PlayStation2.initGsMemoryForRaylib true)).Pairwise
        (fun a b => a.1 + a.2 ≤ b.1 ∨ b.1 + b.2 ≤ a.1) ∧
      (PlayStation2.gsSlots (PlayStation2.initGsMemoryForRaylib true)).head? = some (0, 80) ∧
      (∀ ab ∈ (PlayStation2.gsSlots (PlayStation2.initGsMemoryForRaylib true)).zip
          (PlayStation2.gsSlots (PlayStation2.initGsMemoryForRaylib true)).tail,
        ab.1.1 + ab.1.2 = ab.2.1) ∧
      (∀ p, p < 506 → ∃ a ∈ PlayStation2.gsSlots (PlayStation2.initGsMemoryForRaylib true),
        a.1 ≤ p ∧ p < a.1 + a.2) ∧
      (∀ a ∈ PlayStation2.gsSlots (PlayStation2.initGsMemoryForRaylib true),
        0 < a.2 ∧ a.1 + a.2 ≤ 506) ∧
      (506, 0) ∈ (PlayStation2.gsSlots (PlayStation2.initGsMemoryForRaylib true)).map
        (fun a => (a.1 + a.2, 0)) ∧
      506 ≤ 512) := by
  refine ⟨⟨?_, ?_, ?_, ?_, ?_, ?_, ?_, ?_⟩, ⟨?_, ?_, ?_, ?_, ?_, ?_, ?_, ?_⟩⟩ <;> decide

/-! ## C12: the page lengths of the slots -/

/-- C12. In `initGsMemoryForRaylib`, for `pal = false` and for `pal = true`:
the three frame and depth slots have the page length that a
32-bit-per-pixel buffer of the dimensions of the area bound to them needs
(`width*height*4/8192`: 70 pages for 640x224 on NTSC, 80 pages for 640x256 on
PAL); the slots after the first texture slot are the slots under the comments
"64x32", "64x64", "128x128", "256x256", "512x256", and each has the page length
its commented dimensions need, 1, 2, 8, 32 and 64 pages. -/
theorem PlayStation2.initGsMemoryForRaylib_page_lengths :
    (PlayStation2.pagesFor 640 224 = 70 ∧ PlayStation2.pagesFor 640 256 = 80 ∧
      PlayStation2.pagesFor 64 32 = 1 ∧ PlayStation2.pagesFor 64 64 = 2 ∧
      PlayStation2.pagesFor 128 128 = 8 ∧ PlayStation2.pagesFor 256 256 = 32 ∧
      PlayStation2.pagesFor 512 256 = 64) ∧
    (PlayStation2.gsAreas (PlayStation2.initGsMemoryForRaylib false)
        = [(640, 224), (640, 224), (640, 224)] ∧
      PlayStation2.gsAreas (PlayStation2.initGsMemoryForRaylib true)
        = [(640, 256), (640, 256), (640, 256)]) ∧
    (∀ pal : Bool,
      (∀ i, i < 3 →
        PlayStation2.Call.pglBindGsMemAreaToSlot i i ∈ PlayStation2.initGsMemoryForRaylib pal) ∧
      ((PlayStation2.gsSlots (PlayStation2.initGsMemoryForRaylib pal)).take 3).map Prod.snd
        = (PlayStation2.gsAreas (PlayStation2.initGsMemoryForRaylib pal)).map
            (fun d => PlayStation2.pagesFor d.1 d.2) ∧
      (PlayStation2.gsSlots (PlayStation2.initGsMemoryForRaylib pal)).drop 4
        = ((PlayStation2.commentedSlots pal).map Prod.snd).flatten ∧
      (PlayStation2.commentedSlots pal).map Prod.fst
        = [(64, 32), (64, 64), (128, 128), (256, 256), (512, 256)] ∧
      ∀ g ∈ PlayStation2.commentedSlots pal, ∀ a ∈ g.2,
        a.2 = PlayStation2.pagesFor g.1.1 g.1.2) := by
  refine ⟨by decide, by decide, ?_⟩
  intro pal
  cases pal <;> decide

/-! ## When the conversion to `float` is exact -/

/-- Below 2^24 neighbouring `float` values are 1 apart. -/
theorem floatGapAux_small (fuel n : Nat) (h : n < 16777216) : floatGapAux fuel n = 1 := by
  cases fuel with
  | zero => rfl
  | succ fuel => rw [floatGapAux, if_pos h]

/-- From 2^24 on the distance is twice the distance at half the magnitude. -/
theorem floatGapAux_step (fuel n : Nat) (h : ¬ n < 16777216) :
    floatGapAux (fuel + 1) n = 2 * floatGapAux fuel (n / 2) := by
  rw [floatGapAux, if_neg h]

/-- Every integer of at most 2^24 in absolute value is a `float`. -/
theorem floatNearest_exact (x : Int) (h : x.natAbs ≤ 16777216) : floatNearest x = x := by
  have hgap : floatGap x = 1 ∨ (floatGap x = 2 ∧ x % 2 = 0) := by
    unfold floatGap
    by_cases hlt : x.natAbs < 16777216
    · left
      rw [floatGapAux_small _ _ hlt]
      rfl
    · right
      have heq : x.natAbs = 16777216 := by omega
      rw [heq]
      have e : (16777216 : Nat) = 16777215 + 1 := rfl
      rw [e, floatGapAux_step _ _ (by omega), floatGapAux_small _ _ (by omega)]
      refine ⟨rfl, ?_⟩
      omega
  unfold floatNearest
  simp only []
  rcases hgap with h1 | ⟨h2, hev⟩
  · rw [h1]
    have e : (1 : Int) * (x / 1) = x := by omega
    rw [e, if_pos (by omega)]
  · rw [h2]
    have e : (2 : Int) * (x / 2) = x := by omega
    rw [e, if_pos (by omega)]

/-- The conversion to `float` of an `int` of at most 2^24 in absolute value is
exact. -/
theorem castFloat_exact (x : Int) (h : x.natAbs ≤ 16777216) : castFloat x = (x : ℚ) := by
  unfold castFloat
  rw [floatNearest_exact x h]

/-- The integer 2^24 + 1 is not a `float`: its conversion gives 2^24. -/
theorem castFloat_inexact : castFloat 16777217 = 16777216 := by
  have hgap : floatGap 16777217 = 2 := by
    unfold floatGap
    show ((floatGapAux (16777216 + 1) 16777217 : Nat) : Int) = 2
    rw [floatGapAux_step _ _ (by omega), floatGapAux_small _ _ (by omega)]
    rfl
  have hn : floatNearest 16777217 = 16777216 := by
    unfold floatNearest
    simp only [hgap]
    decide
  unfold castFloat
  rw [hn]
  norm_num

/-! ## The conversion to `float` of twice an integer -/

/-- The distance between neighbouring `float` values does not depend on the
bound of the recursion, once the bound is the magnitude or more. -/
theorem floatGapAux_fuel (n : Nat) : ∀ f1 f2, n ≤ f1 → n ≤ f2 →
    floatGapAux f1 n = floatGapAux f2 n := by
  induction n using Nat.strong_induction_on with
  | _ n ih =>
    intro f1 f2 h1 h2
    by_cases hn : n < 16777216
    · rw [floatGapAux_small _ _ hn, floatGapAux_small _ _ hn]
    · obtain ⟨g1, rfl⟩ : ∃ g1, f1 = g1 + 1 := ⟨f1 - 1, by omega⟩
      obtain ⟨g2, rfl⟩ : ∃ g2, f2 = g2 + 1 := ⟨f2 - 1, by omega⟩
      rw [floatGapAux_step _ _ hn, floatGapAux_step _ _ hn,
        ih (n / 2) (by omega) g1 g2 (by omega) (by omega)]

/-- From 2^23 on, the distance between neighbouring `float` values at twice a
magnitude is twice the distance at the magnitude. -/
theorem floatGap_double (k : Int) (hk : ¬ k.natAbs < 8388608) :
    floatGap (2 * k) = 2 * floatGap k := by
  unfold floatGap
  have hn : (2 * k).natAbs = (2 * k.natAbs - 1) + 1 := by omega
  rw [hn, floatGapAux_step _ _ (by omega)]
  have hhalf : (2 * k.natAbs - 1 + 1) / 2 = k.natAbs := by omega
  rw [hhalf, floatGapAux_fuel k.natAbs (2 * k.natAbs - 1) k.natAbs (by omega) (le_refl _)]
  push_cast
  rfl

/-- The `float` nearest to twice an integer is twice the `float` nearest to
the integer. -/
theorem floatNearest_double (k : Int) : floatNearest (2 * k) = 2 * floatNearest k := by
  by_cases hk : k.natAbs < 8388608
  · rw [floatNearest_exact _ (by omega), floatNearest_exact _ (by omega)]
  · have hG := floatGap_double k hk
    have hpos : 0 < floatGap k := by
      unfold floatGap
      have h1 : 0 < floatGapAux k.natAbs k.natAbs := by
        have hgen : ∀ f n, 0 < floatGapAux f n := by
          intro f
          induction f with
          | zero => intro n; exact Nat.one_pos
          | succ f ih =>
            intro n
            rw [floatGapAux]
            split
            · exact Nat.one_pos
            · have := ih (n / 2)
              omega
        exact hgen _ _
      exact_mod_cast h1
    have hq : (2 * k) / (2 * floatGap k) = k / floatGap k :=
      Int.mul_ediv_mul_of_pos _ _ (by decide)
    have hb : 2 * floatGap k * (k / floatGap k) = 2 * (floatGap k * (k / floatGap k)) := by
      ring
    unfold floatNearest
    simp only [hG, hq, hb]
    generalize hqd : k / floatGap k = q
    generalize floatGap k * q = b
    generalize floatGap k = g at hpos
    split_ifs <;> omega

/-- Converting twice an `int` to `float` and halving gives the conversion of
the `int`. -/
theorem castFloat_double (k : Int) : castFloat (2 * k) / 2 = castFloat k := by
  unfold castFloat
  rw [floatNearest_double]
  push_cast
  ring

/-! ## C13: `EnableCursor` and `DisableCursor` -/

/-- The integer half of an even number, converted to `float`, is half the
conversion of the number. -/
theorem castFloat_tdiv_two (w : Int) (hw : 2 ∣ w) : castFloat (w.tdiv 2) = castFloat w / 2 := by
  obtain ⟨k, rfl⟩ := hw
  rw [Int.mul_tdiv_cancel_left _ (by decide), castFloat_double]

/-- The mouse position that the window assignments of `InitPlatform` give:
half the screen width and half the screen height, each converted to `float`
before the halving. -/
theorem initWindowState_mouse (r : RaylibConsts) (CORE : CoreData) :
    (initWindowState r CORE).Input.Mouse.currentPosition
      = ⟨castFloat CORE.Window.screen.width / 2, castFloat CORE.Window.screen.height / 2⟩ :=
  rfl

/-- C13, as the code has it. `EnableCursor` and `DisableCursor` set the cursor
position in the middle of the screen, in each of the three files: after
either call `currentPosition` and `previousPosition` both equal
`((float)(screen.width/2), (float)(screen.height/2))`, the quotients of C
integer division converted to `float`, and `cursorHidden` is false after
`EnableCursor` and true after `DisableCursor`. When both quotients are at
most 2^24 in absolute value the conversion is exact and the position is
`(screen.width/2, screen.height/2)`. For even screen width and height this is
the position that the assignments of the Dreamcast and Vita `InitPlatform`
give the mouse, `((float)width/2.0f, (float)height/2.0f)`, which is
`(width/2.0, height/2.0)` when width and height are at most 2^24 in absolute
value; the PlayStation 2 `InitPlatform` fixes the screen at 640 x 448 and the
mouse at (320, 224), where `EnableCursor` then puts it again. -/
theorem EnableCursor_DisableCursor_middle (r : RaylibConsts) (CORE : CoreData) :

    (((Dreamcast.EnableCursor CORE).Input.Mouse.currentPosition
          = ⟨castFloat (CORE.Window.screen.width.tdiv 2), castFloat (CORE.Window.screen.height.tdiv 2)⟩ ∧
        (Dreamcast.EnableCursor CORE).Input.Mouse.previousPosition
          = ⟨castFloat (CORE.Window.screen.width.tdiv 2), castFloat (CORE.Window.screen.height.tdiv 2)⟩ ∧
        (Dreamcast.EnableCursor CORE).Input.Mouse.cursorHidden = false) ∧
      ((Dreamcast.DisableCursor CORE).Input.Mouse.currentPosition
          = ⟨castFloat (CORE.Window.screen.width.tdiv 2), castFloat (CORE.Window.screen.height.tdiv 2)⟩ ∧
        (Dreamcast.DisableCursor CORE).Input.Mouse.previousPosition
          = ⟨castFloat (CORE.Window.screen.width.tdiv 2), castFloat (CORE.Window.screen.height.tdiv 2)⟩ ∧
        (Dreamcast.DisableCursor CORE).Input.Mouse.cursorHidden = true)) ∧
    (((PlayStation2.EnableCursor CORE).Input.Mouse.currentPosition
          = ⟨castFloat (CORE.Window.screen.width.tdiv 2), castFloat (CORE.Window.screen.height.tdiv 2)⟩ ∧
        (PlayStation2.EnableCursor CORE).Input.Mouse.previousPosition
          = ⟨castFloat (CORE.Window.screen.width.tdiv 2), castFloat (CORE.Window.screen.height.tdiv 2)⟩ ∧
        (PlayStation2.EnableCursor CORE).Input.Mouse.cursorHidden = false) ∧
      ((PlayStation2.DisableCursor CORE).Input.Mouse.currentPosition
          = ⟨castFloat (CORE.Window.screen.width.tdiv 2), castFloat (CORE.Window.screen.height.tdiv 2)⟩ ∧
        (PlayStation2.DisableCursor CORE).Input.Mouse.previousPosition
          = ⟨castFloat (CORE.Window.screen.width.tdiv 2), castFloat (CORE.Window.screen.height.tdiv 2)⟩ ∧
        (PlayStation2.DisableCursor CORE).Input.Mouse.cursorHidden = true)) ∧
    (((Vita.EnableCursor CORE).Input.Mouse.currentPosition
          = ⟨castFloat (CORE.Window.screen.width.tdiv 2), castFloat (CORE.Window.screen.height.tdiv 2)⟩ ∧
        (Vita.EnableCursor CORE).Input.Mouse.previousPosition
          = ⟨castFloat (CORE.Window.screen.width.tdiv 2), castFloat (CORE.Window.screen.height.tdiv 2)⟩ ∧
        (Vita.EnableCursor CORE).Input.Mouse.cursorHidden = false) ∧
      ((Vita.DisableCursor CORE).Input.Mouse.currentPosition
          = ⟨castFloat (CORE.Window.screen.width.tdiv 2), castFloat (CORE.Window.screen.height.tdiv 2)⟩ ∧
        (Vita.DisableCursor CORE).Input.Mouse.previousPosition
          = ⟨castFloat (CORE.Window.screen.width.tdiv 2), castFloat (CORE.Window.screen.height.tdiv 2)⟩ ∧
        (Vita.DisableCursor CORE).Input.Mouse.cursorHidden = true)) ∧
    ((CORE.Window.screen.width.tdiv 2).natAbs ≤ 16777216 → (CORE.Window.screen.height.tdiv 2).natAbs ≤ 16777216 →
      (Dreamcast.EnableCursor CORE).Input.Mouse.currentPosition
        = ⟨((CORE.Window.screen.width.tdiv 2 : Int) : ℚ), ((CORE.Window.screen.height.tdiv 2 : Int) : ℚ)⟩ ∧
      (Dreamcast.EnableCursor CORE).Input.Mouse.previousPosition
        = ⟨((CORE.Window.screen.width.tdiv 2 : Int) : ℚ), ((CORE.Window.screen.height.tdiv 2 : Int) : ℚ)⟩ ∧
      (Dreamcast.DisableCursor CORE).Input.Mouse.currentPosition
        = ⟨((CORE.Window.screen.width.tdiv 2 : Int) : ℚ), ((CORE.Window.screen.height.tdiv 2 : Int) : ℚ)⟩ ∧
      (Dreamcast.DisableCursor CORE).Input.Mouse.previousPosition
        = ⟨((CORE.Window.screen.width.tdiv 2 : Int) : ℚ), ((CORE.Window.screen.height.tdiv 2 : Int) : ℚ)⟩ ∧
      (PlayStation2.EnableCursor CORE).Input.Mouse.currentPosition
        = ⟨((CORE.Window.screen.width.tdiv 2 : Int) : ℚ), ((CORE.Window.screen.height.tdiv 2 : Int) : ℚ)⟩ ∧
      (PlayStation2.EnableCursor CORE).Input.Mouse.previousPosition
        = ⟨((CORE.Window.screen.width.tdiv 2 : Int) : ℚ), ((CORE.Window.screen.height.tdiv 2 : Int) : ℚ)⟩ ∧
      (PlayStation2.DisableCursor CORE).Input.Mouse.currentPosition
        = ⟨((CORE.Window.screen.width.tdiv 2 : Int) : ℚ), ((CORE.Window.screen.height.tdiv 2 : Int) : ℚ)⟩ ∧
      (PlayStation2.DisableCursor CORE).Input.Mouse.previousPosition
        = ⟨((CORE.Window.screen.width.tdiv 2 : Int) : ℚ), ((CORE.Window.screen.height.tdiv 2 : Int) : ℚ)⟩ ∧
      (Vita.EnableCursor CORE).Input.Mouse.currentPosition
        = ⟨((CORE.Window.screen.width.tdiv 2 : Int) : ℚ), ((CORE.Window.screen.height.tdiv 2 : Int) : ℚ)⟩ ∧
      (Vita.EnableCursor CORE).Input.Mouse.previousPosition
        = ⟨((CORE.Window.screen.width.tdiv 2 : Int) : ℚ), ((CORE.Window.screen.height.tdiv 2 : Int) : ℚ)⟩ ∧
      (Vita.DisableCursor CORE).Input.Mouse.currentPosition
        = ⟨((CORE.Window.screen.width.tdiv 2 : Int) : ℚ), ((CORE.Window.screen.height.tdiv 2 : Int) : ℚ)⟩ ∧
      (Vita.DisableCursor CORE).Input.Mouse.previousPosition
        = ⟨((CORE.Window.screen.width.tdiv 2 : Int) : ℚ), ((CORE.Window.screen.height.tdiv 2 : Int) : ℚ)⟩) ∧
    ((initWindowState r CORE).Input.Mouse.currentPosition
        = ⟨castFloat CORE.Window.screen.width / 2, castFloat CORE.Window.screen.height / 2⟩ ∧
      (CORE.Window.screen.width.natAbs ≤ 16777216 → CORE.Window.screen.height.natAbs ≤ 16777216 →
        (initWindowState r CORE).Input.Mouse.currentPosition
          = ⟨(CORE.Window.screen.width : ℚ) / 2, (CORE.Window.screen.height : ℚ) / 2⟩)) ∧
    ((PlayStation2.initWindowState r CORE).Input.Mouse.currentPosition = ⟨320, 224⟩ ∧
      (PlayStation2.EnableCursor (PlayStation2.initWindowState r CORE)).Input.Mouse.currentPosition
        = ⟨320, 224⟩) ∧
    (2 ∣ CORE.Window.screen.width → 2 ∣ CORE.Window.screen.height →
      (Dreamcast.EnableCursor CORE).Input.Mouse.currentPosition
        = (initWindowState r CORE).Input.Mouse.currentPosition ∧
      (Dreamcast.EnableCursor CORE).Input.Mouse.previousPosition
        = (initWindowState r CORE).Input.Mouse.currentPosition ∧
      (Dreamcast.DisableCursor CORE).Input.Mouse.currentPosition
        = (initWindowState r CORE).Input.Mouse.currentPosition ∧
      (Dreamcast.DisableCursor CORE).Input.Mouse.previousPosition
        = (initWindowState r CORE).Input.Mouse.currentPosition ∧
      (PlayStation2.EnableCursor CORE).Input.Mouse.currentPosition
        = (initWindowState r CORE).Input.Mouse.currentPosition ∧
      (PlayStation2.EnableCursor CORE).Input.Mouse.previousPosition
        = (initWindowState r CORE).Input.Mouse.currentPosition ∧
      (PlayStation2.DisableCursor CORE).Input.Mouse.currentPosition
        = (initWindowState r CORE).Input.Mouse.currentPosition ∧
      (PlayStation2.DisableCursor CORE).Input.Mouse.previousPosition
        = (initWindowState r CORE).Input.Mouse.currentPosition ∧
      (Vita.EnableCursor CORE).Input.Mouse.currentPosition
        = (initWindowState r CORE).Input.Mouse.currentPosition ∧
      (Vita.EnableCursor CORE).Input.Mouse.previousPosition
        = (initWindowState r CORE).Input.Mouse.currentPosition ∧
      (Vita.DisableCursor CORE).Input.Mouse.currentPosition
        = (initWindowState r CORE).Input.Mouse.currentPosition ∧
      (Vita.DisableCursor CORE).Input.Mouse.previousPosition
        = (initWindowState r CORE).Input.Mouse.currentPosition) := by
  refine ⟨⟨⟨rfl, rfl, rfl⟩, rfl, rfl, rfl⟩, ⟨⟨rfl, rfl, rfl⟩, rfl, rfl, rfl⟩,
    ⟨⟨rfl, rfl, rfl⟩, rfl, rfl, rfl⟩, ?_, ⟨rfl, ?_⟩, ⟨?_, ?_⟩, ?_⟩
  · intro hw hh
    have h : (⟨castFloat (CORE.Window.screen.width.tdiv 2),
          castFloat (CORE.Window.screen.height.tdiv 2)⟩ : Vector2)
        = ⟨((CORE.Window.screen.width.tdiv 2 : Int) : ℚ),
            ((CORE.Window.screen.height.tdiv 2 : Int) : ℚ)⟩ := by
      rw [castFloat_exact _ hw, castFloat_exact _ hh]
    exact ⟨h, h, h, h, h, h, h, h, h, h, h, h⟩
  · intro hw hh
    rw [initWindowState_mouse, castFloat_exact _ hw, castFloat_exact _ hh]
  · show (⟨castFloat 640 / 2, castFloat 448 / 2⟩ : Vector2) = ⟨320, 224⟩
    rw [castFloat_exact _ (by decide), castFloat_exact _ (by decide)]
    norm_num
  · show (⟨castFloat ((640 : Int).tdiv 2), castFloat ((448 : Int).tdiv 2)⟩ : Vector2)
      = ⟨320, 224⟩
    rw [castFloat_exact _ (by decide), castFloat_exact _ (by decide)]
    decide
  · intro hw hh
    have h : (⟨castFloat (CORE.Window.screen.width.tdiv 2),
          castFloat (CORE.Window.screen.height.tdiv 2)⟩ : Vector2)
        = (initWindowState r CORE).Input.Mouse.currentPosition := by
      rw [initWindowState_mouse, castFloat_tdiv_two _ hw, castFloat_tdiv_two _ hh]
    exact ⟨h, h, h, h, h, h, h, h, h, h, h, h⟩

/-- C13 at a concrete input: with a screen of 800 x 450, both even,
`EnableCursor` puts the cursor at (400, 225), the position the assignments of
`InitPlatform` give, and shows it; `DisableCursor` hides it. -/
theorem EnableCursor_DisableCursor_middle_witness :
    (2 : Int) ∣ coreReady.Window.screen.width ∧ (2 : Int) ∣ coreReady.Window.screen.height ∧
    (Dreamcast.EnableCursor coreReady).Input.Mouse.currentPosition = ⟨400, 225⟩ ∧
    (initWindowState raylibConsts coreReady).Input.Mouse.currentPosition = ⟨400, 225⟩ ∧
    (Dreamcast.EnableCursor coreReady).Input.Mouse.cursorHidden = false ∧
    (Dreamcast.DisableCursor coreReady).Input.Mouse.cursorHidden = true :=
  have h := EnableCursor_DisableCursor_middle raylibConsts coreReady
  have hinit : (initWindowState raylibConsts coreReady).Input.Mouse.currentPosition
      = ⟨400, 225⟩ :=
    (h.2.2.2.2.1.2 (by decide) (by decide)).trans (by
      show (⟨((800 : Int) : ℚ) / 2, ((450 : Int) : ℚ) / 2⟩ : Vector2) = ⟨400, 225⟩
      norm_num)
  ⟨by decide, by decide, (h.2.2.2.2.2.2 (by decide) (by decide)).1.trans hinit,
    hinit, h.1.1.2.2, h.1.2.2.2⟩

/-- C13 fails for a screen so wide that half its width is not a `float`: with
a width of 33554434, half of it is 16777217 and `EnableCursor` and
`DisableCursor` leave the cursor at x = 16777216, in each of the three
files. -/
theorem EnableCursor_DisableCursor_middle_counterexample :
    coreWide.Window.screen.width.tdiv 2 = 16777217 ∧
    ((Dreamcast.EnableCursor coreWide).Input.Mouse.currentPosition.x = 16777216 ∧
      (Dreamcast.DisableCursor coreWide).Input.Mouse.currentPosition.x = 16777216 ∧
      (PlayStation2.EnableCursor coreWide).Input.Mouse.currentPosition.x = 16777216 ∧
      (PlayStation2.DisableCursor coreWide).Input.Mouse.currentPosition.x = 16777216 ∧
      (Vita.EnableCursor coreWide).Input.Mouse.currentPosition.x = 16777216 ∧
      (Vita.DisableCursor coreWide).Input.Mouse.currentPosition.x = 16777216) ∧
    (Dreamcast.EnableCursor coreWide).Input.Mouse.currentPosition.x
      ≠ ((coreWide.Window.screen.width.tdiv 2 : Int) : ℚ) := by
  have hx : (Dreamcast.EnableCursor coreWide).Input.Mouse.currentPosition.x = 16777216 :=
    castFloat_inexact
  refine ⟨by decide, ⟨hx, castFloat_inexact, castFloat_inexact, castFloat_inexact,
    castFloat_inexact, castFloat_inexact⟩, ?_⟩
  rw [hx]
  show (16777216 : ℚ) ≠ ((16777217 : Int) : ℚ)
  norm_num

/-! ## C14: `SetMousePosition` -/

/-- C14, as the code has it. `SetMousePosition(x, y)`, in each of the three
files, sets `CORE.Input.Mouse.currentPosition` and
`CORE.Input.Mouse.previousPosition` both to `((float)x, (float)y)`, which is
`(x, y)` when `x` and `y` are at most 2^24 in absolute value, so the mouse
delta (current minus previous) is zero immediately afterwards; it changes no
other field of `CORE` (the new `CORE` is the old one with these two fields
replaced); and calling it twice with the same arguments gives the same state
as calling it once. -/
theorem SetMousePosition_effect (x y : Int) (CORE : CoreData) :
    ((Dreamcast.SetMousePosition x y CORE).Input.Mouse.currentPosition
        = ⟨castFloat x, castFloat y⟩ ∧
      (Dreamcast.SetMousePosition x y CORE).Input.Mouse.previousPosition
        = ⟨castFloat x, castFloat y⟩ ∧
      (x.natAbs ≤ 16777216 → y.natAbs ≤ 16777216 →
        (Dreamcast.SetMousePosition x y CORE).Input.Mouse.currentPosition = ⟨(x : ℚ), (y : ℚ)⟩ ∧
        (Dreamcast.SetMousePosition x y CORE).Input.Mouse.previousPosition = ⟨(x : ℚ), (y : ℚ)⟩) ∧
      (Dreamcast.SetMousePosition x y CORE).Input.Mouse.currentPosition.x
        - (Dreamcast.SetMousePosition x y CORE).Input.Mouse.previousPosition.x = 0 ∧
      (Dreamcast.SetMousePosition x y CORE).Input.Mouse.currentPosition.y
        - (Dreamcast.SetMousePosition x y CORE).Input.Mouse.previousPosition.y = 0 ∧
      Dreamcast.SetMousePosition x y CORE
        = { CORE with Input := { CORE.Input with Mouse := { CORE.Input.Mouse with
            currentPosition := ⟨castFloat x, castFloat y⟩
            previousPosition := ⟨castFloat x, castFloat y⟩ } } } ∧
      Dreamcast.SetMousePosition x y (Dreamcast.SetMousePosition x y CORE)
        = Dreamcast.SetMousePosition x y CORE) ∧
    ((PlayStation2.SetMousePosition x y CORE).Input.Mouse.currentPosition
        = ⟨castFloat x, castFloat y⟩ ∧
      (PlayStation2.SetMousePosition x y CORE).Input.Mouse.previousPosition
        = ⟨castFloat x, castFloat y⟩ ∧
      (x.natAbs ≤ 16777216 → y.natAbs ≤ 16777216 →
        (PlayStation2.SetMousePosition x y CORE).Input.Mouse.currentPosition = ⟨(x : ℚ), (y : ℚ)⟩ ∧
        (PlayStation2.SetMousePosition x y CORE).Input.Mouse.previousPosition = ⟨(x : ℚ), (y : ℚ)⟩) ∧
      (PlayStation2.SetMousePosition x y CORE).Input.Mouse.currentPosition.x
        - (PlayStation2.SetMousePosition x y CORE).Input.Mouse.previousPosition.x = 0 ∧
      (PlayStation2.SetMousePosition x y CORE).Input.Mouse.currentPosition.y
        - (PlayStation2.SetMousePosition x y CORE).Input.Mouse.previousPosition.y = 0 ∧
      PlayStation2.SetMousePosition x y CORE
        = { CORE with Input := { CORE.Input with Mouse := { CORE.Input.Mouse with
            currentPosition := ⟨castFloat x, castFloat y⟩
            previousPosition := ⟨castFloat x, castFloat y⟩ } } } ∧
      PlayStation2.SetMousePosition x y (PlayStation2.SetMousePosition x y CORE)
        = PlayStation2.SetMousePosition x y CORE) ∧
    ((Vita.SetMousePosition x y CORE).Input.Mouse.currentPosition
        = ⟨castFloat x, castFloat y⟩ ∧
      (Vita.SetMousePosition x y CORE).Input.Mouse.previousPosition
        = ⟨castFloat x, castFloat y⟩ ∧
      (x.natAbs ≤ 16777216 → y.natAbs ≤ 16777216 →
        (Vita.SetMousePosition x y CORE).Input.Mouse.currentPosition = ⟨(x : ℚ), (y : ℚ)⟩ ∧
        (Vita.SetMousePosition x y CORE).Input.Mouse.previousPosition = ⟨(x : ℚ), (y : ℚ)⟩) ∧
      (Vita.SetMousePosition x y CORE).Input.Mouse.currentPosition.x
        - (Vita.SetMousePosition x y CORE).Input.Mouse.previousPosition.x = 0 ∧
      (Vita.SetMousePosition x y CORE).Input.Mouse.currentPosition.y
        - (Vita.SetMousePosition x y CORE).Input.Mouse.previousPosition.y = 0 ∧
      Vita.SetMousePosition x y CORE
        = { CORE with Input := { CORE.Input with Mouse := { CORE.Input.Mouse with
            currentPosition := ⟨castFloat x, castFloat y⟩
            previousPosition := ⟨castFloat x, castFloat y⟩ } } } ∧
      Vita.SetMousePosition x y (Vita.SetMousePosition x y CORE)
        = Vita.SetMousePosition x y CORE) := by
  have hexact : x.natAbs ≤ 16777216 → y.natAbs ≤ 16777216 →
      (⟨castFloat x, castFloat y⟩ : Vector2) = ⟨(x : ℚ), (y : ℚ)⟩ := by
    intro hx hy
    rw [castFloat_exact _ hx, castFloat_exact _ hy]
  refine ⟨⟨rfl, rfl, fun hx hy => ⟨hexact hx hy, hexact hx hy⟩, ?_, ?_, rfl, rfl⟩,
    ⟨rfl, rfl, fun hx hy => ⟨hexact hx hy, hexact hx hy⟩, ?_, ?_, rfl, rfl⟩,
    ⟨rfl, rfl, fun hx hy => ⟨hexact hx hy, hexact hx hy⟩, ?_, ?_, rfl, rfl⟩⟩ <;>
    exact sub_self _

/-- C14 at a concrete input: `SetMousePosition(400, -225)` leaves both
positions at (400, -225). -/
theorem SetMousePosition_effect_witness :
    (Dreamcast.SetMousePosition 400 (-225) coreReady).Input.Mouse.currentPosition
      = ⟨400, -225⟩ ∧
    (Dreamcast.SetMousePosition 400 (-225) coreReady).Input.Mouse.previousPosition
      = ⟨400, -225⟩ :=
  have h := (SetMousePosition_effect 400 (-225) coreReady).1.2.2.1 (by decide) (by decide)
  ⟨h.1.trans (by norm_num), h.2.trans (by norm_num)⟩

/-- C14 fails for an argument that is not a `float`: `SetMousePosition(16777217,
0)` leaves both positions at (16777216, 0), not at (16777217, 0), in each of
the three files. -/
theorem SetMousePosition_effect_counterexample :
    ((Dreamcast.SetMousePosition 16777217 0 coreZero).Input.Mouse.currentPosition
        = ⟨16777216, 0⟩ ∧
      (Dreamcast.SetMousePosition 16777217 0 coreZero).Input.Mouse.previousPosition
        = ⟨16777216, 0⟩ ∧
      (PlayStation2.SetMousePosition 16777217 0 coreZero).Input.Mouse.currentPosition
        = ⟨16777216, 0⟩ ∧
      (Vita.SetMousePosition 16777217 0 coreZero).Input.Mouse.currentPosition
        = ⟨16777216, 0⟩) ∧
    (Dreamcast.SetMousePosition 16777217 0 coreZero).Input.Mouse.currentPosition
      ≠ ⟨((16777217 : Int) : ℚ), ((0 : Int) : ℚ)⟩ := by
  have hpos : (⟨castFloat 16777217, castFloat 0⟩ : Vector2) = ⟨16777216, 0⟩ := by
    rw [castFloat_inexact, castFloat_exact 0 (by decide)]
    norm_num
  have hd : (Dreamcast.SetMousePosition 16777217 0 coreZero).Input.Mouse.currentPosition
      = ⟨16777216, 0⟩ := hpos
  refine ⟨⟨hd, hpos, hpos, hpos⟩, ?_⟩
  rw [hd]
  intro h
  have hx := congrArg Vector2.x h
  norm_num at hx

/-! ## C15: the monitor and clipboard stubs -/

/-- C15. The monitor and clipboard operations, in each of the three files,
return fixed values for every argument and every state and leave `CORE` as it
was: `GetMonitorCount` = 1, `GetCurrentMonitor` = 0 (an index from 0 and below
the monitor count), `GetMonitorWidth`, `Height`, `PhysicalWidth`,
`PhysicalHeight`, `RefreshRate` = 0, `GetMonitorPosition` =
`GetWindowPosition` = (0, 0), `GetWindowScaleDPI` = (1, 1), `GetMonitorName` =
the empty string, and `GetClipboardText` = `NULL`, also directly after
`SetClipboardText(text)`, which changes nothing. -/
theorem monitor_clipboard_stubs (monitor : Int) (text : String) (CORE : CoreData) :
    (Dreamcast.GetMonitorCount CORE = (1, CORE) ∧
      Dreamcast.GetCurrentMonitor CORE = (0, CORE) ∧
      0 ≤ (Dreamcast.GetCurrentMonitor CORE).1 ∧
      (Dreamcast.GetCurrentMonitor CORE).1 < (Dreamcast.GetMonitorCount CORE).1 ∧
      Dreamcast.GetMonitorWidth monitor CORE = (0, CORE) ∧
      Dreamcast.GetMonitorHeight monitor CORE = (0, CORE) ∧
      Dreamcast.GetMonitorPhysicalWidth monitor CORE = (0, CORE) ∧
      Dreamcast.GetMonitorPhysicalHeight monitor CORE = (0, CORE) ∧
      Dreamcast.GetMonitorRefreshRate monitor CORE = (0, CORE) ∧
      Dreamcast.GetMonitorPosition monitor CORE = (⟨0, 0⟩, CORE) ∧
      Dreamcast.GetWindowPosition CORE = (⟨0, 0⟩, CORE) ∧
      Dreamcast.GetWindowScaleDPI CORE = (⟨1, 1⟩, CORE) ∧
      Dreamcast.GetMonitorName monitor CORE = ("", CORE) ∧
      Dreamcast.GetClipboardText CORE = (none, CORE) ∧
      Dreamcast.SetClipboardText text CORE = CORE ∧
      Dreamcast.GetClipboardText (Dreamcast.SetClipboardText text CORE) = (none, CORE)) ∧
    (PlayStation2.GetMonitorCount CORE = (1, CORE) ∧
      PlayStation2.GetCurrentMonitor CORE = (0, CORE) ∧
      0 ≤ (PlayStation2.GetCurrentMonitor CORE).1 ∧
      (PlayStation2.GetCurrentMonitor CORE).1 < (PlayStation2.GetMonitorCount CORE).1 ∧
      PlayStation2.GetMonitorWidth monitor CORE = (0, CORE) ∧
      PlayStation2.GetMonitorHeight monitor CORE = (0, CORE) ∧
      PlayStation2.GetMonitorPhysicalWidth monitor CORE = (0, CORE) ∧
      PlayStation2.GetMonitorPhysicalHeight monitor CORE = (0, CORE) ∧
      PlayStation2.GetMonitorRefreshRate monitor CORE = (0, CORE) ∧
      PlayStation2.GetMonitorPosition monitor CORE = (⟨0, 0⟩, CORE) ∧
      PlayStation2.GetWindowPosition CORE = (⟨0, 0⟩, CORE) ∧
      PlayStation2.GetWindowScaleDPI CORE = (⟨1, 1⟩, CORE) ∧
      PlayStation2.GetMonitorName monitor CORE = ("", CORE) ∧
      PlayStation2.GetClipboardText CORE = (none, CORE) ∧
      PlayStation2.SetClipboardText text CORE = CORE ∧
      PlayStation2.GetClipboardText (PlayStation2.SetClipboardText text CORE) = (none, CORE)) ∧
    (Vita.GetMonitorCount CORE = (1, CORE) ∧
      Vita.GetCurrentMonitor CORE = (0, CORE) ∧
      0 ≤ (Vita.GetCurrentMonitor CORE).1 ∧
      (Vita.GetCurrentMonitor CORE).1 < (Vita.GetMonitorCount CORE).1 ∧
      Vita.GetMonitorWidth monitor CORE = (0, CORE) ∧
      Vita.GetMonitorHeight monitor CORE = (0, CORE) ∧
      Vita.GetMonitorPhysicalWidth monitor CORE = (0, CORE) ∧
      Vita.GetMonitorPhysicalHeight monitor CORE = (0, CORE) ∧
      Vita.GetMonitorRefreshRate monitor CORE = (0, CORE) ∧
      Vita.GetMonitorPosition monitor CORE = (⟨0, 0⟩, CORE) ∧
      Vita.GetWindowPosition CORE = (⟨0, 0⟩, CORE) ∧
      Vita.GetWindowScaleDPI CORE = (⟨1, 1⟩, CORE) ∧
      Vita.GetMonitorName monitor CORE = ("", CORE) ∧
      Vita.GetClipboardText CORE = (none, CORE) ∧
      Vita.SetClipboardText text CORE = CORE ∧
      Vita.GetClipboardText (Vita.SetClipboardText text CORE) = (none, CORE)) := by
  refine ⟨⟨rfl, rfl, ?_, ?_, rfl, rfl, rfl, rfl, rfl, rfl, rfl, rfl, rfl, rfl, rfl, rfl⟩,
    ⟨rfl, rfl, ?_, ?_, rfl, rfl, rfl, rfl, rfl, rfl, rfl, rfl, rfl, rfl, rfl, rfl⟩,
    ⟨rfl, rfl, ?_, ?_, rfl, rfl, rfl, rfl, rfl, rfl, rfl, rfl, rfl, rfl, rfl, rfl⟩⟩ <;>
    exact (show (0 : Int) ≤ 0 by decide)

/-! ## C16: the same contract in the three files -/

/-- C16. The three platform files implement the same contract for the
platform-independent operations: `WindowShouldClose`, `SetWindowTitle`,
`SetWindowMinSize`, `SetWindowMaxSize`, `ShowCursor`, `HideCursor`,
`EnableCursor`, `DisableCursor`, `SetMousePosition`, `SetGamepadMappings` and
every monitor and clipboard operation are, as functions of their arguments
and of `CORE` to their result and the new `CORE`, the same function on the
Dreamcast, the PlayStation 2 and the Vita. -/
theorem platform_independent_operations_agree :
    (Dreamcast.WindowShouldClose = PlayStation2.WindowShouldClose ∧ Dreamcast.WindowShouldClose = Vita.WindowShouldClose) ∧
    (Dreamcast.SetWindowTitle = PlayStation2.SetWindowTitle ∧ Dreamcast.SetWindowTitle = Vita.SetWindowTitle) ∧
    (Dreamcast.SetWindowMinSize = PlayStation2.SetWindowMinSize ∧ Dreamcast.SetWindowMinSize = Vita.SetWindowMinSize) ∧
    (Dreamcast.SetWindowMaxSize = PlayStation2.SetWindowMaxSize ∧ Dreamcast.SetWindowMaxSize = Vita.SetWindowMaxSize) ∧
    (Dreamcast.ShowCursor = PlayStation2.ShowCursor ∧ Dreamcast.ShowCursor = Vita.ShowCursor) ∧
    (Dreamcast.HideCursor = PlayStation2.HideCursor ∧ Dreamcast.HideCursor = Vita.HideCursor) ∧
    (Dreamcast.EnableCursor = PlayStation2.EnableCursor ∧ Dreamcast.EnableCursor = Vita.EnableCursor) ∧
    (Dreamcast.DisableCursor = PlayStation2.DisableCursor ∧ Dreamcast.DisableCursor = Vita.DisableCursor) ∧
    (Dreamcast.SetMousePosition = PlayStation2.SetMousePosition ∧ Dreamcast.SetMousePosition = Vita.SetMousePosition) ∧
    (Dreamcast.SetGamepadMappings = PlayStation2.SetGamepadMappings ∧ Dreamcast.SetGamepadMappings = Vita.SetGamepadMappings) ∧
    (Dreamcast.GetMonitorCount = PlayStation2.GetMonitorCount ∧ Dreamcast.GetMonitorCount = Vita.GetMonitorCount) ∧
    (Dreamcast.GetCurrentMonitor = PlayStation2.GetCurrentMonitor ∧ Dreamcast.GetCurrentMonitor = Vita.GetCurrentMonitor) ∧
    (Dreamcast.GetMonitorPosition = PlayStation2.GetMonitorPosition ∧ Dreamcast.GetMonitorPosition = Vita.GetMonitorPosition) ∧
    (Dreamcast.GetMonitorWidth = PlayStation2.GetMonitorWidth ∧ Dreamcast.GetMonitorWidth = Vita.GetMonitorWidth) ∧
    (Dreamcast.GetMonitorHeight = PlayStation2.GetMonitorHeight ∧ Dreamcast.GetMonitorHeight = Vita.GetMonitorHeight) ∧
    (Dreamcast.GetMonitorPhysicalWidth = PlayStation2.GetMonitorPhysicalWidth ∧ Dreamcast.GetMonitorPhysicalWidth = Vita.GetMonitorPhysicalWidth) ∧
    (Dreamcast.GetMonitorPhysicalHeight = PlayStation2.GetMonitorPhysicalHeight ∧ Dreamcast.GetMonitorPhysicalHeight = Vita.GetMonitorPhysicalHeight) ∧
    (Dreamcast.GetMonitorRefreshRate = PlayStation2.GetMonitorRefreshRate ∧ Dreamcast.GetMonitorRefreshRate = Vita.GetMonitorRefreshRate) ∧
    (Dreamcast.GetMonitorName = PlayStation2.GetMonitorName ∧ Dreamcast.GetMonitorName = Vita.GetMonitorName) ∧
    (Dreamcast.GetWindowPosition = PlayStation2.GetWindowPosition ∧ Dreamcast.GetWindowPosition = Vita.GetWindowPosition) ∧
    (Dreamcast.GetWindowScaleDPI = PlayStation2.GetWindowScaleDPI ∧ Dreamcast.GetWindowScaleDPI = Vita.GetWindowScaleDPI) ∧
    (Dreamcast.SetClipboardText = PlayStation2.SetClipboardText ∧ Dreamcast.SetClipboardText = Vita.SetClipboardText) ∧
    (Dreamcast.GetClipboardText = PlayStation2.GetClipboardText ∧ Dreamcast.GetClipboardText = Vita.GetClipboardText) :=
  ⟨⟨rfl, rfl⟩, ⟨rfl, rfl⟩, ⟨rfl, rfl⟩, ⟨rfl, rfl⟩, ⟨rfl, rfl⟩, ⟨rfl, rfl⟩,
    ⟨rfl, rfl⟩, ⟨rfl, rfl⟩, ⟨rfl, rfl⟩, ⟨rfl, rfl⟩, ⟨rfl, rfl⟩, ⟨rfl, rfl⟩,
    ⟨rfl, rfl⟩, ⟨rfl, rfl⟩, ⟨rfl, rfl⟩, ⟨rfl, rfl⟩, ⟨rfl, rfl⟩, ⟨rfl, rfl⟩,
    ⟨rfl, rfl⟩, ⟨rfl, rfl⟩, ⟨rfl, rfl⟩, ⟨rfl, rfl⟩, ⟨rfl, rfl⟩⟩

/-! ## C17: the Dreamcast `GetTime` -/

/-- The elapsed nanoseconds that `GetTime` computes, when the reading is not
below the base and fits 64 bits: the reading minus the base. -/
theorem Dreamcast.GetTime_elapsed (sec nsec : Int) (base : Nat)
    (h0 : 0 ≤ nsec) (h1 : nsec < 1000000000)
    (hb : (base : Int) ≤ sec * 1000000000 + nsec)
    (hlt : sec * 1000000000 + nsec < 18446744073709551616) :
    ((((toU64 sec * 1000000000) % 18446744073709551616 + toU64 nsec)
        % 18446744073709551616 + 18446744073709551616 - base % 18446744073709551616)
      % 18446744073709551616 : Nat)
      = (sec * 1000000000 + nsec - base).toNat := by
  unfold toU64
  omega

/-- The elapsed nanoseconds that `GetTime` computes, when the reading is below
the base: the difference wraps modulo 2^64. -/
theorem Dreamcast.GetTime_wrapped (sec nsec : Int) (base : Nat)
    (h0 : 0 ≤ nsec) (h1 : nsec < 1000000000)
    (hr : 0 ≤ sec * 1000000000 + nsec)
    (hb : sec * 1000000000 + nsec < (base : Int))
    (hlt : base < 18446744073709551616) :
    ((((toU64 sec * 1000000000) % 18446744073709551616 + toU64 nsec)
        % 18446744073709551616 + 18446744073709551616 - base % 18446744073709551616)
      % 18446744073709551616 : Nat)
      = (sec * 1000000000 + nsec + 18446744073709551616 - base).toNat := by
  unfold toU64
  omega

/-- The value of `GetTime` in the range of the claim, as a rational. -/
theorem Dreamcast.GetTime_value (sec nsec : Int) (CORE : CoreData)
    (h0 : 0 ≤ nsec) (h1 : nsec < 1000000000)
    (hb : (CORE.Time.base : Int) ≤ sec * 1000000000 + nsec)
    (hlt : sec * 1000000000 + nsec < 18446744073709551616) :
    (Dreamcast.GetTime (sec, nsec) CORE).1
      = ((sec * 1000000000 + nsec - CORE.Time.base : Int) : ℚ) * (1 / 1000000000) := by
  unfold Dreamcast.GetTime
  simp only []
  rw [Dreamcast.GetTime_elapsed sec nsec CORE.Time.base h0 h1 hb hlt]
  have hnn : 0 ≤ sec * 1000000000 + nsec - (CORE.Time.base : Int) := by omega
  have hcast : (((sec * 1000000000 + nsec - (CORE.Time.base : Int)).toNat : Nat) : ℚ)
      = ((sec * 1000000000 + nsec - (CORE.Time.base : Int) : Int) : ℚ) := by
    rw [← Int.cast_natCast, Int.toNat_of_nonneg hnn]
  rw [hcast]

/-- C17. Dreamcast `GetTime` returns the elapsed time in seconds since
`InitTimer`: for a monotonic clock reading `(sec, nsec)` with
`0 <= nsec < 10^9` and `CORE.Time.base <= sec*10^9 + nsec < 2^64`, the result
is `(sec*10^9 + nsec - CORE.Time.base) * 10^-9` as an exact rational, which
is non-negative and non-decreasing in the clock reading, and `CORE` is left as
it was. The subtraction is unsigned 64-bit: for a reading from 0 on that is
below the base, the result is `(sec*10^9 + nsec + 2^64 - base) * 10^-9`. -/
theorem Dreamcast.GetTime_elapsed_seconds (sec nsec : Int) (CORE : CoreData)
    (h0 : 0 ≤ nsec) (h1 : nsec < 1000000000)
    (hb : (CORE.Time.base : Int) ≤ sec * 1000000000 + nsec)
    (hlt : sec * 1000000000 + nsec < 18446744073709551616) :
    (Dreamcast.GetTime (sec, nsec) CORE).1
      = ((sec * 1000000000 + nsec - CORE.Time.base : Int) : ℚ) * (1 / 1000000000) ∧
    0 ≤ (Dreamcast.GetTime (sec, nsec) CORE).1 ∧
    (Dreamcast.GetTime (sec, nsec) CORE).2 = CORE ∧
    (∀ sec2 nsec2 : Int, 0 ≤ nsec2 → nsec2 < 1000000000 →
      sec * 1000000000 + nsec ≤ sec2 * 1000000000 + nsec2 →
      sec2 * 1000000000 + nsec2 < 18446744073709551616 →
      (Dreamcast.GetTime (sec, nsec) CORE).1 ≤ (Dreamcast.GetTime (sec2, nsec2) CORE).1) ∧
    (∀ sec2 nsec2 : Int, 0 ≤ nsec2 → nsec2 < 1000000000 →
      0 ≤ sec2 * 1000000000 + nsec2 → sec2 * 1000000000 + nsec2 < (CORE.Time.base : Int) →
      (Dreamcast.GetTime (sec2, nsec2) CORE).1
        = ((sec2 * 1000000000 + nsec2 + 18446744073709551616 - CORE.Time.base : Int) : ℚ)
            * (1 / 1000000000)) := by
  have hval := Dreamcast.GetTime_value sec nsec CORE h0 h1 hb hlt
  refine ⟨hval, ?_, rfl, ?_, ?_⟩
  · rw [hval]
    have hnn : (0 : Int) ≤ sec * 1000000000 + nsec - (CORE.Time.base : Int) := by omega
    have hq : (0 : ℚ) ≤ ((sec * 1000000000 + nsec - (CORE.Time.base : Int) : Int) : ℚ) :=
      Int.cast_nonneg.mpr hnn
    positivity
  · intro sec2 nsec2 h02 h12 hle hlt2
    rw [hval, Dreamcast.GetTime_value sec2 nsec2 CORE h02 h12 (by omega) hlt2]
    have hz : sec * 1000000000 + nsec - (CORE.Time.base : Int)
        ≤ sec2 * 1000000000 + nsec2 - (CORE.Time.base : Int) := by omega
    have hq : ((sec * 1000000000 + nsec - (CORE.Time.base : Int) : Int) : ℚ)
        ≤ ((sec2 * 1000000000 + nsec2 - (CORE.Time.base : Int) : Int) : ℚ) :=
      Int.cast_le.mpr hz
    exact mul_le_mul_of_nonneg_right hq (by norm_num)
  · intro sec2 nsec2 h02 h12 hr hbelow
    have hbase : CORE.Time.base < 18446744073709551616 := by omega
    unfold Dreamcast.GetTime
    simp only []
    rw [Dreamcast.GetTime_wrapped sec2 nsec2 CORE.Time.base h02 h12 hr hbelow hbase]
    have hnn : 0 ≤ sec2 * 1000000000 + nsec2 + 18446744073709551616 - (CORE.Time.base : Int) := by
      omega
    rw [← Int.cast_natCast, Int.toNat_of_nonneg hnn]

/-- C17 at a concrete input: with the base at 1 s and the clock at 3.5 s,
`GetTime` returns 5/2 seconds. -/
theorem Dreamcast.GetTime_elapsed_seconds_witness :
    (Dreamcast.GetTime (3, 500000000)
      { coreZero with Time := { base := 1000000000 } }).1 = 5 / 2 :=
  (Dreamcast.GetTime_elapsed_seconds 3 500000000
    { coreZero with Time := { base := 1000000000 } }
    (by decide) (by decide) (by decide) (by decide)).1.trans (by norm_num)

/-! ## C18: the Dreamcast axes -/

/-- The button loop leaves the axis table and the axis counts alone. -/
theorem mapButtons_keeps_axes (table : List (Nat × Nat)) (pad word : Nat) (CORE : CoreData) :
    (mapButtons table pad word CORE).Input.Gamepad.axisState = CORE.Input.Gamepad.axisState ∧
    (mapButtons table pad word CORE).Input.Gamepad.axisCount
      = CORE.Input.Gamepad.axisCount := by
  unfold mapButtons
  constructor
  · apply foldl_keeps (fun c : CoreData => c.Input.Gamepad.axisState)
    intro c e
    unfold mapButton
    split <;> rfl
  · apply foldl_keeps (fun c : CoreData => c.Input.Gamepad.axisCount)
    intro c e
    unfold mapButton
    split <;> rfl

/-- The axis table after `MapControls`: six stores into the old table, in
source order. -/
theorem Dreamcast.MapControls_axisState (k : Dreamcast.KosConsts) (r : RaylibConsts)
    (p : Nat) (st : Dreamcast.cont_state_t) (CORE : CoreData) :
    (Dreamcast.MapControls k r p st CORE).Input.Gamepad.axisState
      = set2 (set2 (set2 (set2 (set2 (set2 CORE.Input.Gamepad.axisState
          p r.GAMEPAD_AXIS_LEFT_X ((st.joyx : ℚ) / 128))
          p r.GAMEPAD_AXIS_LEFT_Y ((st.joyy : ℚ) / 128))
          p r.GAMEPAD_AXIS_RIGHT_X ((st.joy2x : ℚ) / 128))
          p r.GAMEPAD_AXIS_RIGHT_Y ((st.joy2y : ℚ) / 128))
          p r.GAMEPAD_AXIS_LEFT_TRIGGER ((st.ltrig : ℚ) / 255))
          p r.GAMEPAD_AXIS_RIGHT_TRIGGER ((st.rtrig : ℚ) / 255) := by
  simp [Dreamcast.MapControls, Dreamcast.setAxis, (mapButtons_keeps_axes _ _ _ _).1]

/-- The axis counts after `MapControls`: 6 for the pad, the others unchanged. -/
theorem Dreamcast.MapControls_axisCount (k : Dreamcast.KosConsts) (r : RaylibConsts)
    (p : Nat) (st : Dreamcast.cont_state_t) (CORE : CoreData) :
    (Dreamcast.MapControls k r p st CORE).Input.Gamepad.axisCount
      = set1 CORE.Input.Gamepad.axisCount p 6 := by
  simp [Dreamcast.MapControls, Dreamcast.setAxis, (mapButtons_keeps_axes _ _ _ _).2]

/-- A stick reading in [-128, 127] divided by 128 lies in [-1, 1). -/
theorem stick_axis_bounds (v : Int) (h1 : -128 ≤ v) (h2 : v ≤ 127) :
    -1 ≤ (v : ℚ) / 128 ∧ (v : ℚ) / 128 < 1 := by
  have h1q : (-128 : ℚ) ≤ (v : ℚ) := by exact_mod_cast h1
  have h2q : (v : ℚ) ≤ 127 := by exact_mod_cast h2
  constructor
  · rw [le_div_iff₀ (by norm_num)]
    linarith
  · rw [div_lt_iff₀ (by norm_num)]
    linarith

/-- A trigger reading in [0, 255] divided by 255 lies in [0, 1]. -/
theorem trigger_axis_bounds (v : Int) (h1 : 0 ≤ v) (h2 : v ≤ 255) :
    0 ≤ (v : ℚ) / 255 ∧ (v : ℚ) / 255 ≤ 1 := by
  have h1q : (0 : ℚ) ≤ (v : ℚ) := by exact_mod_cast h1
  have h2q : (v : ℚ) ≤ 255 := by exact_mod_cast h2
  constructor
  · positivity
  · rw [div_le_iff₀ (by norm_num)]
    linarith

/-- C18. Dreamcast `MapControls` fills the canonical axis table: when the six
axis constants are distinct, it leaves `LEFT_X = joyx/128`,
`LEFT_Y = joyy/128`, `RIGHT_X = joy2x/128`, `RIGHT_Y = joy2y/128`,
`LEFT_TRIGGER = ltrig/255`, `RIGHT_TRIGGER = rtrig/255` in the row of pad `p`,
changes no other entry of the axis table, and sets `axisCount[p] = 6` and no
other axis count. For stick readings in [-128, 127] every stick axis lies in
[-1, 1), and for trigger readings in [0, 255] every trigger axis lies in
[0, 1] (values as exact rationals). -/
theorem Dreamcast.MapControls_axes (k : Dreamcast.KosConsts) (r : RaylibConsts)
    (hnodup : [r.GAMEPAD_AXIS_LEFT_X, r.GAMEPAD_AXIS_LEFT_Y, r.GAMEPAD_AXIS_RIGHT_X,
      r.GAMEPAD_AXIS_RIGHT_Y, r.GAMEPAD_AXIS_LEFT_TRIGGER, r.GAMEPAD_AXIS_RIGHT_TRIGGER].Nodup)
    (p : Nat) (st : Dreamcast.cont_state_t) (CORE : CoreData) :
    ((Dreamcast.MapControls k r p st CORE).Input.Gamepad.axisState p r.GAMEPAD_AXIS_LEFT_X
        = (st.joyx : ℚ) / 128 ∧
      (Dreamcast.MapControls k r p st CORE).Input.Gamepad.axisState p r.GAMEPAD_AXIS_LEFT_Y
        = (st.joyy : ℚ) / 128 ∧
      (Dreamcast.MapControls k r p st CORE).Input.Gamepad.axisState p r.GAMEPAD_AXIS_RIGHT_X
        = (st.joy2x : ℚ) / 128 ∧
      (Dreamcast.MapControls k r p st CORE).Input.Gamepad.axisState p r.GAMEPAD_AXIS_RIGHT_Y
        = (st.joy2y : ℚ) / 128 ∧
      (Dreamcast.MapControls k r p st CORE).Input.Gamepad.axisState p
          r.GAMEPAD_AXIS_LEFT_TRIGGER = (st.ltrig : ℚ) / 255 ∧
      (Dreamcast.MapControls k r p st CORE).Input.Gamepad.axisState p
          r.GAMEPAD_AXIS_RIGHT_TRIGGER = (st.rtrig : ℚ) / 255) ∧
    (∀ q a, (q ≠ p ∨ a ∉ [r.GAMEPAD_AXIS_LEFT_X, r.GAMEPAD_AXIS_LEFT_Y,
        r.GAMEPAD_AXIS_RIGHT_X, r.GAMEPAD_AXIS_RIGHT_Y, r.GAMEPAD_AXIS_LEFT_TRIGGER,
        r.GAMEPAD_AXIS_RIGHT_TRIGGER]) →
      (Dreamcast.MapControls k r p st CORE).Input.Gamepad.axisState q a
        = CORE.Input.Gamepad.axisState q a) ∧
    ((Dreamcast.MapControls k r p st CORE).Input.Gamepad.axisCount p = 6 ∧
      ∀ q, q ≠ p →
        (Dreamcast.MapControls k r p st CORE).Input.Gamepad.axisCount q
          = CORE.Input.Gamepad.axisCount q) ∧
    (-128 ≤ st.joyx → st.joyx ≤ 127 →
      -1 ≤ (Dreamcast.MapControls k r p st CORE).Input.Gamepad.axisState p r.GAMEPAD_AXIS_LEFT_X ∧
      (Dreamcast.MapControls k r p st CORE).Input.Gamepad.axisState p r.GAMEPAD_AXIS_LEFT_X < 1) ∧
    (-128 ≤ st.joyy → st.joyy ≤ 127 →
      -1 ≤ (Dreamcast.MapControls k r p st CORE).Input.Gamepad.axisState p r.GAMEPAD_AXIS_LEFT_Y ∧
      (Dreamcast.MapControls k r p st CORE).Input.Gamepad.axisState p r.GAMEPAD_AXIS_LEFT_Y < 1) ∧
    (-128 ≤ st.joy2x → st.joy2x ≤ 127 →
      -1 ≤ (Dreamcast.MapControls k r p st CORE).Input.Gamepad.axisState p r.GAMEPAD_AXIS_RIGHT_X ∧
      (Dreamcast.MapControls k r p st CORE).Input.Gamepad.axisState p r.GAMEPAD_AXIS_RIGHT_X < 1) ∧
    (-128 ≤ st.joy2y → st.joy2y ≤ 127 →
      -1 ≤ (Dreamcast.MapControls k r p st CORE).Input.Gamepad.axisState p r.GAMEPAD_AXIS_RIGHT_Y ∧
      (Dreamcast.MapControls k r p st CORE).Input.Gamepad.axisState p r.GAMEPAD_AXIS_RIGHT_Y < 1) ∧
    (0 ≤ st.ltrig → st.ltrig ≤ 255 →
      0 ≤ (Dreamcast.MapControls k r p st CORE).Input.Gamepad.axisState p r.GAMEPAD_AXIS_LEFT_TRIGGER ∧
      (Dreamcast.MapControls k r p st CORE).Input.Gamepad.axisState p r.GAMEPAD_AXIS_LEFT_TRIGGER ≤ 1) ∧
    (0 ≤ st.rtrig → st.rtrig ≤ 255 →
      0 ≤ (Dreamcast.MapControls k r p st CORE).Input.Gamepad.axisState p r.GAMEPAD_AXIS_RIGHT_TRIGGER ∧
      (Dreamcast.MapControls k r p st CORE).Input.Gamepad.axisState p r.GAMEPAD_AXIS_RIGHT_TRIGGER ≤ 1) := by
  simp only [List.nodup_cons, List.mem_cons, List.mem_singleton, not_or, List.not_mem_nil,
    not_false_eq_true, List.nodup_nil, and_true] at hnodup
  obtain ⟨⟨h12, h13, h14, h15, h16⟩, ⟨h23, h24, h25, h26⟩, ⟨h34, h35, h36⟩, ⟨h45, h46⟩, h56⟩ :=
    hnodup
  have hvals : (Dreamcast.MapControls k r p st CORE).Input.Gamepad.axisState p
        r.GAMEPAD_AXIS_LEFT_X = (st.joyx : ℚ) / 128 ∧
      (Dreamcast.MapControls k r p st CORE).Input.Gamepad.axisState p r.GAMEPAD_AXIS_LEFT_Y
        = (st.joyy : ℚ) / 128 ∧
      (Dreamcast.MapControls k r p st CORE).Input.Gamepad.axisState p r.GAMEPAD_AXIS_RIGHT_X
        = (st.joy2x : ℚ) / 128 ∧
      (Dreamcast.MapControls k r p st CORE).Input.Gamepad.axisState p r.GAMEPAD_AXIS_RIGHT_Y
        = (st.joy2y : ℚ) / 128 ∧
      (Dreamcast.MapControls k r p st CORE).Input.Gamepad.axisState p
          r.GAMEPAD_AXIS_LEFT_TRIGGER = (st.ltrig : ℚ) / 255 ∧
      (Dreamcast.MapControls k r p st CORE).Input.Gamepad.axisState p
          r.GAMEPAD_AXIS_RIGHT_TRIGGER = (st.rtrig : ℚ) / 255 := by
    rw [Dreamcast.MapControls_axisState]
    refine ⟨?_, ?_, ?_, ?_, ?_, ?_⟩ <;> simp [set2, *]
  obtain ⟨v1, v2, v3, v4, v5, v6⟩ := hvals
  refine ⟨⟨v1, v2, v3, v4, v5, v6⟩, ?_, ⟨?_, ?_⟩, ?_, ?_, ?_, ?_, ?_, ?_⟩
  · intro q a hqa
    rw [Dreamcast.MapControls_axisState]
    simp only [List.mem_cons, List.mem_singleton, not_or, List.not_mem_nil, or_false] at hqa
    rcases hqa with hq | ⟨a1, a2, a3, a4, a5, a6⟩
    · simp [set2, hq]
    · simp [set2, *]
  · rw [Dreamcast.MapControls_axisCount]
    simp
  · intro q hq
    rw [Dreamcast.MapControls_axisCount]
    simp [set1, hq]
  · intro h1 h2
    rw [v1]
    exact stick_axis_bounds _ h1 h2
  · intro h1 h2
    rw [v2]
    exact stick_axis_bounds _ h1 h2
  · intro h1 h2
    rw [v3]
    exact stick_axis_bounds _ h1 h2
  · intro h1 h2
    rw [v4]
    exact stick_axis_bounds _ h1 h2
  · intro h1 h2
    rw [v5]
    exact trigger_axis_bounds _ h1 h2
  · intro h1 h2
    rw [v6]
    exact trigger_axis_bounds _ h1 h2

/-- C18 at the header values: the six axis constants are distinct; with the
left stick at -128 in x, the right stick at 0 and the right trigger at 255 on
pad 1, `LEFT_X` is -1, `RIGHT_X` is 0, `RIGHT_TRIGGER` is 1, the axis count
of pad 1 is 6, and `LEFT_X` lies in [-1, 1). -/
theorem Dreamcast.MapControls_axes_witness :
    [raylibConsts.GAMEPAD_AXIS_LEFT_X, raylibConsts.GAMEPAD_AXIS_LEFT_Y,
      raylibConsts.GAMEPAD_AXIS_RIGHT_X, raylibConsts.GAMEPAD_AXIS_RIGHT_Y,
      raylibConsts.GAMEPAD_AXIS_LEFT_TRIGGER, raylibConsts.GAMEPAD_AXIS_RIGHT_TRIGGER].Nodup ∧
    (Dreamcast.MapControls Dreamcast.kosConsts raylibConsts 1 Dreamcast.padA
      coreZero).Input.Gamepad.axisState 1 0 = -1 ∧
    (Dreamcast.MapControls Dreamcast.kosConsts raylibConsts 1 Dreamcast.padA
      coreZero).Input.Gamepad.axisState 1 2 = 0 ∧
    (Dreamcast.MapControls Dreamcast.kosConsts raylibConsts 1 Dreamcast.padA
      coreZero).Input.Gamepad.axisState 1 5 = 1 ∧
    (Dreamcast.MapControls Dreamcast.kosConsts raylibConsts 1 Dreamcast.padA
      coreZero).Input.Gamepad.axisCount 1 = 6 ∧
    (Dreamcast.MapControls Dreamcast.kosConsts raylibConsts 1 Dreamcast.padA
      coreZero).Input.Gamepad.axisState 1 0 < 1 :=
  have h := Dreamcast.MapControls_axes Dreamcast.kosConsts raylibConsts (by decide) 1
    Dreamcast.padA coreZero
  ⟨by decide,
    h.1.1.trans (by show (((-128 : Int) : ℚ) / 128) = -1; norm_num),
    h.1.2.2.1.trans (by show (((0 : Int) : ℚ) / 128) = 0; norm_num),
    h.1.2.2.2.2.2.trans (by show (((255 : Int) : ℚ) / 255) = 1; norm_num),
    h.2.2.1.1,
    (h.2.2.2.1 (by decide) (by decide)).2⟩

/-! ## C19: `initializePad` and the DualShock mode -/

/-- The mode-table loop ends at an index below `modes` exactly when an index
from its start on and below `modes` has the entry `PAD_TYPE_DUALSHOCK`,
given enough passes. -/
theorem PlayStation2.scanModes_spec (c : PlayStation2.PadConsts) (v : PlayStation2.Vendor)
    (modes : Int) (n : Nat) (i : Int) (hn : 1 ≤ n) (hfuel : modes - i ≤ n) :
    PlayStation2.scanModes c v modes n i < modes ↔
      ∃ j : Int, i ≤ j ∧ j < modes ∧ v.padInfoMode c.PAD_MODETABLE j = c.PAD_TYPE_DUALSHOCK := by
  induction n generalizing i with
  | zero => omega
  | succ n ih =>
    rw [PlayStation2.scanModes]
    by_cases hds : v.padInfoMode c.PAD_MODETABLE i = c.PAD_TYPE_DUALSHOCK
    · rw [if_pos hds]
      constructor
      · intro hlt
        exact ⟨i, le_refl i, hlt, hds⟩
      · rintro ⟨j, hij, hjm, _⟩
        omega
    · rw [if_neg hds]
      by_cases hnext : i + 1 < modes
      · rw [if_pos hnext]
        have hn1 : 1 ≤ n := by
          have : modes - i ≤ ((n + 1 : Nat) : Int) := hfuel
          push_cast at this
          omega
        have hf1 : modes - (i + 1) ≤ n := by
          have : modes - i ≤ ((n + 1 : Nat) : Int) := hfuel
          push_cast at this
          omega
        rw [ih (i + 1) hn1 hf1]
        constructor
        · rintro ⟨j, hij, hjm, hj⟩
          exact ⟨j, by omega, hjm, hj⟩
        · rintro ⟨j, hij, hjm, hj⟩
          have hne : j ≠ i := fun h => hds (h ▸ hj)
          exact ⟨j, by omega, hjm, hj⟩
      · rw [if_neg hnext]
        constructor
        · intro hlt
          omega
        · rintro ⟨j, hij, hjm, hj⟩
          have hji : j = i := by omega
          exact absurd (hji ▸ hj) hds

/-- The tests of `initializePad` pass exactly when a DualShock pad is found. -/
theorem PlayStation2.dualShockFound_iff (c : PlayStation2.PadConsts) (v : PlayStation2.Vendor) :
    PlayStation2.DualShockFound c v ↔
      (¬ v.padInfoMode c.PAD_MODETABLE (-1) = 0 ∧
        ¬ PlayStation2.scanModes c v (v.padInfoMode c.PAD_MODETABLE (-1))
            ((v.padInfoMode c.PAD_MODETABLE (-1)).toNat + 1) 0
          ≥ v.padInfoMode c.PAD_MODETABLE (-1) ∧
        ¬ v.padInfoMode c.PAD_MODECUREXID 0 = 0) := by
  have hspec := PlayStation2.scanModes_spec c v (v.padInfoMode c.PAD_MODETABLE (-1))
    ((v.padInfoMode c.PAD_MODETABLE (-1)).toNat + 1) 0 (by omega) (by push_cast; omega)
  unfold PlayStation2.DualShockFound
  rw [not_le, hspec]

/-- What a run of `initializePad` that returns has added to the vendor calls
and done to `actAlign`, by the tests it makes. -/
theorem PlayStation2.initializePad_trace (c : PlayStation2.PadConsts) (v : PlayStation2.Vendor)
    (fuel port slot : Nat) (s : PlayStation2.State) (res : Int × PlayStation2.State)
    (h : PlayStation2.initializePad c v fuel port slot s = some res) :
    (¬ PlayStation2.DualShockFound c v →
      res.2.calls = s.calls ∧ res.2.actAlign = s.actAlign) ∧
    (PlayStation2.DualShockFound c v → v.padInfoAct = 0 →
      res.2.calls = s.calls ++
        [.padSetMainMode port slot c.PAD_MMODE_DUALSHOCK c.PAD_MMODE_LOCK,
          .padInfoPressMode port slot, .padEnterPressMode port slot] ∧
      res.2.actAlign = s.actAlign) ∧
    (PlayStation2.DualShockFound c v → v.padInfoAct ≠ 0 →
      res.2.calls = s.calls ++
        [.padSetMainMode port slot c.PAD_MMODE_DUALSHOCK c.PAD_MMODE_LOCK,
          .padInfoPressMode port slot, .padEnterPressMode port slot,
          .padSetActAlign port slot [0, 1, 0xff, 0xff, 0xff, 0xff]] ∧
      res.2.actAlign = [0, 1, 0xff, 0xff, 0xff, 0xff]) := by
  rw [PlayStation2.dualShockFound_iff]
  unfold PlayStation2.initializePad at h
  obtain ⟨s1, hw1, h⟩ := Option.bind_eq_some.mp h
  obtain ⟨m1, rfl⟩ := PlayStation2.waitPadReady_some c v fuel _ _ hw1
  simp only [] at h
  by_cases hm : v.padInfoMode c.PAD_MODETABLE (-1) = 0
  · rw [if_pos hm] at h
    cases h
    exact ⟨fun _ => ⟨rfl, rfl⟩, fun hd => absurd hm hd.1, fun hd => absurd hm hd.1⟩
  · rw [if_neg hm] at h
    by_cases hi : PlayStation2.scanModes c v (v.padInfoMode c.PAD_MODETABLE (-1))
        ((v.padInfoMode c.PAD_MODETABLE (-1)).toNat + 1) 0
        ≥ v.padInfoMode c.PAD_MODETABLE (-1)
    · rw [if_pos hi] at h
      cases h
      exact ⟨fun _ => ⟨rfl, rfl⟩, fun hd => absurd hi hd.2.1, fun hd => absurd hi hd.2.1⟩
    · rw [if_neg hi] at h
      by_cases he : v.padInfoMode c.PAD_MODECUREXID 0 = 0
      · rw [if_pos he] at h
        cases h
        exact ⟨fun _ => ⟨rfl, rfl⟩, fun hd => absurd he hd.2.2, fun hd => absurd he hd.2.2⟩
      · rw [if_neg he] at h
        obtain ⟨s2, hw2, h⟩ := Option.bind_eq_some.mp h
        obtain ⟨m2, rfl⟩ := PlayStation2.waitPadReady_some c v fuel _ _ hw2
        obtain ⟨s3, hw3, h⟩ := Option.bind_eq_some.mp h
        obtain ⟨m3, rfl⟩ := PlayStation2.waitPadReady_some c v fuel _ _ hw3
        obtain ⟨s4, hw4, h⟩ := Option.bind_eq_some.mp h
        obtain ⟨m4, rfl⟩ := PlayStation2.waitPadReady_some c v fuel _ _ hw4
        simp only [] at h
        by_cases ha : v.padInfoAct = 0
        · have hna : ¬ v.padInfoAct ≠ (0 : Int) := fun hx => hx ha
          rw [if_neg hna] at h
          obtain ⟨s5, hw5, h⟩ := Option.bind_eq_some.mp h
          obtain ⟨m5, rfl⟩ := PlayStation2.waitPadReady_some c v fuel _ _ hw5
          cases h
          refine ⟨fun hd => absurd ⟨hm, hi, he⟩ hd, fun _ _ => ⟨?_, rfl⟩,
            fun _ hx => absurd ha hx⟩
          simp [PlayStation2.State.call]
        · rw [if_pos ha] at h
          obtain ⟨s5, hw5, h⟩ := Option.bind_eq_some.mp h
          obtain ⟨m5, rfl⟩ := PlayStation2.waitPadReady_some c v fuel _ _ hw5
          obtain ⟨s6, hw6, h⟩ := Option.bind_eq_some.mp h
          obtain ⟨m6, rfl⟩ := PlayStation2.waitPadReady_some c v fuel _ _ hw6
          cases h
          refine ⟨fun hd => absurd ⟨hm, hi, he⟩ hd, fun _ hx => absurd hx ha,
            fun _ _ => ⟨?_, rfl⟩⟩
          simp [PlayStation2.State.call]

/-- C19. PlayStation 2 `initializePad` returns when the pad gets ready, and
every run that returns has enabled the DualShock mode (has called
`padSetMainMode` with `PAD_MMODE_DUALSHOCK` and `PAD_MMODE_LOCK`) if and only
if the reported mode count is non-zero, some index `i` with `0 <= i < modes`
has the mode-table entry `PAD_TYPE_DUALSHOCK`, and the current extended id is
non-zero; and it has written the actuator alignment
`{0, 1, 0xff, 0xff, 0xff, 0xff}` and called `padSetActAlign` with it if and
only if, in addition, `padInfoAct` reports a non-zero number of actuators:
otherwise `actAlign` is as it was and `padSetActAlign` has not been called.
The calls are those the run has added to the calls made before it. -/
theorem PlayStation2.initializePad_dualshock (c : PlayStation2.PadConsts)
    (v : PlayStation2.Vendor) (port slot : Nat) (s : PlayStation2.State) :
    (∀ fuel, PlayStation2.PadGetsReady c v fuel →
      ∃ res, PlayStation2.initializePad c v fuel port slot s = some res) ∧
    (∀ fuel res, PlayStation2.initializePad c v fuel port slot s = some res →
      ∃ new, res.2.calls = s.calls ++ new ∧
        (PlayStation2.Call.padSetMainMode port slot c.PAD_MMODE_DUALSHOCK c.PAD_MMODE_LOCK ∈ new
          ↔ PlayStation2.DualShockFound c v) ∧
        (PlayStation2.Call.padSetActAlign port slot [0, 1, 0xff, 0xff, 0xff, 0xff] ∈ new
          ↔ PlayStation2.DualShockFound c v ∧ v.padInfoAct ≠ 0) ∧
        ((∃ p q align, PlayStation2.Call.padSetActAlign p q align ∈ new)
          ↔ PlayStation2.DualShockFound c v ∧ v.padInfoAct ≠ 0) ∧
        (PlayStation2.DualShockFound c v ∧ v.padInfoAct ≠ 0 →
          res.2.actAlign = [0, 1, 0xff, 0xff, 0xff, 0xff]) ∧
        (¬ (PlayStation2.DualShockFound c v ∧ v.padInfoAct ≠ 0) →
          res.2.actAlign = s.actAlign)) := by
  refine ⟨fun fuel hgap => PlayStation2.initializePad_total c v fuel hgap port slot s, ?_⟩
  intro fuel res h
  obtain ⟨hnone, hplain, hact⟩ := PlayStation2.initializePad_trace c v fuel port slot s res h
  by_cases hd : PlayStation2.DualShockFound c v
  · by_cases ha : v.padInfoAct = 0
    · obtain ⟨hcalls, halign⟩ := hplain hd ha
      refine ⟨_, hcalls, ?_, ?_, ?_, ?_, ?_⟩
      · simp [hd]
      · simp [hd, ha]
      · simp [hd, ha]
      · intro hx
        exact absurd ha hx.2
      · intro _
        exact halign
    · obtain ⟨hcalls, halign⟩ := hact hd ha
      refine ⟨_, hcalls, ?_, ?_, ?_, ?_, ?_⟩
      · simp [hd]
      · simp [hd, ha]
      · simp only [hd, ha, ne_eq, not_false_eq_true, and_self, iff_true]
        exact ⟨port, slot, [0, 1, 0xff, 0xff, 0xff, 0xff], by simp⟩
      · intro _
        exact halign
      · intro hx
        exact absurd ⟨hd, ha⟩ hx
  · obtain ⟨hcalls, halign⟩ := hnone hd
    refine ⟨[], by rw [hcalls, List.append_nil], ?_, ?_, ?_, ?_, ?_⟩
    · simp [hd]
    · simp [hd]
    · simp [hd]
    · intro hx
      exact absurd hx.1 hd
    · intro _
      exact halign

/-- C19 at a concrete input: with a pad that is ready at once, has three modes
of which the third is `PAD_TYPE_DUALSHOCK`, extended id 1 and two actuators,
`initializePad` returns having called `padSetMainMode(0, 0, 1, 3)` and
`padSetActAlign`, with `actAlign = {0, 1, 0xff, 0xff, 0xff, 0xff}`. -/
theorem PlayStation2.initializePad_dualshock_witness :
    PlayStation2.DualShockFound PlayStation2.padConsts PlayStation2.vendorDualShock ∧
    ∃ res, PlayStation2.initializePad PlayStation2.padConsts PlayStation2.vendorDualShock 1 0 0
        PlayStation2.stateZero = some res ∧
      PlayStation2.Call.padSetMainMode 0 0 1 3 ∈ res.2.calls ∧
      PlayStation2.Call.padSetActAlign 0 0 [0, 1, 0xff, 0xff, 0xff, 0xff] ∈ res.2.calls ∧
      res.2.actAlign = [0, 1, 0xff, 0xff, 0xff, 0xff] :=
  have hd : PlayStation2.DualShockFound PlayStation2.padConsts PlayStation2.vendorDualShock :=
    ⟨by decide, ⟨2, by decide, by decide, by decide⟩, by decide⟩
  have ha : PlayStation2.vendorDualShock.padInfoAct ≠ 0 := by decide
  have h := PlayStation2.initializePad_dualshock PlayStation2.padConsts
    PlayStation2.vendorDualShock 0 0 PlayStation2.stateZero
  ⟨hd, (h.1 1 (fun _ => ⟨0, by decide, Or.inl rfl⟩)).elim fun res hres =>
    (h.2 1 res hres).elim fun new hnew =>
      ⟨res, hres,
        by rw [hnew.1]; exact List.mem_append_right _ (hnew.2.1.mpr hd),
        by rw [hnew.1]; exact List.mem_append_right _ (hnew.2.2.1.mpr ⟨hd, ha⟩),
        hnew.2.2.2.2.1 ⟨hd, ha⟩⟩⟩

/-! ## C20: `SwapScreenBuffer` and `firstTime` -/

/-- One call of `SwapScreenBuffer`: the calls it adds, by `firstTime` on
entry; `firstTime` is false afterwards and `CORE` is as it was. -/
theorem PlayStation2.SwapScreenBuffer_step (s : PlayStation2.State) :
    (PlayStation2.SwapScreenBuffer s).calls
      = s.calls ++ ([PlayStation2.Call.pglEndGeometry]
          ++ (if s.firstTime = true then [] else [PlayStation2.Call.pglFinishRenderingGeometry])
          ++ [.pglWaitForVSync, .pglSwapBuffers, .pglRenderGeometry]) ∧
    (PlayStation2.SwapScreenBuffer s).firstTime = false ∧
    (PlayStation2.SwapScreenBuffer s).CORE = s.CORE := by
  unfold PlayStation2.SwapScreenBuffer
  cases hf : s.firstTime <;> simp [PlayStation2.State.call, hf]

/-- After at least one call of `SwapScreenBuffer`, `firstTime` is false. -/
theorem PlayStation2.swapTimes_firstTime (n : Nat) (s : PlayStation2.State) (hn : 1 ≤ n) :
    (PlayStation2.swapTimes n s).firstTime = false := by
  cases n with
  | zero => omega
  | succ n => exact (PlayStation2.SwapScreenBuffer_step _).2.1

/-- A run of `initializePad` that returns leaves `firstTime` as it was. -/
theorem PlayStation2.initializePad_firstTime (c : PlayStation2.PadConsts)
    (v : PlayStation2.Vendor) (fuel port slot : Nat) (s : PlayStation2.State)
    (res : Int × PlayStation2.State)
    (h : PlayStation2.initializePad c v fuel port slot s = some res) :
    res.2.firstTime = s.firstTime := by
  unfold PlayStation2.initializePad at h
  obtain ⟨s1, hw1, h⟩ := Option.bind_eq_some.mp h
  obtain ⟨m1, rfl⟩ := PlayStation2.waitPadReady_some c v fuel _ _ hw1
  simp only [] at h
  split_ifs at h
  · cases h; rfl
  · cases h; rfl
  · cases h; rfl
  · obtain ⟨s2, hw2, h⟩ := Option.bind_eq_some.mp h
    obtain ⟨m2, rfl⟩ := PlayStation2.waitPadReady_some c v fuel _ _ hw2
    obtain ⟨s3, hw3, h⟩ := Option.bind_eq_some.mp h
    obtain ⟨m3, rfl⟩ := PlayStation2.waitPadReady_some c v fuel _ _ hw3
    obtain ⟨s4, hw4, h⟩ := Option.bind_eq_some.mp h
    obtain ⟨m4, rfl⟩ := PlayStation2.waitPadReady_some c v fuel _ _ hw4
    obtain ⟨s5, hw5, h⟩ := Option.bind_eq_some.mp h
    obtain ⟨m5, rfl⟩ := PlayStation2.waitPadReady_some c v fuel _ _ hw5
    obtain ⟨s6, hw6, h⟩ := Option.bind_eq_some.mp h
    obtain ⟨m6, rfl⟩ := PlayStation2.waitPadReady_some c v fuel _ _ hw6
    cases h; rfl
  · obtain ⟨s2, hw2, h⟩ := Option.bind_eq_some.mp h
    obtain ⟨m2, rfl⟩ := PlayStation2.waitPadReady_some c v fuel _ _ hw2
    obtain ⟨s3, hw3, h⟩ := Option.bind_eq_some.mp h
    obtain ⟨m3, rfl⟩ := PlayStation2.waitPadReady_some c v fuel _ _ hw3
    obtain ⟨s4, hw4, h⟩ := Option.bind_eq_some.mp h
    obtain ⟨m4, rfl⟩ := PlayStation2.waitPadReady_some c v fuel _ _ hw4
    obtain ⟨s5, hw5, h⟩ := Option.bind_eq_some.mp h
    obtain ⟨m5, rfl⟩ := PlayStation2.waitPadReady_some c v fuel _ _ hw5
    cases h; rfl

/-- Recording a vendor call leaves `firstTime` alone. -/
theorem PlayStation2.State.call_firstTime (s : PlayStation2.State) (call : PlayStation2.Call) :
    (s.call call).firstTime = s.firstTime := rfl

/-- The graphics part of `InitPlatform` leaves `firstTime` as it was. -/
theorem PlayStation2.initGraphics_firstTime (r : RaylibConsts) (v : PlayStation2.Vendor)
    (env : CoreEnv) (s : PlayStation2.State) :
    (PlayStation2.initGraphics r v env s).firstTime = s.firstTime := by
  unfold PlayStation2.initGraphics
  cases v.pglHasLibraryBeenInitted <;> cases v.pglHasGsMemBeenInitted <;> rfl

/-- A run of the PlayStation 2 `InitPlatform` that returns leaves `firstTime`
as it was. -/
theorem PlayStation2.InitPlatform_firstTime (c : PlayStation2.PadConsts) (r : RaylibConsts)
    (v : PlayStation2.Vendor) (env : CoreEnv) (fuel : Nat) (s : PlayStation2.State)
    (res : Int × PlayStation2.State)
    (h : PlayStation2.InitPlatform c r v env fuel s = some res) :
    res.2.firstTime = s.firstTime := by
  unfold PlayStation2.InitPlatform at h
  simp only [] at h
  split_ifs at h
  · cases h
    simp only [PlayStation2.State.call_firstTime]
  · cases h
    simp only [PlayStation2.State.call_firstTime]
  · cases h
    simp only [PlayStation2.State.call_firstTime]
  · unfold PlayStation2.initPadAndGraphics at h
    obtain ⟨pr, hp, h⟩ := Option.bind_eq_some.mp h
    have hpf := PlayStation2.initializePad_firstTime c v fuel _ _ _ pr hp
    simp only [PlayStation2.State.call_firstTime] at hpf
    simp only [] at h
    split_ifs at h
    · cases h
      exact hpf
    · cases h
      show (PlayStation2.initGraphics r v env pr.2).firstTime = _
      rw [PlayStation2.initGraphics_firstTime, hpf]

/-- A run of the PlayStation 2 `PollInputEvents` that returns leaves
`firstTime` as it was. -/
theorem PlayStation2.PollInputEvents_firstTime (c : PlayStation2.PadConsts)
    (r : RaylibConsts) (v : PlayStation2.Vendor) (fuel : Nat) (s s' : PlayStation2.State)
    (h : PlayStation2.PollInputEvents c r v fuel s = some s') :
    s'.firstTime = s.firstTime := by
  obtain ⟨m, rfl⟩ := PlayStation2.PollInputEvents_some c r v fuel s s' h
  unfold PlayStation2.pollPadData
  simp only []
  split_ifs <;> rfl

/-- C20. PlayStation 2 `SwapScreenBuffer` first-frame state machine: starting
from `firstTime = true`, the `n`-th call (`n >= 1`) of `SwapScreenBuffer`
issues `pglEndGeometry`, then `pglFinishRenderingGeometry` if and only if
`n >= 2`, then `pglWaitForVSync`, `pglSwapBuffers`, `pglRenderGeometry`, in
that order and nothing else; `firstTime` is false after the first call and
after every later one, and it is never set back to true: a call of
`SwapScreenBuffer` leaves it false from whatever state, and `PollInputEvents`
and `InitPlatform` leave it as it was. -/
theorem PlayStation2.SwapScreenBuffer_first_frame (s : PlayStation2.State)
    (hfirst : s.firstTime = true) :
    (∀ n, 1 ≤ n →
      ∃ new, (PlayStation2.swapTimes n s).calls = (PlayStation2.swapTimes (n - 1) s).calls ++ new ∧
        new = [PlayStation2.Call.pglEndGeometry]
          ++ (if 2 ≤ n then [PlayStation2.Call.pglFinishRenderingGeometry] else [])
          ++ [.pglWaitForVSync, .pglSwapBuffers, .pglRenderGeometry] ∧
        (PlayStation2.Call.pglFinishRenderingGeometry ∈ new ↔ 2 ≤ n) ∧
        (PlayStation2.swapTimes n s).firstTime = false) ∧
    (∀ t : PlayStation2.State, (PlayStation2.SwapScreenBuffer t).firstTime = false) ∧
    (∀ c r v fuel (t t' : PlayStation2.State),
      PlayStation2.PollInputEvents c r v fuel t = some t' → t'.firstTime = t.firstTime) ∧
    (∀ c r v env fuel (t : PlayStation2.State) res,
      PlayStation2.InitPlatform c r v env fuel t = some res →
      res.2.firstTime = t.firstTime) := by
  refine ⟨?_, fun t => (PlayStation2.SwapScreenBuffer_step t).2.1,
    fun c r v fuel t t' h => PlayStation2.PollInputEvents_firstTime c r v fuel t t' h,
    fun c r v env fuel t res h => PlayStation2.InitPlatform_firstTime c r v env fuel t res h⟩
  intro n hn
  obtain ⟨m, rfl⟩ : ∃ m, n = m + 1 := ⟨n - 1, by omega⟩
  have hstep := PlayStation2.SwapScreenBuffer_step (PlayStation2.swapTimes m s)
  have hprev : (PlayStation2.swapTimes m s).firstTime = true ↔ ¬ 2 ≤ m + 1 := by
    cases m with
    | zero => simpa using hfirst
    | succ k =>
      rw [PlayStation2.swapTimes_firstTime (k + 1) s (by omega)]
      simp
  refine ⟨_, hstep.1, ?_, ?_, hstep.2.1⟩
  · by_cases h2 : 2 ≤ m + 1
    · rw [if_pos h2, if_neg (fun hx => (hprev.mp hx) h2)]
    · rw [if_neg h2, if_pos (hprev.mpr h2)]
  · by_cases h2 : 2 ≤ m + 1
    · rw [if_neg (fun hx => (hprev.mp hx) h2)]
      simp [h2]
    · rw [if_pos (hprev.mpr h2)]
      simp [h2]

/-- C20 at a concrete input: from the start state (`firstTime` true, no call
made), the first `SwapScreenBuffer` issues four calls without
`pglFinishRenderingGeometry`, the second issues five with it after
`pglEndGeometry`. -/
theorem PlayStation2.SwapScreenBuffer_first_frame_witness :
    PlayStation2.stateZero.firstTime = true ∧
    (PlayStation2.swapTimes 1 PlayStation2.stateZero).calls
      = [.pglEndGeometry, .pglWaitForVSync, .pglSwapBuffers, .pglRenderGeometry] ∧
    (PlayStation2.swapTimes 2 PlayStation2.stateZero).calls
      = [.pglEndGeometry, .pglWaitForVSync, .pglSwapBuffers, .pglRenderGeometry,
          .pglEndGeometry, .pglFinishRenderingGeometry, .pglWaitForVSync, .pglSwapBuffers,
          .pglRenderGeometry] ∧
    (PlayStation2.swapTimes 2 PlayStation2.stateZero).firstTime = false :=
  have h := PlayStation2.SwapScreenBuffer_first_frame PlayStation2.stateZero rfl
  ⟨rfl, (h.1 1 (by decide)).elim fun _ hnew => hnew.1.trans (by rw [hnew.2.1]; rfl),
    (h.1 2 (by decide)).elim fun _ hnew => hnew.1.trans (by rw [hnew.2.1]; rfl),
    (h.1 2 (by decide)).elim fun _ hnew => hnew.2.2.2⟩

/-! ## C21: the multisampling request of the Vita `InitPlatform` -/

/-- When `FLAG_FULLSCREEN_MODE` and `FLAG_MSAA_4X_HINT` share no bit, the
MSAA test reads the same after `FLAG_FULLSCREEN_MODE` has been OR-ed in. -/
theorem Vita.msaa_test_eq (r : RaylibConsts)
    (hbits : r.FLAG_FULLSCREEN_MODE &&& r.FLAG_MSAA_4X_HINT = 0) (flags : Nat) :
    (flags ||| r.FLAG_FULLSCREEN_MODE) &&& r.FLAG_MSAA_4X_HINT
      = flags &&& r.FLAG_MSAA_4X_HINT := by
  rw [Nat.and_comm, Nat.and_or_distrib_left, Nat.and_comm r.FLAG_MSAA_4X_HINT r.FLAG_FULLSCREEN_MODE,
    hbits, Nat.or_zero, Nat.and_comm]

/-- The window assignments of `InitPlatform` give the same `CORE` when
`FLAG_FULLSCREEN_MODE` has been OR-ed into the flags beforehand. -/
theorem initWindowState_or_fullscreen (r : RaylibConsts) (CORE : CoreData) :
    initWindowState r
        (CORE.modWindow fun w => { w with flags := w.flags ||| r.FLAG_FULLSCREEN_MODE })
      = initWindowState r CORE := by
  unfold initWindowState CoreData.modWindow CoreData.modMouse
  simp only [Nat.or_assoc, Nat.or_self]

/-- The Vita `InitPlatform` passes to `eglChooseConfig` no other list than
the one its MSAA test selects: replacing `eglChooseConfig` by a function that
agrees with it on that list changes nothing. -/
theorem Vita.InitPlatform_attribs_only (e : Vita.EglConsts) (r : RaylibConsts)
    (hbits : r.FLAG_FULLSCREEN_MODE &&& r.FLAG_MSAA_4X_HINT = 0)
    (v : Vita.Vendor) (env : CoreEnv) (s : Vita.State)
    (f : Nat → List Int → Nat × Nat × Int)
    (hf : ∀ n, f n (Vita.msaaAttribs e r s.CORE.Window.flags)
      = v.eglChooseConfig n (Vita.msaaAttribs e r s.CORE.Window.flags)) :
    Vita.InitPlatform e r { v with eglChooseConfig := f } env s
      = Vita.InitPlatform e r v env s := by
  have hfl : (initWindowState r s.CORE).Window.flags
      = s.CORE.Window.flags ||| r.FLAG_FULLSCREEN_MODE := rfl
  unfold Vita.msaaAttribs at hf
  unfold Vita.InitPlatform
  simp only [hfl, Vita.msaa_test_eq r hbits, hf]

/-- C21. The Vita `InitPlatform` requests multisampling exactly when asked,
provided `FLAG_FULLSCREEN_MODE` and `FLAG_MSAA_4X_HINT` share no bit (the
test reads the flags after `FLAG_FULLSCREEN_MODE` has been OR-ed in). The
only attribute list it passes to `eglChooseConfig` is `framebufferAttribs`
with `EGL_SAMPLE_BUFFERS` 1 and `EGL_SAMPLES` 4 if `FLAG_MSAA_4X_HINT` is set
in the `CORE.Window.flags` passed in, and with `EGL_SAMPLE_BUFFERS` 0 and
`EGL_SAMPLES` 0 otherwise: `InitPlatform` is the same for every
`eglChooseConfig` that answers alike on that list. OR-ing
`FLAG_FULLSCREEN_MODE` into the flags beforehand gives the same list, and,
when `pibInit` succeeds, the same run. -/
theorem Vita.InitPlatform_multisampling (e : Vita.EglConsts) (r : RaylibConsts)
    (hbits : r.FLAG_FULLSCREEN_MODE &&& r.FLAG_MSAA_4X_HINT = 0)
    (v : Vita.Vendor) (env : CoreEnv) (s : Vita.State) :
    (∀ f : Nat → List Int → Nat × Nat × Int,
      (∀ n, f n (Vita.msaaAttribs e r s.CORE.Window.flags)
        = v.eglChooseConfig n (Vita.msaaAttribs e r s.CORE.Window.flags)) →
      Vita.InitPlatform e r { v with eglChooseConfig := f } env s
        = Vita.InitPlatform e r v env s) ∧
    (s.CORE.Window.flags &&& r.FLAG_MSAA_4X_HINT ≠ 0 →
      Vita.msaaAttribs e r s.CORE.Window.flags = Vita.framebufferAttribs e 1 4 ∧
      (Vita.msaaAttribs e r s.CORE.Window.flags).drop 16
        = [e.EGL_SAMPLE_BUFFERS, 1, e.EGL_SAMPLES, 4, e.EGL_NONE]) ∧
    (s.CORE.Window.flags &&& r.FLAG_MSAA_4X_HINT = 0 →
      Vita.msaaAttribs e r s.CORE.Window.flags = Vita.framebufferAttribs e 0 0 ∧
      (Vita.msaaAttribs e r s.CORE.Window.flags).drop 16
        = [e.EGL_SAMPLE_BUFFERS, 0, e.EGL_SAMPLES, 0, e.EGL_NONE]) ∧
    Vita.msaaAttribs e r (s.CORE.Window.flags ||| r.FLAG_FULLSCREEN_MODE)
      = Vita.msaaAttribs e r s.CORE.Window.flags ∧
    (v.pibInit = 0 →
      Vita.InitPlatform e r v env
          { s with CORE := s.CORE.modWindow fun w =>
              { w with flags := w.flags ||| r.FLAG_FULLSCREEN_MODE } }
        = Vita.InitPlatform e r v env s) := by
  refine ⟨fun f hf => Vita.InitPlatform_attribs_only e r hbits v env s f hf, ?_, ?_, ?_, ?_⟩
  · intro h
    unfold Vita.msaaAttribs
    rw [if_pos h, if_pos h]
    exact ⟨rfl, rfl⟩
  · intro h
    unfold Vita.msaaAttribs
    rw [if_neg (not_not.mpr h), if_neg (not_not.mpr h)]
    exact ⟨rfl, rfl⟩
  · unfold Vita.msaaAttribs
    rw [Vita.msaa_test_eq r hbits]
  · intro hpib
    unfold Vita.InitPlatform
    simp only [hpib, initWindowState_or_fullscreen, ne_eq, not_true_eq_false, if_false]

/-- C21 at concrete inputs, with the header values (`FLAG_FULLSCREEN_MODE` is
2, `FLAG_MSAA_4X_HINT` is 32): on a Vita whose `eglChooseConfig` accepts only
the list with `EGL_SAMPLE_BUFFERS` 1 and `EGL_SAMPLES` 4, `InitPlatform`
returns 0 from flags 32 and -1 from flags 0. -/
theorem Vita.InitPlatform_multisampling_witness :
    raylibConsts.FLAG_FULLSCREEN_MODE &&& raylibConsts.FLAG_MSAA_4X_HINT = 0 ∧
    Vita.msaaAttribs Vita.eglConsts raylibConsts Vita.stateReady.CORE.Window.flags
      = Vita.framebufferAttribs Vita.eglConsts 1 4 ∧
    Vita.msaaAttribs Vita.eglConsts raylibConsts Vita.statePlain.CORE.Window.flags
      = Vita.framebufferAttribs Vita.eglConsts 0 0 ∧
    (Vita.InitPlatform Vita.eglConsts raylibConsts Vita.vendorMsaaOnly coreEnvId
      Vita.stateReady).1 = 0 ∧
    (Vita.InitPlatform Vita.eglConsts raylibConsts Vita.vendorMsaaOnly coreEnvId
      Vita.statePlain).1 = -1 :=
  ⟨by decide,
    ((Vita.InitPlatform_multisampling Vita.eglConsts raylibConsts (by decide) Vita.vendorOk
      coreEnvId Vita.stateReady).2.1 (by decide)).1,
    ((Vita.InitPlatform_multisampling Vita.eglConsts raylibConsts (by decide) Vita.vendorOk
      coreEnvId Vita.statePlain).2.2.1 (by decide)).1,
    by rw [Vita.InitPlatform_fst, if_pos (by decide)],
    by rw [Vita.InitPlatform_fst, if_neg (by decide)]⟩

/-! ## A failed Vita `InitPlatform` -/

/-- A flag that has been OR-ed into a word is set in it. -/
theorem or_and_self_flag (flags flag : Nat) : (flags ||| flag) &&& flag = flag := by
  apply Nat.eq_of_testBit_eq
  intro i
  rw [Nat.testBit_and, Nat.testBit_or]
  cases flags.testBit i <;> cases flag.testBit i <;> rfl

/-- The Vita `InitPlatform` stops with the window assignments made, and
nothing else done to `CORE`, when `eglGetDisplay` gives `EGL_NO_DISPLAY`. -/
theorem Vita.InitPlatform_no_display (e : Vita.EglConsts) (r : RaylibConsts) (v : Vita.Vendor)
    (env : CoreEnv) (s : Vita.State) (hpib : v.pibInit = 0)
    (hdpy : v.eglGetDisplay = e.EGL_NO_DISPLAY) :
    Vita.InitPlatform e r v env s
      = (-1, { CORE := initWindowState r s.CORE,
               platform := { s.platform with device := v.eglGetDisplay } }) := by
  unfold Vita.InitPlatform
  simp [hpib, hdpy]

/-! ## C22: a failed Vita `InitPlatform` does not roll back -/

/-- The window assignments of `InitPlatform` change nothing when made a
second time. -/
theorem initWindowState_twice (r : RaylibConsts) (CORE : CoreData) :
    initWindowState r (initWindowState r CORE) = initWindowState r CORE := by
  unfold initWindowState CoreData.modWindow CoreData.modMouse
  simp only [Nat.or_assoc, Nat.or_self]

/-- The attribute list of the Vita `InitPlatform` is the same when
`FLAG_FULLSCREEN_MODE` has been OR-ed into the flags beforehand. -/
theorem Vita.attribsFor_or_fullscreen (e : Vita.EglConsts) (r : RaylibConsts) (flags : Nat) :
    Vita.attribsFor e r (flags ||| r.FLAG_FULLSCREEN_MODE) = Vita.attribsFor e r flags := by
  unfold Vita.attribsFor
  simp only [Nat.or_assoc, Nat.or_self]

/-- The two ways in which the Vita `InitPlatform` returns -1 after `pibInit`
succeeded, and what each leaves in `CORE`. -/
theorem Vita.InitPlatform_failure_paths (e : Vita.EglConsts) (r : RaylibConsts)
    (v : Vita.Vendor) (env : CoreEnv) (s : Vita.State) (hpib : v.pibInit = 0) :
    (Vita.failsBeforeFramebuffer e r v s.CORE.Window.flags →
      (Vita.InitPlatform e r v env s).1 = -1 ∧
      (Vita.InitPlatform e r v env s).2.CORE = initWindowState r s.CORE) ∧
    (¬ Vita.failsBeforeFramebuffer e r v s.CORE.Window.flags →
      Vita.failsAfterFramebuffer e r v s.CORE.Window.flags →
      (Vita.InitPlatform e r v env s).1 = -1 ∧
      (Vita.InitPlatform e r v env s).2.CORE
        = env.SetupFramebuffer s.CORE.Window.screen.width s.CORE.Window.screen.height
            (initWindowState r s.CORE)) ∧
    ((Vita.InitPlatform e r v env s).1 = -1 →
      Vita.failsBeforeFramebuffer e r v s.CORE.Window.flags ∨
      (¬ Vita.failsBeforeFramebuffer e r v s.CORE.Window.flags ∧
        Vita.failsAfterFramebuffer e r v s.CORE.Window.flags)) := by
  have hfl : (initWindowState r s.CORE).Window.flags
      = s.CORE.Window.flags ||| r.FLAG_FULLSCREEN_MODE := rfl
  have hdw : (initWindowState r s.CORE).Window.display.width = s.CORE.Window.screen.width := rfl
  have hdh : (initWindowState r s.CORE).Window.display.height = s.CORE.Window.screen.height := rfl
  unfold Vita.failsBeforeFramebuffer Vita.failsAfterFramebuffer Vita.InitPlatform
  simp only [hfl, hdw, hdh, Vita.attribs_eq]
  by_cases h2 : v.eglGetDisplay = e.EGL_NO_DISPLAY
  · simp [hpib, h2]
  · by_cases h3 : v.eglInitialize = e.EGL_FALSE
    · simp [hpib, h2, h3]
    · by_cases h4 : v.eglBindAPI = 0
      · simp [hpib, h2, h3, h4]
      · by_cases h5 : (v.eglChooseConfig 1 (Vita.attribsFor e r s.CORE.Window.flags)).1 = 0
        · simp [hpib, h2, h3, h4, h5]
        · by_cases h6 : (v.eglChooseConfig 1 (Vita.attribsFor e r s.CORE.Window.flags)).2.2 = 1
          · by_cases h7 : v.eglCreateContext
                (v.eglChooseConfig 1 (Vita.attribsFor e r s.CORE.Window.flags)).2.1
                (Vita.contextAttribs e) = e.EGL_NO_CONTEXT
            · simp [hpib, h2, h3, h4, h5, h6, h7]
            · by_cases h8 : v.eglCreateWindowSurface
                  (v.eglChooseConfig 1 (Vita.attribsFor e r s.CORE.Window.flags)).2.1
                  = e.EGL_NO_SURFACE
              · simp [hpib, h2, h3, h4, h5, h6, h7, h8]
              · by_cases h9 : v.eglMakeCurrent = e.EGL_FALSE
                · simp [hpib, h2, h3, h4, h5, h6, h7, h8, h9]
                · simp [hpib, h2, h3, h4, h5, h6, h7, h8, h9]
          · simp [hpib, h2, h3, h4, h5, h6]

/-- C22, as the code has it. When a run of the Vita `InitPlatform` returns -1
after `pibInit` succeeded, a step before the call of `SetupFramebuffer` has
failed or, all of those having succeeded, a step after it, and the window
state is not rolled back. In the first case (for example `eglGetDisplay`
returned `EGL_NO_DISPLAY`) `CORE` is left with the window assignments made
and nothing else: `CORE.Window.fullscreen` is true, `FLAG_FULLSCREEN_MODE` is
set in `CORE.Window.flags`, and the display, render and `currentFbo` sizes
hold the screen size; `CORE` is as the run found it only if these assignments
changed nothing, as on a second attempt after a failed one. In the second
case (`eglCreateWindowSurface` or `eglMakeCurrent` failed) `CORE` is what
`SetupFramebuffer` left when called on that state, so `fullscreen` is true
and the flag set provided `SetupFramebuffer` does not write them. -/
theorem Vita.InitPlatform_no_rollback (e : Vita.EglConsts) (r : RaylibConsts)
    (v : Vita.Vendor) (env : CoreEnv) (s : Vita.State) (hpib : v.pibInit = 0) :
    ((Vita.InitPlatform e r v env s).1 = -1 →
      Vita.failsBeforeFramebuffer e r v s.CORE.Window.flags ∨
      (¬ Vita.failsBeforeFramebuffer e r v s.CORE.Window.flags ∧
        Vita.failsAfterFramebuffer e r v s.CORE.Window.flags)) ∧
    (Vita.failsBeforeFramebuffer e r v s.CORE.Window.flags →
      (Vita.InitPlatform e r v env s).1 = -1 ∧
      (Vita.InitPlatform e r v env s).2.CORE = initWindowState r s.CORE ∧
      (Vita.InitPlatform e r v env s).2.CORE.Window.fullscreen = true ∧
      (Vita.InitPlatform e r v env s).2.CORE.Window.flags
        = s.CORE.Window.flags ||| r.FLAG_FULLSCREEN_MODE ∧
      (Vita.InitPlatform e r v env s).2.CORE.Window.flags &&& r.FLAG_FULLSCREEN_MODE
        = r.FLAG_FULLSCREEN_MODE ∧
      (Vita.InitPlatform e r v env s).2.CORE.Window.display = s.CORE.Window.screen ∧
      (Vita.InitPlatform e r v env s).2.CORE.Window.render = s.CORE.Window.screen ∧
      (Vita.InitPlatform e r v env s).2.CORE.Window.currentFbo = s.CORE.Window.screen ∧
      ((Vita.InitPlatform e r v env s).2.CORE = s.CORE ↔ initWindowState r s.CORE = s.CORE) ∧
      (Vita.InitPlatform e r v env (Vita.InitPlatform e r v env s).2).1 = -1 ∧
      (Vita.InitPlatform e r v env (Vita.InitPlatform e r v env s).2).2.CORE
        = (Vita.InitPlatform e r v env s).2.CORE) ∧
    (¬ Vita.failsBeforeFramebuffer e r v s.CORE.Window.flags →
      Vita.failsAfterFramebuffer e r v s.CORE.Window.flags →
      (Vita.InitPlatform e r v env s).1 = -1 ∧
      (Vita.InitPlatform e r v env s).2.CORE
        = env.SetupFramebuffer s.CORE.Window.screen.width s.CORE.Window.screen.height
            (initWindowState r s.CORE) ∧
      (env.KeepsFullscreen →
        (Vita.InitPlatform e r v env s).2.CORE.Window.fullscreen = true ∧
        (Vita.InitPlatform e r v env s).2.CORE.Window.flags &&& r.FLAG_FULLSCREEN_MODE
          = r.FLAG_FULLSCREEN_MODE)) := by
  obtain ⟨hearly, hlate, hall⟩ := Vita.InitPlatform_failure_paths e r v env s hpib
  have hfl : (initWindowState r s.CORE).Window.flags
      = s.CORE.Window.flags ||| r.FLAG_FULLSCREEN_MODE := rfl
  refine ⟨hall, ?_, ?_⟩
  · intro hE
    obtain ⟨h1, hcore⟩ := hearly hE
    have hE2 : Vita.failsBeforeFramebuffer e r v
        (Vita.InitPlatform e r v env s).2.CORE.Window.flags := by
      rw [hcore, hfl]
      unfold Vita.failsBeforeFramebuffer
      rw [Vita.attribsFor_or_fullscreen]
      exact hE
    obtain ⟨h2, hcore2⟩ :=
      (Vita.InitPlatform_failure_paths e r v env (Vita.InitPlatform e r v env s).2 hpib).1 hE2
    refine ⟨h1, hcore, ?_, ?_, ?_, ?_, ?_, ?_, ?_, h2, ?_⟩
    · rw [hcore]
      rfl
    · rw [hcore, hfl]
    · rw [hcore, hfl, or_and_self_flag]
    · rw [hcore]
      rfl
    · rw [hcore]
      rfl
    · rw [hcore]
      rfl
    · rw [hcore]
    · rw [hcore2, hcore, initWindowState_twice]
  · intro hE hL
    obtain ⟨h1, hcore⟩ := hlate hE hL
    refine ⟨h1, hcore, fun hkeep => ?_⟩
    rw [hcore, (hkeep _ _ _).1, (hkeep _ _ _).2, hfl, or_and_self_flag]
    exact ⟨rfl, rfl⟩

/-- C22 at a concrete input: with `eglGetDisplay` giving `EGL_NO_DISPLAY`, a
window that asked for 800 x 450 with flags 32 and `fullscreen` false, the
Vita `InitPlatform` returns -1 and leaves `fullscreen` true, the flags at 34
and the display, render and `currentFbo` sizes at 800 x 450 (they were
0 x 0). -/
theorem Vita.InitPlatform_no_rollback_witness :
    Vita.vendorNoDisplay.pibInit = 0 ∧
    Vita.failsBeforeFramebuffer Vita.eglConsts raylibConsts Vita.vendorNoDisplay
      Vita.stateReady.CORE.Window.flags ∧
    (Vita.InitPlatform Vita.eglConsts raylibConsts Vita.vendorNoDisplay coreEnvId
      Vita.stateReady).1 = -1 ∧
    Vita.stateReady.CORE.Window.fullscreen = false ∧
    (Vita.InitPlatform Vita.eglConsts raylibConsts Vita.vendorNoDisplay coreEnvId
      Vita.stateReady).2.CORE.Window.fullscreen = true ∧
    (Vita.InitPlatform Vita.eglConsts raylibConsts Vita.vendorNoDisplay coreEnvId
      Vita.stateReady).2.CORE.Window.flags = 34 ∧
    Vita.stateReady.CORE.Window.display = ⟨0, 0⟩ ∧
    (Vita.InitPlatform Vita.eglConsts raylibConsts Vita.vendorNoDisplay coreEnvId
      Vita.stateReady).2.CORE.Window.display = ⟨800, 450⟩ ∧
    (Vita.InitPlatform Vita.eglConsts raylibConsts Vita.vendorNoDisplay coreEnvId
      Vita.stateReady).2.CORE.Window.render = ⟨800, 450⟩ ∧
    (Vita.InitPlatform Vita.eglConsts raylibConsts Vita.vendorNoDisplay coreEnvId
      Vita.stateReady).2.CORE.Window.currentFbo = ⟨800, 450⟩ :=
  have hE : Vita.failsBeforeFramebuffer Vita.eglConsts raylibConsts Vita.vendorNoDisplay
      Vita.stateReady.CORE.Window.flags := Or.inl rfl
  have h := (Vita.InitPlatform_no_rollback Vita.eglConsts raylibConsts Vita.vendorNoDisplay
    coreEnvId Vita.stateReady rfl).2.1 hE
  ⟨rfl, hE, h.1, rfl, h.2.2.1, h.2.2.2.1.trans (by decide), rfl, h.2.2.2.2.2.1,
    h.2.2.2.2.2.2.1, h.2.2.2.2.2.2.2.1⟩

/-- C22 fails in two ways. A second attempt after a first that failed at
`eglGetDisplay` returns -1 and leaves `CORE` exactly as it found it, the
window assignments having been made before. And when `eglMakeCurrent` fails
after a `SetupFramebuffer` that clears `fullscreen` and `flags`, the run
returns -1 with `fullscreen` false and the flags 0. -/
theorem Vita.InitPlatform_no_rollback_counterexample :
    (Vita.vendorNoDisplay.pibInit = 0 ∧
      (Vita.InitPlatform Vita.eglConsts raylibConsts Vita.vendorNoDisplay coreEnvId
        Vita.stateRetry).1 = -1 ∧
      (Vita.InitPlatform Vita.eglConsts raylibConsts Vita.vendorNoDisplay coreEnvId
        Vita.stateRetry).2.CORE = Vita.stateRetry.CORE) ∧
    (Vita.vendorNoCurrent.pibInit = 0 ∧
      (Vita.InitPlatform Vita.eglConsts raylibConsts Vita.vendorNoCurrent coreEnvClearing
        Vita.stateReady).1 = -1 ∧
      (Vita.InitPlatform Vita.eglConsts raylibConsts Vita.vendorNoCurrent coreEnvClearing
        Vita.stateReady).2.CORE.Window.fullscreen = false ∧
      (Vita.InitPlatform Vita.eglConsts raylibConsts Vita.vendorNoCurrent coreEnvClearing
        Vita.stateReady).2.CORE.Window.flags = 0) := by
  have hretry : Vita.stateRetry.CORE = initWindowState raylibConsts Vita.stateReady.CORE := by
    unfold Vita.stateRetry
    rw [Vita.InitPlatform_no_display Vita.eglConsts raylibConsts Vita.vendorNoDisplay
      coreEnvId Vita.stateReady rfl rfl]
  have hsecond := Vita.InitPlatform_no_display Vita.eglConsts raylibConsts
    Vita.vendorNoDisplay coreEnvId Vita.stateRetry rfl rfl
  have hlate := (Vita.InitPlatform_failure_paths Vita.eglConsts raylibConsts
    Vita.vendorNoCurrent coreEnvClearing Vita.stateReady rfl).2.1 (by decide) (by decide)
  refine ⟨⟨rfl, ?_, ?_⟩, ⟨rfl, hlate.1, ?_, ?_⟩⟩
  · rw [hsecond]
  · rw [hsecond]
    show initWindowState raylibConsts Vita.stateRetry.CORE = Vita.stateRetry.CORE
    rw [hretry, initWindowState_twice]
  · rw [hlate.2]
    rfl
  · rw [hlate.2]
    rfl

/-! ## C23: `initializePad` always returns 1 -/

/-- Every run of the pad and graphics part of the PlayStation 2
`InitPlatform` that returns, returns 0: the branch under
`if(!initializePad(port, slot))` is not taken. -/
theorem PlayStation2.initPadAndGraphics_zero (c : PlayStation2.PadConsts) (r : RaylibConsts)
    (v : PlayStation2.Vendor) (env : CoreEnv) (fuel : Nat) (s : PlayStation2.State)
    (res : Int × PlayStation2.State)
    (h : PlayStation2.initPadAndGraphics c r v env fuel s = some res) :
    ∃ padResult, PlayStation2.initializePad c v fuel s.port s.slot s = some padResult ∧
      padResult.1 = 1 ∧ res = (0, PlayStation2.initGraphics r v env padResult.2) := by
  unfold PlayStation2.initPadAndGraphics at h
  obtain ⟨pr, hp, h⟩ := Option.bind_eq_some.mp h
  obtain ⟨hp1, _⟩ := PlayStation2.initializePad_some c v fuel _ _ _ pr hp
  have hne : ¬ pr.1 = 0 := by rw [hp1]; decide
  simp only [if_neg hne] at h
  exact ⟨pr, hp, hp1, (Option.some.inj h).symm⟩

/-- C23. PlayStation 2 `initializePad` returns 1 on every path: it returns
when the pad gets ready, and every run that returns, returns 1 (digital
controller, no DualShock mode, zero extended id and full success alike). So
the branch of `InitPlatform` under `if(!initializePad(port, slot))` is not
taken: every run of the part of `InitPlatform` from that test on that returns,
returns 0, and a run of `InitPlatform` that returns, returns -1 only when a
module did not load or the port did not open, and 0 otherwise. -/
theorem PlayStation2.initializePad_returns_one (c : PlayStation2.PadConsts)
    (r : RaylibConsts) (v : PlayStation2.Vendor) (env : CoreEnv) (s : PlayStation2.State) :
    (∀ fuel port slot, PlayStation2.PadGetsReady c v fuel →
      ∃ s', PlayStation2.initializePad c v fuel port slot s = some (1, s')) ∧
    (∀ fuel port slot res,
      PlayStation2.initializePad c v fuel port slot s = some res → res.1 = 1) ∧
    (∀ fuel res, PlayStation2.initPadAndGraphics c r v env fuel s = some res → res.1 = 0) ∧
    (∀ fuel res, PlayStation2.InitPlatform c r v env fuel s = some res →
      (res.1 = -1 ↔ PlayStation2.SetupFails v) ∧
      (res.1 = 0 ↔ ¬ PlayStation2.SetupFails v)) := by
  refine ⟨?_, ?_, ?_, ?_⟩
  · intro fuel port slot hgap
    obtain ⟨res, hres⟩ := PlayStation2.initializePad_total c v fuel hgap port slot s
    have h1 := (PlayStation2.initializePad_some c v fuel port slot s res hres).1
    refine ⟨res.2, ?_⟩
    rw [hres, ← h1]
  · intro fuel port slot res h
    exact (PlayStation2.initializePad_some c v fuel port slot s res h).1
  · intro fuel res h
    obtain ⟨pr, _, _, hres⟩ := PlayStation2.initPadAndGraphics_zero c r v env fuel s res h
    rw [hres]
  · intro fuel res h
    by_cases hf : PlayStation2.SetupFails v
    · obtain ⟨s', hs', _⟩ := PlayStation2.InitPlatform_fails c r v env fuel s hf
      rw [hs'] at h
      have hres := (Option.some.inj h).symm
      subst hres
      refine ⟨⟨fun _ => hf, fun _ => rfl⟩, ⟨fun h0 => ?_, fun hn => absurd hf hn⟩⟩
      exact absurd h0 (by show ¬ ((-1 : Int) = 0); decide)
    · have h0 := (PlayStation2.InitPlatform_some c r v env fuel s hf res h).1
      refine ⟨⟨fun h1 => ?_, fun hs => absurd hs hf⟩, ⟨fun _ => hf, fun _ => h0⟩⟩
      rw [h0] at h1
      exact absurd h1 (by decide)

/-- C23 at concrete inputs, one for each path of `initializePad`: a digital
controller (no modes), a pad with no DualShock mode, a pad with a DualShock
mode and extended id 0, and a DualShock pad with two actuators. Each call
returns 1. -/
theorem PlayStation2.initializePad_returns_one_witness :
    (PlayStation2.vendorA.padInfoMode 4 (-1) = 0 ∧
      ∃ s', PlayStation2.initializePad PlayStation2.padConsts PlayStation2.vendorA 3 0 0
        PlayStation2.stateZero = some (1, s')) ∧
    (¬ PlayStation2.DualShockFound PlayStation2.padConsts PlayStation2.vendorNoDualShockMode ∧
      ∃ s', PlayStation2.initializePad PlayStation2.padConsts
        PlayStation2.vendorNoDualShockMode 1 0 0 PlayStation2.stateZero = some (1, s')) ∧
    (PlayStation2.vendorZeroExId.padInfoMode 2 0 = 0 ∧
      ∃ s', PlayStation2.initializePad PlayStation2.padConsts PlayStation2.vendorZeroExId
        1 0 0 PlayStation2.stateZero = some (1, s')) ∧
    (PlayStation2.vendorDualShock.padInfoAct = 2 ∧
      ∃ s', PlayStation2.initializePad PlayStation2.padConsts PlayStation2.vendorDualShock
        1 0 0 PlayStation2.stateZero = some (1, s')) :=
  ⟨⟨rfl, (PlayStation2.initializePad_returns_one PlayStation2.padConsts raylibConsts
      PlayStation2.vendorA coreEnvId PlayStation2.stateZero).1 3 0 0
      (fun m => ⟨2, by decide, Or.inl (by
        show (if m + 2 < 2 then (1 : Int) else 6) = 6
        rw [if_neg (by omega)])⟩)⟩,
    ⟨fun h => h.2.1.elim fun i hi => absurd hi.2.2 (by
        show ¬ ((if (4 : Int) = 4 then (if i = -1 then (2 : Int) else 4) else 1) = 7)
        split_ifs <;> decide),
      (PlayStation2.initializePad_returns_one PlayStation2.padConsts raylibConsts
        PlayStation2.vendorNoDualShockMode coreEnvId PlayStation2.stateZero).1 1 0 0
        (fun _ => ⟨0, by decide, Or.inl rfl⟩)⟩,
    ⟨rfl, (PlayStation2.initializePad_returns_one PlayStation2.padConsts raylibConsts
      PlayStation2.vendorZeroExId coreEnvId PlayStation2.stateZero).1 1 0 0
      (fun _ => ⟨0, by decide, Or.inl rfl⟩)⟩,
    ⟨rfl, (PlayStation2.initializePad_returns_one PlayStation2.padConsts raylibConsts
      PlayStation2.vendorDualShock coreEnvId PlayStation2.stateZero).1 1 0 0
      (fun _ => ⟨0, by decide, Or.inl rfl⟩)⟩⟩

/-! ## C24: the two button maps are well formed -/

/-- C24. Both button-map tables are well formed at the values of the
KallistiOS, PS2SDK and raylib headers. The Dreamcast table has 11 entries and
the PlayStation 2 table 16; in each, every vendor mask is a single bit of a
16-bit word, no two entries share a vendor mask, no two entries share a raylib
button, and every raylib button is non-zero and below `MAX_GAMEPAD_BUTTONS`.
The masks of the PlayStation 2 table cover all 16 bits of the pad word. So no
write of the button loop is overwritten by a later entry (after the loop each
entry's slot holds the state of that entry's bit) and every write is in
bounds (slot 0 and the slots from `MAX_GAMEPAD_BUTTONS` on are never
written). -/
theorem buttonMap_well_formed :
    ((Dreamcast.buttonMap Dreamcast.kosConsts raylibConsts).length = 11 ∧
      (∀ e ∈ Dreamcast.buttonMap Dreamcast.kosConsts raylibConsts,
        ∃ b, b < 16 ∧ e.1 = 2 ^ b) ∧
      ((Dreamcast.buttonMap Dreamcast.kosConsts raylibConsts).map Prod.fst).Nodup ∧
      ((Dreamcast.buttonMap Dreamcast.kosConsts raylibConsts).map Prod.snd).Nodup ∧
      (∀ e ∈ Dreamcast.buttonMap Dreamcast.kosConsts raylibConsts,
        e.2 ≠ 0 ∧ e.2 < raylibConsts.MAX_GAMEPAD_BUTTONS)) ∧
    ((PlayStation2.buttonMap PlayStation2.padConsts raylibConsts).length = 16 ∧
      (∀ e ∈ PlayStation2.buttonMap PlayStation2.padConsts raylibConsts,
        ∃ b, b < 16 ∧ e.1 = 2 ^ b) ∧
      ((PlayStation2.buttonMap PlayStation2.padConsts raylibConsts).map Prod.fst).Nodup ∧
      ((PlayStation2.buttonMap PlayStation2.padConsts raylibConsts).map Prod.snd).Nodup ∧
      (∀ e ∈ PlayStation2.buttonMap PlayStation2.padConsts raylibConsts,
        e.2 ≠ 0 ∧ e.2 < raylibConsts.MAX_GAMEPAD_BUTTONS) ∧
      (∀ b, b < 16 →
        ∃ e ∈ PlayStation2.buttonMap PlayStation2.padConsts raylibConsts, e.1 = 2 ^ b) ∧
      ((PlayStation2.buttonMap PlayStation2.padConsts raylibConsts).map Prod.fst).foldl
        (fun acc m => acc ||| m) 0 = 0xffff) ∧
    (∀ (pad word : Nat) (CORE : CoreData),
      (∀ e ∈ Dreamcast.buttonMap Dreamcast.kosConsts raylibConsts,
        (mapButtons (Dreamcast.buttonMap Dreamcast.kosConsts raylibConsts) pad word
            CORE).Input.Gamepad.currentButtonState pad e.2
          = if word &&& e.1 ≠ 0 then 1 else 0) ∧
      (∀ e ∈ PlayStation2.buttonMap PlayStation2.padConsts raylibConsts,
        (mapButtons (PlayStation2.buttonMap PlayStation2.padConsts raylibConsts) pad word
            CORE).Input.Gamepad.currentButtonState pad e.2
          = if word &&& e.1 ≠ 0 then 1 else 0) ∧
      (∀ p b, b = 0 ∨ raylibConsts.MAX_GAMEPAD_BUTTONS ≤ b →
        (mapButtons (Dreamcast.buttonMap Dreamcast.kosConsts raylibConsts) pad word
            CORE).Input.Gamepad.currentButtonState p b
          = CORE.Input.Gamepad.currentButtonState p b ∧
        (mapButtons (PlayStation2.buttonMap PlayStation2.padConsts raylibConsts) pad word
            CORE).Input.Gamepad.currentButtonState p b
          = CORE.Input.Gamepad.currentButtonState p b)) := by
  have hdc : ∀ e ∈ Dreamcast.buttonMap Dreamcast.kosConsts raylibConsts,
      e.2 ≠ 0 ∧ e.2 < raylibConsts.MAX_GAMEPAD_BUTTONS := by decide
  have hps : ∀ e ∈ PlayStation2.buttonMap PlayStation2.padConsts raylibConsts,
      e.2 ≠ 0 ∧ e.2 < raylibConsts.MAX_GAMEPAD_BUTTONS := by decide
  have hdcn : ((Dreamcast.buttonMap Dreamcast.kosConsts raylibConsts).map Prod.snd).Nodup := by
    decide
  have hpsn : ((PlayStation2.buttonMap PlayStation2.padConsts raylibConsts).map
      Prod.snd).Nodup := by
    decide
  refine ⟨⟨rfl, by decide, by decide, hdcn, hdc⟩,
    ⟨rfl, by decide, by decide, hpsn, hps, by decide, by decide⟩, ?_⟩
  intro pad word CORE
  refine ⟨fun e he => mapButtons_current_mem _ pad word CORE hdcn e he,
    fun e he => mapButtons_current_mem _ pad word CORE hpsn e he, ?_⟩
  intro p b hb
  have hout : ∀ table : List (Nat × Nat),
      (∀ e ∈ table, e.2 ≠ 0 ∧ e.2 < raylibConsts.MAX_GAMEPAD_BUTTONS) →
      b ∉ table.map Prod.snd := by
    intro table ht hmem
    obtain ⟨e, he, heb⟩ := List.mem_map.mp hmem
    have h := ht e he
    rcases hb with hb | hb
    · exact h.1 (heb.trans hb)
    · rw [heb] at h
      exact absurd hb (Nat.not_le.mpr h.2)
  exact ⟨mapButtons_current_other _ pad word CORE p b (Or.inr (hout _ hdc)),
    mapButtons_current_other _ pad word CORE p b (Or.inr (hout _ hps))⟩

/-! ## C25: the window operations that are not available -/

/-- A sequence of window operations of the Dreamcast file leaves `CORE` as it
was. -/
theorem Dreamcast.runWindowOps_keeps_dreamcast (ops : List WindowOp) (CORE : CoreData) :
    Dreamcast.runWindowOps ops CORE = CORE := by
  unfold Dreamcast.runWindowOps
  induction ops with
  | nil => rfl
  | cons op rest ih =>
    rw [List.foldl_cons]
    have hop : Dreamcast.runWindowOp op CORE = CORE := by
      cases op <;> rfl
    rw [hop]
    exact ih

/-- A sequence of window operations of the PlayStation 2 file leaves `CORE` as it
was. -/
theorem PlayStation2.runWindowOps_keeps_ps2 (ops : List WindowOp) (CORE : CoreData) :
    PlayStation2.runWindowOps ops CORE = CORE := by
  unfold PlayStation2.runWindowOps
  induction ops with
  | nil => rfl
  | cons op rest ih =>
    rw [List.foldl_cons]
    have hop : PlayStation2.runWindowOp op CORE = CORE := by
      cases op <;> rfl
    rw [hop]
    exact ih

/-- A sequence of window operations of the Vita file leaves `CORE` as it
was. -/
theorem Vita.runWindowOps_keeps_vita (ops : List WindowOp) (CORE : CoreData) :
    Vita.runWindowOps ops CORE = CORE := by
  unfold Vita.runWindowOps
  induction ops with
  | nil => rfl
  | cons op rest ih =>
    rw [List.foldl_cons]
    have hop : Vita.runWindowOp op CORE = CORE := by
      cases op <;> rfl
    rw [hop]
    exact ih

/-- The window assignments of the Dreamcast and Vita `InitPlatform` leave
`fullscreen` true and `FLAG_FULLSCREEN_MODE` set; so do those of the
PlayStation 2 file. -/
theorem initWindowState_fullscreen (r : RaylibConsts) (CORE : CoreData) :
    ((initWindowState r CORE).Window.fullscreen = true ∧
      (initWindowState r CORE).Window.flags &&& r.FLAG_FULLSCREEN_MODE
        = r.FLAG_FULLSCREEN_MODE) ∧
    ((PlayStation2.initWindowState r CORE).Window.fullscreen = true ∧
      (PlayStation2.initWindowState r CORE).Window.flags &&& r.FLAG_FULLSCREEN_MODE
        = r.FLAG_FULLSCREEN_MODE) := by
  have h1 : (initWindowState r CORE).Window.flags
      = CORE.Window.flags ||| r.FLAG_FULLSCREEN_MODE := rfl
  have h2 : (PlayStation2.initWindowState r CORE).Window.flags
      = CORE.Window.flags ||| r.FLAG_FULLSCREEN_MODE := rfl
  refine ⟨⟨rfl, ?_⟩, ⟨rfl, ?_⟩⟩
  · rw [h1, or_and_self_flag]
  · rw [h2, or_and_self_flag]

/-- When `SetupFramebuffer` does not write `fullscreen` and `flags`, the
statements of `InitPlatform` from `SetupFramebuffer` on keep them. -/
theorem finishInit_fullscreen (env : CoreEnv) (hkeep : env.KeepsFullscreen) (w h : Int)
    (CORE : CoreData) :
    (finishInit env (syncRenderSize (env.SetupFramebuffer w h CORE))).Window.fullscreen
      = CORE.Window.fullscreen ∧
    (finishInit env (syncRenderSize (env.SetupFramebuffer w h CORE))).Window.flags
      = CORE.Window.flags := by
  simp only [finishInit_Window, syncRenderSize_Window]
  exact hkeep w h CORE

/-- When `SetupFramebuffer` does not write `fullscreen` and `flags`, a
successful `InitPlatform` leaves `fullscreen` true and `FLAG_FULLSCREEN_MODE`
set, in each of the three files. -/
theorem InitPlatform_fullscreen (c : PlayStation2.PadConsts) (e : Vita.EglConsts)
    (r : RaylibConsts) (env : CoreEnv) (hkeep : env.KeepsFullscreen) :
    (∀ CORE, (Dreamcast.InitPlatform r env CORE).2.Window.fullscreen = true ∧
      (Dreamcast.InitPlatform r env CORE).2.Window.flags &&& r.FLAG_FULLSCREEN_MODE
        = r.FLAG_FULLSCREEN_MODE) ∧
    (∀ (v : PlayStation2.Vendor) (s : PlayStation2.State) (fuel : Nat)
      (res : Int × PlayStation2.State),
      PlayStation2.InitPlatform c r v env fuel s = some res → res.1 = 0 →
      res.2.CORE.Window.fullscreen = true ∧
      res.2.CORE.Window.flags &&& r.FLAG_FULLSCREEN_MODE = r.FLAG_FULLSCREEN_MODE) ∧
    (∀ (v : Vita.Vendor) (s : Vita.State), (Vita.InitPlatform e r v env s).1 = 0 →
      (Vita.InitPlatform e r v env s).2.CORE.Window.fullscreen = true ∧
      (Vita.InitPlatform e r v env s).2.CORE.Window.flags &&& r.FLAG_FULLSCREEN_MODE
        = r.FLAG_FULLSCREEN_MODE) := by
  refine ⟨?_, ?_, ?_⟩
  · intro CORE
    have hfin := finishInit_fullscreen env hkeep
      (initWindowState r CORE).Window.display.width
      (initWindowState r CORE).Window.display.height (initWindowState r CORE)
    have hinit := (initWindowState_fullscreen r CORE).1
    have hdef : (Dreamcast.InitPlatform r env CORE).2
        = finishInit env (syncRenderSize (env.SetupFramebuffer
            (initWindowState r CORE).Window.display.width
            (initWindowState r CORE).Window.display.height (initWindowState r CORE))) := rfl
    rw [hdef, hfin.1, hfin.2]
    exact hinit
  · intro v s fuel res h h0
    by_cases hf : PlayStation2.SetupFails v
    · obtain ⟨s', hs', _⟩ := PlayStation2.InitPlatform_fails c r v env fuel s hf
      rw [hs'] at h
      have hres := (Option.some.inj h).symm
      subst hres
      exact absurd h0 (by show ¬ ((-1 : Int) = 0); decide)
    · have hfin := finishInit_fullscreen env hkeep 640 448
        (PlayStation2.initWindowState r s.CORE)
      rw [(PlayStation2.InitPlatform_some c r v env fuel s hf res h).2, hfin.1, hfin.2]
      exact (initWindowState_fullscreen r s.CORE).2
  · intro v s h0
    have hfin := finishInit_fullscreen env hkeep s.CORE.Window.screen.width
      s.CORE.Window.screen.height (initWindowState r s.CORE)
    rw [(Vita.InitPlatform_core e r v env s).2.2 h0, hfin.1, hfin.2]
    exact (initWindowState_fullscreen r s.CORE).1

/-- C25. The window operations `ToggleFullscreen`,
`ToggleBorderlessWindowed`, `MaximizeWindow`, `MinimizeWindow`,
`RestoreWindow`, `SetWindowState`, `ClearWindowState`, `SetWindowIcon`,
`SetWindowIcons`, `SetWindowPosition`, `SetWindowMonitor`, `SetWindowSize`,
`SetWindowOpacity` and `SetWindowFocused` leave `CORE` unchanged for every
argument, in each of the three files, and so does every sequence of them.
Consequently `CORE.Window.fullscreen = true` and `FLAG_FULLSCREEN_MODE` in
`CORE.Window.flags`, once set, remain set after any sequence of these
operations; they are set by a successful `InitPlatform` (when
`SetupFramebuffer`, called after they are assigned, does not write them), and
remain so, in particular after `ToggleFullscreen` and after
`ClearWindowState(FLAG_FULLSCREEN_MODE)`. -/
theorem unsupported_window_operations (r : RaylibConsts) (CORE : CoreData) :
    (∀ (flags : Nat) (image : Image) (images : List Image) (count x y monitor width height : Int)
      (opacity : ℚ),
      Dreamcast.ToggleFullscreen CORE = CORE ∧
      Dreamcast.ToggleBorderlessWindowed CORE = CORE ∧
      Dreamcast.MaximizeWindow CORE = CORE ∧
      Dreamcast.MinimizeWindow CORE = CORE ∧
      Dreamcast.RestoreWindow CORE = CORE ∧
      Dreamcast.SetWindowState flags CORE = CORE ∧
      Dreamcast.ClearWindowState flags CORE = CORE ∧
      Dreamcast.SetWindowIcon image CORE = CORE ∧
      Dreamcast.SetWindowIcons images count CORE = CORE ∧
      Dreamcast.SetWindowPosition x y CORE = CORE ∧
      Dreamcast.SetWindowMonitor monitor CORE = CORE ∧
      Dreamcast.SetWindowSize width height CORE = CORE ∧
      Dreamcast.SetWindowOpacity opacity CORE = CORE ∧
      Dreamcast.SetWindowFocused CORE = CORE ∧
      PlayStation2.ToggleFullscreen CORE = CORE ∧
      PlayStation2.ToggleBorderlessWindowed CORE = CORE ∧
      PlayStation2.MaximizeWindow CORE = CORE ∧
      PlayStation2.MinimizeWindow CORE = CORE ∧
      PlayStation2.RestoreWindow CORE = CORE ∧
      PlayStation2.SetWindowState flags CORE = CORE ∧
      PlayStation2.ClearWindowState flags CORE = CORE ∧
      PlayStation2.SetWindowIcon image CORE = CORE ∧
      PlayStation2.SetWindowIcons images count CORE = CORE ∧
      PlayStation2.SetWindowPosition x y CORE = CORE ∧
      PlayStation2.SetWindowMonitor monitor CORE = CORE ∧
      PlayStation2.SetWindowSize width height CORE = CORE ∧
      PlayStation2.SetWindowOpacity opacity CORE = CORE ∧
      PlayStation2.SetWindowFocused CORE = CORE ∧
      Vita.ToggleFullscreen CORE = CORE ∧
      Vita.ToggleBorderlessWindowed CORE = CORE ∧
      Vita.MaximizeWindow CORE = CORE ∧
      Vita.MinimizeWindow CORE = CORE ∧
      Vita.RestoreWindow CORE = CORE ∧
      Vita.SetWindowState flags CORE = CORE ∧
      Vita.ClearWindowState flags CORE = CORE ∧
      Vita.SetWindowIcon image CORE = CORE ∧
      Vita.SetWindowIcons images count CORE = CORE ∧
      Vita.SetWindowPosition x y CORE = CORE ∧
      Vita.SetWindowMonitor monitor CORE = CORE ∧
      Vita.SetWindowSize width height CORE = CORE ∧
      Vita.SetWindowOpacity opacity CORE = CORE ∧
      Vita.SetWindowFocused CORE = CORE) ∧
    (∀ ops : List WindowOp,
      Dreamcast.runWindowOps ops CORE = CORE ∧
      PlayStation2.runWindowOps ops CORE = CORE ∧
      Vita.runWindowOps ops CORE = CORE) ∧
    (CORE.Window.fullscreen = true →
      CORE.Window.flags &&& r.FLAG_FULLSCREEN_MODE = r.FLAG_FULLSCREEN_MODE →
      ∀ ops : List WindowOp,
        ((Dreamcast.runWindowOps ops CORE).Window.fullscreen = true ∧
          (Dreamcast.runWindowOps ops CORE).Window.flags &&& r.FLAG_FULLSCREEN_MODE
            = r.FLAG_FULLSCREEN_MODE) ∧
        ((PlayStation2.runWindowOps ops CORE).Window.fullscreen = true ∧
          (PlayStation2.runWindowOps ops CORE).Window.flags &&& r.FLAG_FULLSCREEN_MODE
            = r.FLAG_FULLSCREEN_MODE) ∧
        ((Vita.runWindowOps ops CORE).Window.fullscreen = true ∧
          (Vita.runWindowOps ops CORE).Window.flags &&& r.FLAG_FULLSCREEN_MODE
            = r.FLAG_FULLSCREEN_MODE)) ∧
    (∀ env : CoreEnv, env.KeepsFullscreen → ∀ ops : List WindowOp,
      ((Dreamcast.runWindowOps ops (Dreamcast.InitPlatform r env CORE).2).Window.fullscreen
          = true ∧
        (Dreamcast.runWindowOps ops (Dreamcast.InitPlatform r env CORE).2).Window.flags
            &&& r.FLAG_FULLSCREEN_MODE = r.FLAG_FULLSCREEN_MODE) ∧
      (∀ (c : PlayStation2.PadConsts) (v : PlayStation2.Vendor) (s : PlayStation2.State)
        (fuel : Nat) (res : Int × PlayStation2.State),
        PlayStation2.InitPlatform c r v env fuel s = some res → res.1 = 0 →
        (PlayStation2.runWindowOps ops res.2.CORE).Window.fullscreen = true ∧
        (PlayStation2.runWindowOps ops res.2.CORE).Window.flags &&& r.FLAG_FULLSCREEN_MODE
          = r.FLAG_FULLSCREEN_MODE) ∧
      (∀ (e : Vita.EglConsts) (v : Vita.Vendor) (s : Vita.State),
        (Vita.InitPlatform e r v env s).1 = 0 →
        (Vita.runWindowOps ops (Vita.InitPlatform e r v env s).2.CORE).Window.fullscreen
          = true ∧
        (Vita.runWindowOps ops (Vita.InitPlatform e r v env s).2.CORE).Window.flags
            &&& r.FLAG_FULLSCREEN_MODE = r.FLAG_FULLSCREEN_MODE)) ∧
    (∀ env : CoreEnv, env.KeepsFullscreen →
      (Dreamcast.ClearWindowState r.FLAG_FULLSCREEN_MODE
          (Dreamcast.ToggleFullscreen (Dreamcast.InitPlatform r env CORE).2)).Window.fullscreen
        = true ∧
      (Dreamcast.ClearWindowState r.FLAG_FULLSCREEN_MODE
          (Dreamcast.ToggleFullscreen (Dreamcast.InitPlatform r env CORE).2)).Window.flags
            &&& r.FLAG_FULLSCREEN_MODE = r.FLAG_FULLSCREEN_MODE) := by
  refine ⟨?_, ?_, ?_, ?_, ?_⟩
  · intro flags image images count x y monitor width height opacity
    exact ⟨rfl, rfl, rfl, rfl, rfl, rfl, rfl, rfl, rfl, rfl, rfl, rfl, rfl, rfl, rfl, rfl, rfl, rfl, rfl, rfl, rfl, rfl, rfl, rfl, rfl, rfl, rfl, rfl, rfl, rfl, rfl, rfl, rfl, rfl, rfl, rfl, rfl, rfl, rfl, rfl, rfl, rfl⟩
  · intro ops
    exact ⟨Dreamcast.runWindowOps_keeps_dreamcast ops CORE, PlayStation2.runWindowOps_keeps_ps2 ops CORE,
      Vita.runWindowOps_keeps_vita ops CORE⟩
  · intro hfs hfl ops
    rw [Dreamcast.runWindowOps_keeps_dreamcast, PlayStation2.runWindowOps_keeps_ps2,
      Vita.runWindowOps_keeps_vita]
    exact ⟨⟨hfs, hfl⟩, ⟨hfs, hfl⟩, ⟨hfs, hfl⟩⟩
  · intro env hkeep ops
    refine ⟨?_, ?_, ?_⟩
    · rw [Dreamcast.runWindowOps_keeps_dreamcast]
      exact (InitPlatform_fullscreen PlayStation2.padConsts Vita.eglConsts r env hkeep).1 CORE
    · intro c v s fuel res h h0
      rw [PlayStation2.runWindowOps_keeps_ps2]
      exact (InitPlatform_fullscreen c Vita.eglConsts r env hkeep).2.1 v s fuel res h h0
    · intro e v s h0
      rw [Vita.runWindowOps_keeps_vita]
      exact (InitPlatform_fullscreen PlayStation2.padConsts e r env hkeep).2.2 v s h0
  · intro env hkeep
    exact (InitPlatform_fullscreen PlayStation2.padConsts Vita.eglConsts r env hkeep).1 CORE

/-- C25 at a concrete input: after the Dreamcast `InitPlatform` on a window
with flags 32, with a `SetupFramebuffer` that changes nothing, the calls
`ToggleFullscreen`, `ClearWindowState(FLAG_FULLSCREEN_MODE)`,
`SetWindowState(0)`, `SetWindowSize(320, 240)` and `MinimizeWindow` leave
`fullscreen` true and the flags at 34. -/
theorem unsupported_window_operations_witness :
    coreEnvId.KeepsFullscreen ∧
    (Dreamcast.runWindowOps
      [.ToggleFullscreen, .ClearWindowState 2, .SetWindowState 0, .SetWindowSize 320 240,
        .MinimizeWindow]
      (Dreamcast.InitPlatform raylibConsts coreEnvId coreReady).2).Window.fullscreen = true ∧
    (Dreamcast.runWindowOps
      [.ToggleFullscreen, .ClearWindowState 2, .SetWindowState 0, .SetWindowSize 320 240,
        .MinimizeWindow]
      (Dreamcast.InitPlatform raylibConsts coreEnvId coreReady).2).Window.flags = 34 :=
  have hkeep : coreEnvId.KeepsFullscreen := fun _ _ _ => ⟨rfl, rfl⟩
  have h := unsupported_window_operations raylibConsts
    (Dreamcast.InitPlatform raylibConsts coreEnvId coreReady).2
  have h0 := unsupported_window_operations raylibConsts coreReady
  ⟨hkeep,
    ((h0.2.2.2.1 coreEnvId hkeep
      [.ToggleFullscreen, .ClearWindowState 2, .SetWindowState 0, .SetWindowSize 320 240,
        .MinimizeWindow]).1).1,
    (congrArg (fun c : CoreData => c.Window.flags)
      (h.2.1 [.ToggleFullscreen, .ClearWindowState 2, .SetWindowState 0,
        .SetWindowSize 320 240, .MinimizeWindow]).1).trans rfl⟩

/-! ## C8: when the PlayStation 2 `InitPlatform` returns -/

/-- A waiting loop that ended, ended at a read that found the pad ready, one
of the `fuel` reads from `polls` on. -/
theorem PlayStation2.padWait_ended (c : PlayStation2.PadConsts) (v : PlayStation2.Vendor)
    (fuel polls p : Nat) (h : PlayStation2.padWait c v fuel polls = some p) :
    ∃ j, polls ≤ j ∧ j < polls + fuel ∧ PlayStation2.ReadyAt c v j ∧ p = j + 1 := by
  induction fuel generalizing polls with
  | zero => cases h
  | succ fuel ih =>
    rw [PlayStation2.padWait] at h
    by_cases hc : v.padGetState polls ≠ c.PAD_STATE_STABLE ∧
        v.padGetState polls ≠ c.PAD_STATE_FINDCTP1
    · simp only [if_pos hc] at h
      obtain ⟨j, hj, hlt, hr, hp⟩ := ih _ h
      exact ⟨j, by omega, by omega, hr, hp⟩
    · simp only [if_neg hc] at h
      refine ⟨polls, le_refl _, by omega, ?_, (Option.some.inj h).symm⟩
      unfold PlayStation2.ReadyAt
      by_cases h1 : v.padGetState polls = c.PAD_STATE_STABLE
      · exact Or.inl h1
      · by_cases h2 : v.padGetState polls = c.PAD_STATE_FINDCTP1
        · exact Or.inr h2
        · exact absurd ⟨h1, h2⟩ hc

/-- When a read from `polls` on finds the pad ready, the waiting loop ends at
that read or before it, given enough reads. -/
theorem PlayStation2.padWait_ends (c : PlayStation2.PadConsts) (v : PlayStation2.Vendor)
    (polls j : Nat) (hj : polls ≤ j) (hr : PlayStation2.ReadyAt c v j) :
    ∃ p, p ≤ j + 1 ∧ ∀ fuel, j + 1 - polls ≤ fuel →
      PlayStation2.padWait c v fuel polls = some p := by
  have hr2 : PlayStation2.ReadyAt c v (polls + (j - polls)) := by
    have e : polls + (j - polls) = j := by omega
    rw [e]
    exact hr
  obtain ⟨p, hp⟩ := PlayStation2.padWait_of_ready c v (j - polls) polls hr2
  obtain ⟨j2, _, hlt, _, hpj⟩ := PlayStation2.padWait_ended c v _ _ _ hp
  refine ⟨p, by omega, fun fuel hfuel => ?_⟩
  have e : fuel = (j - polls + 1) + (fuel - (j - polls + 1)) := by omega
  rw [e]
  exact PlayStation2.padWait_mono c v _ polls p hp _

/-- Ready reads counted from a read on are also counted from any earlier
read on. -/
theorem PlayStation2.ReadyTimes_from_earlier (c : PlayStation2.PadConsts)
    (v : PlayStation2.Vendor) (k m m2 : Nat) (hm : m2 ≤ m)
    (h : PlayStation2.ReadyTimes c v k m) : PlayStation2.ReadyTimes c v k m2 := by
  cases k with
  | zero => trivial
  | succ k =>
    obtain ⟨j, hj, hr, hrest⟩ := h
    exact ⟨j, le_trans hm hj, hr, hrest⟩

/-- A `waitPadReady` followed by further statements returns, given enough
reads, when the pad is ready often enough for the wait and for what follows. -/
theorem PlayStation2.waitPadReady_bind_returns {α : Type} (c : PlayStation2.PadConsts)
    (v : PlayStation2.Vendor) (k : Nat) (s : PlayStation2.State)
    (K : Nat → PlayStation2.State → Option α)
    (hready : PlayStation2.ReadyTimes c v (k + 1) s.polls)
    (hK : ∀ p, PlayStation2.ReadyTimes c v k p →
      ∃ f res, ∀ fuel, f ≤ fuel → K fuel { s with polls := p } = some res) :
    ∃ f res, ∀ fuel, f ≤ fuel →
      (PlayStation2.waitPadReady c v fuel s).bind (K fuel) = some res := by
  obtain ⟨j, hj, hr, hrest⟩ := hready
  obtain ⟨p, hp, hwait⟩ := PlayStation2.padWait_ends c v s.polls j hj hr
  obtain ⟨f, res, hres⟩ := hK p (PlayStation2.ReadyTimes_from_earlier c v k _ _ hp hrest)
  refine ⟨f + (j + 1 - s.polls), res, fun fuel hfuel => ?_⟩
  unfold PlayStation2.waitPadReady
  rw [hwait fuel (by omega)]
  exact hres fuel (by omega)

/-- When a `waitPadReady` followed by further statements returned, the pad
was ready once more than what followed needed. -/
theorem PlayStation2.waitPadReady_bind_returned {α : Type} (c : PlayStation2.PadConsts)
    (v : PlayStation2.Vendor) (k fuel : Nat) (s : PlayStation2.State)
    (K : PlayStation2.State → Option α) (res : α)
    (h : (PlayStation2.waitPadReady c v fuel s).bind K = some res)
    (hK : ∀ p, K { s with polls := p } = some res → PlayStation2.ReadyTimes c v k p) :
    PlayStation2.ReadyTimes c v (k + 1) s.polls := by
  obtain ⟨s1, hw, hk⟩ := Option.bind_eq_some.mp h
  unfold PlayStation2.waitPadReady at hw
  cases hp : PlayStation2.padWait c v fuel s.polls with
  | none =>
    rw [hp] at hw
    cases hw
  | some p =>
    rw [hp] at hw
    have hs1 := (Option.some.inj hw).symm
    subst hs1
    obtain ⟨j, hj, _, hr, hpj⟩ := PlayStation2.padWait_ended c v _ _ _ hp
    subst hpj
    exact ⟨j, hj, hr, hK _ hk⟩

/-- When the pad is ready as often as `initializePad` waits for it,
`initializePad` returns, with one result for every number of reads allowed
from some number on. -/
theorem PlayStation2.initializePad_returns (c : PlayStation2.PadConsts)
    (v : PlayStation2.Vendor) (port slot : Nat) (s : PlayStation2.State)
    (hready : PlayStation2.ReadyTimes c v (PlayStation2.padWaits c v) s.polls) :
    ∃ f res, ∀ fuel, f ≤ fuel →
      PlayStation2.initializePad c v fuel port slot s = some res := by
  unfold PlayStation2.padWaits at hready
  simp only [] at hready
  unfold PlayStation2.initializePad
  by_cases hm : v.padInfoMode c.PAD_MODETABLE (-1) = 0
  · rw [if_pos hm] at hready
    apply PlayStation2.waitPadReady_bind_returns c v 0 s _ hready
    intro p _
    simp only [hm, if_true]
    exact ⟨0, _, fun _ _ => rfl⟩
  · rw [if_neg hm] at hready
    by_cases hi : PlayStation2.scanModes c v (v.padInfoMode c.PAD_MODETABLE (-1))
        ((v.padInfoMode c.PAD_MODETABLE (-1)).toNat + 1) 0
        ≥ v.padInfoMode c.PAD_MODETABLE (-1)
    · rw [if_pos hi] at hready
      apply PlayStation2.waitPadReady_bind_returns c v 0 s _ hready
      intro p _
      simp only [hm, hi, if_true, if_false]
      exact ⟨0, _, fun _ _ => rfl⟩
    · rw [if_neg hi] at hready
      by_cases he : v.padInfoMode c.PAD_MODECUREXID 0 = 0
      · rw [if_pos he] at hready
        apply PlayStation2.waitPadReady_bind_returns c v 0 s _ hready
        intro p _
        simp only [hm, hi, he, if_true, if_false]
        exact ⟨0, _, fun _ _ => rfl⟩
      · rw [if_neg he] at hready
        by_cases ha : v.padInfoAct ≠ 0
        · rw [if_pos ha] at hready
          apply PlayStation2.waitPadReady_bind_returns c v 5 s _ hready
          intro p1 h1
          simp only [hm, hi, he, if_false]
          apply PlayStation2.waitPadReady_bind_returns c v 4 _ _ h1
          intro p2 h2
          apply PlayStation2.waitPadReady_bind_returns c v 3 _ _ h2
          intro p3 h3
          apply PlayStation2.waitPadReady_bind_returns c v 2 _ _ h3
          intro p4 h4
          simp only [eq_true ha, if_true]
          apply PlayStation2.waitPadReady_bind_returns c v 1 _ _ h4
          intro p5 h5
          apply PlayStation2.waitPadReady_bind_returns c v 0 _ _ h5
          intro p6 _
          exact ⟨0, _, fun _ _ => rfl⟩
        · rw [if_neg ha] at hready
          apply PlayStation2.waitPadReady_bind_returns c v 4 s _ hready
          intro p1 h1
          simp only [hm, hi, he, if_false]
          apply PlayStation2.waitPadReady_bind_returns c v 3 _ _ h1
          intro p2 h2
          apply PlayStation2.waitPadReady_bind_returns c v 2 _ _ h2
          intro p3 h3
          apply PlayStation2.waitPadReady_bind_returns c v 1 _ _ h3
          intro p4 h4
          simp only [ha, if_false]
          apply PlayStation2.waitPadReady_bind_returns c v 0 _ _ h4
          intro p5 _
          exact ⟨0, _, fun _ _ => rfl⟩

/-- When `initializePad` returned, the pad was ready as often as
`initializePad` waits for it. -/
theorem PlayStation2.initializePad_returned (c : PlayStation2.PadConsts)
    (v : PlayStation2.Vendor) (fuel port slot : Nat) (s : PlayStation2.State)
    (res : Int × PlayStation2.State)
    (h : PlayStation2.initializePad c v fuel port slot s = some res) :
    PlayStation2.ReadyTimes c v (PlayStation2.padWaits c v) s.polls := by
  unfold PlayStation2.padWaits
  simp only []
  unfold PlayStation2.initializePad at h
  by_cases hm : v.padInfoMode c.PAD_MODETABLE (-1) = 0
  · rw [if_pos hm]
    exact PlayStation2.waitPadReady_bind_returned c v 0 fuel s _ res h (fun _ _ => trivial)
  · rw [if_neg hm]
    by_cases hi : PlayStation2.scanModes c v (v.padInfoMode c.PAD_MODETABLE (-1))
        ((v.padInfoMode c.PAD_MODETABLE (-1)).toNat + 1) 0
        ≥ v.padInfoMode c.PAD_MODETABLE (-1)
    · rw [if_pos hi]
      exact PlayStation2.waitPadReady_bind_returned c v 0 fuel s _ res h (fun _ _ => trivial)
    · rw [if_neg hi]
      by_cases he : v.padInfoMode c.PAD_MODECUREXID 0 = 0
      · rw [if_pos he]
        exact PlayStation2.waitPadReady_bind_returned c v 0 fuel s _ res h
          (fun _ _ => trivial)
      · rw [if_neg he]
        by_cases ha : v.padInfoAct ≠ 0
        · rw [if_pos ha]
          apply PlayStation2.waitPadReady_bind_returned c v 5 fuel s _ res h
          intro p1 h1
          simp only [hm, hi, he, if_false] at h1
          apply PlayStation2.waitPadReady_bind_returned c v 4 fuel _ _ res h1
          intro p2 h2
          apply PlayStation2.waitPadReady_bind_returned c v 3 fuel _ _ res h2
          intro p3 h3
          apply PlayStation2.waitPadReady_bind_returned c v 2 fuel _ _ res h3
          intro p4 h4
          simp only [eq_true ha, if_true] at h4
          apply PlayStation2.waitPadReady_bind_returned c v 1 fuel _ _ res h4
          intro p5 h5
          exact PlayStation2.waitPadReady_bind_returned c v 0 fuel _ _ res h5
            (fun _ _ => trivial)
        · rw [if_neg ha]
          apply PlayStation2.waitPadReady_bind_returned c v 4 fuel s _ res h
          intro p1 h1
          simp only [hm, hi, he, if_false] at h1
          apply PlayStation2.waitPadReady_bind_returned c v 3 fuel _ _ res h1
          intro p2 h2
          apply PlayStation2.waitPadReady_bind_returned c v 2 fuel _ _ res h2
          intro p3 h3
          apply PlayStation2.waitPadReady_bind_returned c v 1 fuel _ _ res h3
          intro p4 h4
          simp only [ha, if_false] at h4
          exact PlayStation2.waitPadReady_bind_returned c v 0 fuel _ _ res h4
            (fun _ _ => trivial)

/-- Recording a vendor call leaves the count of reads of the pad state alone. -/
theorem PlayStation2.State.call_polls (s : PlayStation2.State) (call : PlayStation2.Call) :
    (s.call call).polls = s.polls := rfl

/-- When the setup does not fail, `InitPlatform` is its pad and graphics part
run on a state with the same `CORE` and the same count of reads of the pad
state, whatever the number of reads allowed. -/
theorem PlayStation2.InitPlatform_past_setup_polls (c : PlayStation2.PadConsts)
    (r : RaylibConsts) (v : PlayStation2.Vendor) (env : CoreEnv) (s : PlayStation2.State)
    (hf : ¬ PlayStation2.SetupFails v) :
    ∃ s1, s1.CORE = s.CORE ∧ s1.polls = s.polls ∧
      ∀ fuel, PlayStation2.InitPlatform c r v env fuel s
        = PlayStation2.initPadAndGraphics c r v env fuel s1 := by
  have h1 : ¬ v.SifLoadModule "rom0:SIO2MAN" < 0 := fun h => hf (Or.inl h)
  have h2 : ¬ v.SifLoadModule "rom0:PADMAN" < 0 := fun h => hf (Or.inr (Or.inl h))
  have h3 : ¬ v.padPortOpen = 0 := fun h => hf (Or.inr (Or.inr h))
  have hall : ∀ fuel, ∃ s1, PlayStation2.InitPlatform c r v env fuel s
        = PlayStation2.initPadAndGraphics c r v env fuel s1 ∧
        s1 = PlayStation2.State.call
          { (((((s.call .SetTraceLogCallback).call (.SifInitRpc 0)).call
            (.SifLoadModule "rom0:SIO2MAN")).call (.SifLoadModule "rom0:PADMAN")).call
            (.padInit 0)) with port := 0, slot := 0 }
          (.padPortOpen 0 0) := by
    intro fuel
    unfold PlayStation2.InitPlatform
    simp only [if_neg h1, if_neg h2, if_neg h3]
    exact ⟨_, rfl, rfl⟩
  refine ⟨PlayStation2.State.call
    { (((((s.call .SetTraceLogCallback).call (.SifInitRpc 0)).call
      (.SifLoadModule "rom0:SIO2MAN")).call (.SifLoadModule "rom0:PADMAN")).call
      (.padInit 0)) with port := 0, slot := 0 }
    (.padPortOpen 0 0), ?_, ?_, fun fuel => ?_⟩
  · simp only [PlayStation2.State.call_CORE]
  · simp only [PlayStation2.State.call_polls]
  · obtain ⟨s1, heq, hs1⟩ := hall fuel
    rw [heq, hs1]

/-- When the setup does not fail, the PlayStation 2 `InitPlatform` returns
exactly when the pad is ready as often as `initializePad` waits for it, and
then with one result for every number of reads allowed from some number on. -/
theorem PlayStation2.InitPlatform_returns_iff (c : PlayStation2.PadConsts)
    (r : RaylibConsts) (v : PlayStation2.Vendor) (env : CoreEnv) (s : PlayStation2.State)
    (hf : ¬ PlayStation2.SetupFails v) :
    (PlayStation2.ReadyTimes c v (PlayStation2.padWaits c v) s.polls →
      ∃ f res, ∀ fuel, f ≤ fuel → PlayStation2.InitPlatform c r v env fuel s = some res) ∧
    (∀ fuel res, PlayStation2.InitPlatform c r v env fuel s = some res →
      PlayStation2.ReadyTimes c v (PlayStation2.padWaits c v) s.polls) := by
  obtain ⟨s1, _, hpolls, heq⟩ := PlayStation2.InitPlatform_past_setup_polls c r v env s hf
  refine ⟨fun hready => ?_, fun fuel res h => ?_⟩
  · rw [← hpolls] at hready
    obtain ⟨f, pr, hpr⟩ := PlayStation2.initializePad_returns c v s1.port s1.slot s1 hready
    have hbody : ∃ res, ∀ fuel, f ≤ fuel →
        PlayStation2.initPadAndGraphics c r v env fuel s1 = some res := by
      by_cases h0 : pr.1 = 0
      · refine ⟨(-1, pr.2), fun fuel hfuel => ?_⟩
        unfold PlayStation2.initPadAndGraphics
        rw [hpr fuel hfuel, Option.some_bind]
        simp only [if_pos h0]
      · refine ⟨(0, PlayStation2.initGraphics r v env pr.2), fun fuel hfuel => ?_⟩
        unfold PlayStation2.initPadAndGraphics
        rw [hpr fuel hfuel, Option.some_bind]
        simp only [if_neg h0]
    obtain ⟨res, hres⟩ := hbody
    exact ⟨f, res, fun fuel hfuel => by rw [heq fuel, hres fuel hfuel]⟩
  · rw [heq fuel] at h
    unfold PlayStation2.initPadAndGraphics at h
    obtain ⟨pr, hp, _⟩ := Option.bind_eq_some.mp h
    rw [← hpolls]
    exact PlayStation2.initializePad_returned c v fuel _ _ s1 pr hp

/-- The number of waits of `initializePad`, by what the pad reports. -/
theorem PlayStation2.padWaits_cases (c : PlayStation2.PadConsts) (v : PlayStation2.Vendor) :
    (¬ PlayStation2.DualShockFound c v → PlayStation2.padWaits c v = 1) ∧
    (PlayStation2.DualShockFound c v → v.padInfoAct = 0 → PlayStation2.padWaits c v = 5) ∧
    (PlayStation2.DualShockFound c v → v.padInfoAct ≠ 0 → PlayStation2.padWaits c v = 6) := by
  rw [PlayStation2.dualShockFound_iff]
  unfold PlayStation2.padWaits
  simp only []
  by_cases hm : v.padInfoMode c.PAD_MODETABLE (-1) = 0
  · simp [hm]
  · by_cases hi : PlayStation2.scanModes c v (v.padInfoMode c.PAD_MODETABLE (-1))
        ((v.padInfoMode c.PAD_MODETABLE (-1)).toNat + 1) 0
        ≥ v.padInfoMode c.PAD_MODETABLE (-1)
    · simp [hm, hi]
    · by_cases he : v.padInfoMode c.PAD_MODECUREXID 0 = 0
      · simp [hm, hi, he]
      · by_cases ha : v.padInfoAct = 0
        · simp [hm, hi, he, ha]
        · simp [hm, hi, he, ha]

/-- C8, as the code has it. The PlayStation 2 `InitPlatform` returns -1 and
leaves `CORE` as it was (so `CORE.Window.ready` is not set and no `CORE` field
is written) if `SifLoadModule` returns a negative value for `rom0:SIO2MAN` or
for `rom0:PADMAN`, or if `padPortOpen` returns 0. In every other case it calls
`initializePad`, which waits for the pad (until a read of `padGetState` gives
`PAD_STATE_STABLE` or `PAD_STATE_FINDCTP1`) once when it finds no DualShock
pad, five times when it finds one that reports no actuators and six times
when it reports some, each wait reading on from where the one before stopped.
`InitPlatform` returns exactly when at least that many of the reads of
`padGetState`, from the first it makes on, find the pad ready; it then
returns 0 with `CORE.Window.ready = true`, the same result for every number
of reads allowed from some number on. When fewer reads find the pad ready it
does not return. -/
theorem PlayStation2.InitPlatform_returns (c : PlayStation2.PadConsts) (r : RaylibConsts)
    (v : PlayStation2.Vendor) (env : CoreEnv) (s : PlayStation2.State) :
    (PlayStation2.SetupFails v → ∀ fuel,
      ∃ s', PlayStation2.InitPlatform c r v env fuel s = some (-1, s') ∧ s'.CORE = s.CORE) ∧
    ((¬ PlayStation2.DualShockFound c v → PlayStation2.padWaits c v = 1) ∧
      (PlayStation2.DualShockFound c v → v.padInfoAct = 0 → PlayStation2.padWaits c v = 5) ∧
      (PlayStation2.DualShockFound c v → v.padInfoAct ≠ 0 →
        PlayStation2.padWaits c v = 6)) ∧
    (¬ PlayStation2.SetupFails v →
      ((∃ fuel res, PlayStation2.InitPlatform c r v env fuel s = some res) ↔
        PlayStation2.ReadyTimes c v (PlayStation2.padWaits c v) s.polls) ∧
      (PlayStation2.ReadyTimes c v (PlayStation2.padWaits c v) s.polls →
        ∃ f s', s'.CORE.Window.ready = true ∧
          ∀ fuel, f ≤ fuel → PlayStation2.InitPlatform c r v env fuel s = some (0, s')) ∧
      (∀ fuel res, PlayStation2.InitPlatform c r v env fuel s = some res →
        res.1 = 0 ∧ res.2.CORE.Window.ready = true) ∧
      (¬ PlayStation2.ReadyTimes c v (PlayStation2.padWaits c v) s.polls →
        ∀ fuel, PlayStation2.InitPlatform c r v env fuel s = none)) := by
  refine ⟨fun hf fuel => PlayStation2.InitPlatform_fails c r v env fuel s hf,
    PlayStation2.padWaits_cases c v, fun hf => ?_⟩
  obtain ⟨hfwd, hrev⟩ := PlayStation2.InitPlatform_returns_iff c r v env s hf
  have hsome : ∀ fuel res, PlayStation2.InitPlatform c r v env fuel s = some res →
      res.1 = 0 ∧ res.2.CORE.Window.ready = true := by
    intro fuel res h
    obtain ⟨h0, hcore⟩ := PlayStation2.InitPlatform_some c r v env fuel s hf res h
    exact ⟨h0, by rw [hcore, finishInit_Window]⟩
  refine ⟨⟨fun ⟨fuel, res, h⟩ => hrev fuel res h, fun hready => ?_⟩, ?_, hsome, ?_⟩
  · obtain ⟨f, res, hres⟩ := hfwd hready
    exact ⟨f, res, hres f (le_refl f)⟩
  · intro hready
    obtain ⟨f, res, hres⟩ := hfwd hready
    obtain ⟨h0, hr⟩ := hsome f res (hres f (le_refl f))
    refine ⟨f, res.2, hr, fun fuel hfuel => ?_⟩
    rw [hres fuel hfuel, ← h0]
  · intro hnot fuel
    cases h : PlayStation2.InitPlatform c r v env fuel s with
    | none => rfl
    | some res => exact absurd (hrev fuel res h) hnot

/-- C8 at concrete inputs. When the port does not open, `InitPlatform` returns
-1 and `CORE` is as it was. With a digital pad that is ready at the first read
of its state and at no later one, there is one wait and `InitPlatform` returns
0 with the window ready. With a DualShock pad with actuators that is ready at
the first read only, there are six waits, the second never ends and
`InitPlatform` does not return. -/
theorem PlayStation2.InitPlatform_returns_witness :
    (∃ s', PlayStation2.InitPlatform PlayStation2.padConsts raylibConsts
        { PlayStation2.vendorA with padPortOpen := 0 } coreEnvId 0 PlayStation2.stateZero
          = some (-1, s') ∧
      s'.CORE = PlayStation2.stateZero.CORE) ∧
    (PlayStation2.padWaits PlayStation2.padConsts PlayStation2.vendorReadyOnce = 1 ∧
      ∃ f s', s'.CORE.Window.ready = true ∧
        ∀ fuel, f ≤ fuel →
          PlayStation2.InitPlatform PlayStation2.padConsts raylibConsts
            PlayStation2.vendorReadyOnce coreEnvId fuel PlayStation2.stateZero
            = some (0, s')) ∧
    (PlayStation2.padWaits PlayStation2.padConsts PlayStation2.vendorDualShockOnce = 6 ∧
      ∀ fuel, PlayStation2.InitPlatform PlayStation2.padConsts raylibConsts
        PlayStation2.vendorDualShockOnce coreEnvId fuel PlayStation2.stateZero = none) :=
  have hno : ∀ j, 1 ≤ j →
      ¬ PlayStation2.ReadyAt PlayStation2.padConsts PlayStation2.vendorDualShockOnce j := by
    intro j hj h
    have hv : PlayStation2.vendorDualShockOnce.padGetState j = 0 := by
      show (if j = 0 then (6 : Int) else 0) = 0
      rw [if_neg (by omega)]
    unfold PlayStation2.ReadyAt at h
    rw [hv] at h
    rcases h with h | h
    · exact absurd h (by decide)
    · exact absurd h (by decide)
  have hw6 : PlayStation2.padWaits PlayStation2.padConsts PlayStation2.vendorDualShockOnce
      = 6 := by decide
  have hnot : ¬ PlayStation2.ReadyTimes PlayStation2.padConsts
      PlayStation2.vendorDualShockOnce
      (PlayStation2.padWaits PlayStation2.padConsts PlayStation2.vendorDualShockOnce)
      PlayStation2.stateZero.polls := by
    rw [hw6]
    rintro ⟨j, _, _, j2, hj2, hr2, _⟩
    exact hno j2 (by omega) hr2
  ⟨(PlayStation2.InitPlatform_returns PlayStation2.padConsts raylibConsts
      { PlayStation2.vendorA with padPortOpen := 0 } coreEnvId PlayStation2.stateZero).1
      (Or.inr (Or.inr rfl)) 0,
    ⟨by decide,
      ((PlayStation2.InitPlatform_returns PlayStation2.padConsts raylibConsts
        PlayStation2.vendorReadyOnce coreEnvId PlayStation2.stateZero).2.2
        (by unfold PlayStation2.SetupFails; decide)).2.1
        ⟨0, le_refl _, Or.inl rfl, trivial⟩⟩,
    ⟨hw6,
      ((PlayStation2.InitPlatform_returns PlayStation2.padConsts raylibConsts
        PlayStation2.vendorDualShockOnce coreEnvId PlayStation2.stateZero).2.2
        (by unfold PlayStation2.SetupFails; decide)).2.2.2 hnot⟩⟩

end Raylib
